import Mathlib

/-!
Verification development for the zcad-rs DXF-like parser and document model.

The Rust sources (zcad-core/src/lib.rs, zcad-io/src/lib.rs) are shallowly
embedded below.  `f64` values are idealised as real numbers; the text-to-number
conversions (`str::parse::<f64>`) are modelled by an exact decimal-to-rational
parser whose result is cast into `ℝ`.  The `f64` infinities used by the
`Bounds2D::empty` sentinel are modelled with `EReal` coordinates (`⊤`/`⊥`);
all other coordinates are finite reals coerced into `EReal` only when stored
in a bounding box, exactly mirroring how the Rust code only ever compares the
sentinel and never feeds it into arithmetic.
-/

namespace Zcad

set_option genSizeOfSpec false
set_option genSizeOf false
set_option genInjectivity false

/-- 2π, the `std::f64::consts::TAU` constant. -/
noncomputable def tau : ℝ := 2 * Real.pi

/-- `f64::EPSILON` (machine epsilon of binary64), used by the source only as a
degeneracy threshold. -/
noncomputable def f64Epsilon : ℝ := (2 : ℝ) ^ (-52 : ℤ)

/-- The literal `1e-9` threshold used by the geometry code. -/
noncomputable def oneE9 : ℝ := 1 / 1000000000

/-- `f64::to_radians`: multiply by π/180. -/
noncomputable def degToRad (x : ℝ) : ℝ := x * (Real.pi / 180)

/-- Rust float truncation toward zero (used by the `%` remainder operator). -/
noncomputable def rustTrunc (x : ℝ) : ℤ := if 0 ≤ x then ⌊x⌋ else ⌈x⌉

/-- Rust `%` on `f64`: remainder with the sign of the dividend. -/
noncomputable def rustRem (a b : ℝ) : ℝ := a - b * ((rustTrunc (a / b) : ℤ) : ℝ)

/-- `f64::atan2` (standard two-argument arctangent, zero edge cases idealised). -/
noncomputable def atan2 (y x : ℝ) : ℝ :=
  if 0 < x then Real.arctan (y / x)
  else if x < 0 ∧ 0 ≤ y then Real.arctan (y / x) + Real.pi
  else if x < 0 then Real.arctan (y / x) - Real.pi
  else if 0 < y then Real.pi / 2
  else if y < 0 then -(Real.pi / 2)
  else 0

/-- `geometry::Point2` (glam DVec2 with f64 components). -/
structure Point2 where
  x : ℝ
  y : ℝ

/-- `geometry::Vector2`. -/
structure Vector2 where
  x : ℝ
  y : ℝ

/-- `geometry::Point3`. -/
structure Point3 where
  x : ℝ
  y : ℝ
  z : ℝ

/-- `geometry::Vector3`. -/
structure Vector3 where
  x : ℝ
  y : ℝ
  z : ℝ

/-- `Point2::translate`. -/
def Point2.translate (p : Point2) (v : Vector2) : Point2 := ⟨p.x + v.x, p.y + v.y⟩

/-- Euclidean length of a `Vector2` (`DVec2::length`). -/
noncomputable def Vector2.length (v : Vector2) : ℝ := Real.sqrt (v.x * v.x + v.y * v.y)

/-- `DVec2::length_squared`. -/
def Vector2.lengthSquared (v : Vector2) : ℝ := v.x * v.x + v.y * v.y

set_option genInjectivity true

/-- A bounding-box coordinate: a real number or one of the `f64` infinities
used by the empty sentinel. -/
structure BPoint where
  x : EReal
  y : EReal

/-- Coerce a finite point into bounding-box coordinates. -/
def Point2.toB (p : Point2) : BPoint := ⟨(p.x : EReal), (p.y : EReal)⟩

/-- `geometry::Bounds2D`. -/
structure Bounds2D where
  min : BPoint
  max : BPoint

set_option genInjectivity false

namespace Bounds2D

/-- `Bounds2D::empty`: `min = (+∞, +∞)`, `max = (−∞, −∞)`. -/
def empty : Bounds2D := ⟨⟨⊤, ⊤⟩, ⟨⊥, ⊥⟩⟩

/-- `Bounds2D::is_empty`. -/
def isEmpty (b : Bounds2D) : Prop := b.max.x < b.min.x ∨ b.max.y < b.min.y

noncomputable instance (b : Bounds2D) : Decidable b.isEmpty := by
  unfold isEmpty; infer_instance

/-- `Bounds2D::include_point`. -/
noncomputable def includePoint (b : Bounds2D) (p : Point2) : Bounds2D :=
  if b.isEmpty then ⟨p.toB, p.toB⟩
  else
    ⟨⟨Min.min b.min.x (p.x : EReal), Min.min b.min.y (p.y : EReal)⟩,
     ⟨Max.max b.max.x (p.x : EReal), Max.max b.max.y (p.y : EReal)⟩⟩

/-- `Bounds2D::include_bounds`. -/
noncomputable def includeBounds (b other : Bounds2D) : Bounds2D :=
  if other.isEmpty then b
  else
    -- the source re-includes `other.min`/`other.max` as points; both are
    -- finite here because `other` is nonempty, but we keep the exact
    -- EReal-level min/max combination the code performs
    let afterMin :=
      if b.isEmpty then Bounds2D.mk ⟨other.min.x, other.min.y⟩ ⟨other.min.x, other.min.y⟩
      else
        ⟨⟨Min.min b.min.x other.min.x, Min.min b.min.y other.min.y⟩,
         ⟨Max.max b.max.x other.min.x, Max.max b.max.y other.min.y⟩⟩
    if afterMin.isEmpty then Bounds2D.mk ⟨other.max.x, other.max.y⟩ ⟨other.max.x, other.max.y⟩
    else
      ⟨⟨Min.min afterMin.min.x other.max.x, Min.min afterMin.min.y other.max.y⟩,
       ⟨Max.max afterMin.max.x other.max.x, Max.max afterMin.max.y other.max.y⟩⟩

end Bounds2D

/-! ### Entity data model (zcad-core `document` module) -/

/-- `document::Layer`. -/
structure Layer where
  name : String
  is_visible : Bool

/-- `Layer::new`: visible by default. -/
def Layer.new (name : String) : Layer := ⟨name, true⟩

/-- `document::Line`. -/
structure Line where
  start : Point2
  endPoint : Point2
  layer : String

/-- `document::Circle`. -/
structure Circle where
  center : Point2
  radius : ℝ
  layer : String

/-- `document::Arc` (angles stored in radians). -/
structure Arc where
  center : Point2
  radius : ℝ
  start_angle : ℝ
  end_angle : ℝ
  layer : String

/-- `document::Ellipse`. -/
structure Ellipse where
  center : Point2
  major_axis : Vector2
  ratio : ℝ
  start_parameter : ℝ
  end_parameter : ℝ
  layer : String

/-- `document::PolylineVertex`. -/
structure PolylineVertex where
  position : Point2
  bulge : ℝ

/-- `PolylineVertex::new` (zero bulge). -/
def PolylineVertex.new (position : Point2) : PolylineVertex := ⟨position, 0⟩

/-- `document::Polyline`. -/
structure Polyline where
  vertices : List PolylineVertex
  is_closed : Bool
  layer : String

/-- `document::Spline`. -/
structure Spline where
  degree : Int
  is_rational : Bool
  is_closed : Bool
  is_periodic : Bool
  control_points : List Point2
  fit_points : List Point2
  knot_values : List ℝ
  weights : List ℝ
  start_tangent : Option Vector2
  end_tangent : Option Vector2
  layer : String

/-- `document::Text`. -/
structure Text where
  insert : Point2
  content : String
  height : ℝ
  rotation : ℝ
  layer : String

/-- `document::MText`. -/
structure MText where
  insert : Point2
  content : String
  height : ℝ
  reference_width : Option ℝ
  direction : Vector2
  attachment_point : Int
  drawing_direction : Int
  style : Option String
  layer : String

/-- `document::HatchEdge`. -/
inductive HatchEdge where
  | line (start endPoint : Point2)
  | arc (center : Point2) (radius start_angle end_angle : ℝ)
      (is_counter_clockwise : Bool)
  | polylineSegment (start endPoint : Point2) (bulge : ℝ)
  | ellipse (center : Point2) (major_axis : Vector2)
      (minor_ratio start_angle end_angle : ℝ) (is_counter_clockwise : Bool)
  | boundaryReference (handle : String)
  | spline (control_points fit_points : List Point2) (knot_values : List ℝ)
      (degree : Int) (is_rational is_periodic : Bool)

/-- `document::HatchLoop`. -/
structure HatchLoop where
  is_polyline : Bool
  is_closed : Bool
  edges : List HatchEdge
  boundary_handles : List String

/-- `document::HatchGradient`. -/
structure HatchGradient where
  name : String
  angle : ℝ
  shift : Option ℝ
  tint : Option ℝ
  is_single_color : Bool
  color1 : Option Nat
  color2 : Option Nat

/-- `document::Hatch`. -/
structure Hatch where
  pattern_name : String
  is_solid : Bool
  loops : List HatchLoop
  gradient : Option HatchGradient
  layer : String

/-- `document::DimensionKind`. -/
inductive DimensionKind where
  | linear
  | aligned
  | angular
  | diameter
  | radius
  | angular3Point
  | ordinate
  | unknown (code : Int)

/-- `document::Dimension`. -/
structure Dimension where
  kind : DimensionKind
  definition_point : Point2
  text_midpoint : Point2
  dimension_line_point : Option Point2
  extension_line_origin : Option Point2
  extension_line_end : Option Point2
  secondary_point : Option Point2
  arc_definition_point : Option Point2
  center_point : Option Point2
  text : Option String
  measurement : Option ℝ
  rotation : ℝ
  text_rotation : Option ℝ
  oblique_angle : Option ℝ
  layer : String

/-- `document::Leader`. -/
structure Leader where
  layer : String
  style_name : Option String
  vertices : List Point2
  has_arrowhead : Bool

/-- `document::LeaderLine`. -/
structure LeaderLine where
  vertices : List Point2

/-- `document::MLeaderBlockContent`. -/
structure MLeaderBlockContent where
  block_handle : Option String
  block_name : Option String
  location : Point2
  scale : Vector2
  rotation : ℝ
  connection_type : Option Int

/-- `document::MLeaderContent`. -/
inductive MLeaderContent where
  | mtext (text : String) (location : Point2)
  | block (block : MLeaderBlockContent)
  | none

/-- `document::MLeader`. -/
structure MLeader where
  layer : String
  style_name : Option String
  leader_lines : List LeaderLine
  content : MLeaderContent
  text_height : Option ℝ
  scale : Option ℝ
  has_dogleg : Bool
  dogleg_length : Option ℝ
  landing_gap : Option ℝ

/-- `document::ThreeDFace` (the `[Point3; 4]` vertex array is a 4-element
list, likewise the invisible-edge flags). -/
structure ThreeDFace where
  layer : String
  vertices : List Point3
  invisible_edges : List Bool

/-- `document::RasterImageDisplayOptions`. -/
structure RasterImageDisplayOptions where
  show_image : Bool
  show_border : Bool
  use_clipping : Bool
  brightness : Option Int
  contrast : Option Int
  fade : Option Int

/-- `RasterImageDisplayOptions::default`. -/
def RasterImageDisplayOptions.default : RasterImageDisplayOptions :=
  ⟨true, false, false, Option.none, Option.none, Option.none⟩

/-- `document::ClipMode`. -/
inductive ClipMode where
  | outside
  | inside

/-- `document::RasterImageClip`. -/
inductive RasterImageClip where
  | rectangle (min max : Point2) (mode : ClipMode)
  | polygon (vertices : List Point2) (mode : ClipMode)

/-- `document::RasterImage`. -/
structure RasterImage where
  layer : String
  image_def_handle : String
  insert : Point2
  u_vector : Vector2
  v_vector : Vector2
  image_size : Vector2
  display_options : RasterImageDisplayOptions
  image_def_reactor_handle : Option String
  clip : Option RasterImageClip

/-- `document::RasterImageDefinition`. -/
structure RasterImageDefinition where
  handle : String
  name : Option String
  file_path : String
  image_size_pixels : Option Vector2
  pixel_size : Option Vector2
  resolved_path : Option String

/-- `document::Wipeout`. -/
structure Wipeout where
  layer : String
  insert : Point2
  u_vector : Vector2
  v_vector : Vector2
  image_size : Vector2
  display_options : RasterImageDisplayOptions
  clip : Option RasterImageClip

/-- `document::ImageDefReactor`. -/
structure ImageDefReactor where
  handle : String
  class_version : Int
  owner_handle : Option String
  image_handle : Option String

/-- `document::ImageDictionaryEntry`. -/
structure ImageDictionaryEntry where
  name : String
  image_def_handle : String
  reactor_handle : Option String

/-- `document::ImageDictionary`. -/
structure ImageDictionary where
  handle : Option String
  entries : List ImageDictionaryEntry

/-- `document::RasterImageVariables`. -/
structure RasterImageVariables where
  handle : Option String
  class_version : Option Int
  frame : Option Int
  quality : Option Int
  units : Option Int

/-- `document::Attribute`. -/
structure Attribute where
  tag : String
  text : String
  insert : Point2
  height : ℝ
  rotation : ℝ
  width_factor : ℝ
  oblique : ℝ
  style : Option String
  prompt : Option String
  alignment : Option Point2
  horizontal_align : Int
  vertical_align : Int
  line_spacing_factor : ℝ
  line_spacing_style : Int
  is_invisible : Bool
  is_constant : Bool
  is_verify : Bool
  is_preset : Bool
  lock_position : Bool
  layer : String

/-- `document::BlockReference`. -/
structure BlockReference where
  name : String
  insert : Point2
  scale : Vector2
  rotation : ℝ
  attributes : List Attribute
  layer : String

/-- `document::AttributeDefinition`. -/
structure AttributeDefinition where
  tag : String
  prompt : Option String
  default_text : String
  insert : Point2
  height : ℝ
  rotation : ℝ
  width_factor : ℝ
  oblique : ℝ
  style : Option String
  alignment : Option Point2
  horizontal_align : Int
  vertical_align : Int
  line_spacing_factor : ℝ
  line_spacing_style : Int
  is_invisible : Bool
  is_constant : Bool
  is_verify : Bool
  is_preset : Bool
  lock_position : Bool
  layer : String

/-- `document::Entity`: the closed 16-variant union. -/
inductive Entity where
  | line (l : Line)
  | circle (c : Circle)
  | arc (a : Arc)
  | ellipse (e : Ellipse)
  | polyline (p : Polyline)
  | spline (s : Spline)
  | text (t : Text)
  | mtext (m : MText)
  | blockReference (b : BlockReference)
  | hatch (h : Hatch)
  | dimension (d : Dimension)
  | leader (l : Leader)
  | mleader (m : MLeader)
  | rasterImage (r : RasterImage)
  | wipeout (w : Wipeout)
  | face3d (f : ThreeDFace)

/-- `Entity::layer_name`: exhaustive dispatch over all 16 variants. -/
def Entity.layerName : Entity → String
  | .line l => l.layer
  | .circle c => c.layer
  | .arc a => a.layer
  | .ellipse e => e.layer
  | .polyline p => p.layer
  | .spline s => s.layer
  | .text t => t.layer
  | .mtext m => m.layer
  | .blockReference b => b.layer
  | .hatch h => h.layer
  | .dimension d => d.layer
  | .leader l => l.layer
  | .mleader m => m.layer
  | .rasterImage r => r.layer
  | .wipeout w => w.layer
  | .face3d f => f.layer

/-! ### Geometry helpers shared by bounds computation (zcad-core) -/

/-- `document::normalize_angle`: reduce into `[0, 2π)` via Rust `%` plus a
conditional correction. -/
noncomputable def normalizeAngle (angle : ℝ) : ℝ :=
  let result := rustRem angle tau
  if result < 0 then result + tau else result

/-- `document::canonical_interval`. -/
noncomputable def canonicalInterval (startAngle endAngle : ℝ) : ℝ × ℝ :=
  let s := normalizeAngle startAngle
  let e := normalizeAngle endAngle
  if |e - s| < oneE9 then (s, s + tau)
  else if e < s then (s, e + tau)
  else (s, e)

/-- `document::arc_point`. -/
noncomputable def arcPoint (center : Point2) (radius angle : ℝ) : Point2 :=
  center.translate ⟨radius * Real.cos angle, radius * Real.sin angle⟩

/-- The `while candidate < start { candidate += TAU }` loop of
`document::arc_bounds` (and of the end-parameter adjustment of
`document::ellipse_bounds`): the smallest lift `base + 2π·k`, `k ∈ ℕ`, that is
`≥ start` (equal to `base` itself when `base ≥ start`). -/
noncomputable def liftAbove (start base : ℝ) : ℝ :=
  base + tau * ((Max.max 0 ⌈(start - base) / tau⌉ : ℤ) : ℝ)

/-- The four quadrant base angles of `document::arc_bounds`. -/
noncomputable def quadrantAngles : List ℝ :=
  [0, Real.pi / 2, Real.pi, Real.pi / 2 * 3]

/-- `document::arc_bounds`. -/
noncomputable def arcBounds (arc : Arc) (b : Bounds2D) : Bounds2D :=
  let radius := |arc.radius|
  if radius ≤ f64Epsilon then b.includePoint arc.center
  else
    let se := canonicalInterval arc.start_angle arc.end_angle
    let b1 := (b.includePoint (arcPoint arc.center radius se.1)).includePoint
      (arcPoint arc.center radius se.2)
    quadrantAngles.foldl
      (fun acc base =>
        let candidate := liftAbove se.1 base
        if candidate ≤ se.2 then acc.includePoint (arcPoint arc.center radius candidate)
        else acc)
      b1

/-- The sample-count formula of `document::ellipse_bounds`:
`((span / (TAU / 64)).ceil() as usize).max(16)`. -/
noncomputable def ellipseStepCount (span : ℝ) : ℕ :=
  Max.max (⌈span / (tau / 64)⌉.toNat) 16

/-- The end-parameter adjustment of `document::ellipse_bounds`: force a full
turn for a degenerate span, else lift the end above the start by whole turns. -/
noncomputable def ellipseAdjustedEnd (s e : ℝ) : ℝ :=
  if |e - s| < oneE9 then s + tau
  else if e < s then liftAbove s e
  else e

/-- The minor-axis vector derived inside `document::ellipse_bounds`
(`minor_dir * minor_length` for the unit normal of the major axis). -/
noncomputable def ellipseMinorVec (ell : Ellipse) : Vector2 :=
  let majorLength := ell.major_axis.length
  let minorLength := majorLength * |ell.ratio|
  ⟨-(ell.major_axis.y / majorLength) * minorLength,
    ell.major_axis.x / majorLength * minorLength⟩

/-- The curve point `center + major·cos t + minor·sin t` evaluated by
`document::ellipse_bounds` at parameter `t`. -/
noncomputable def ellipsePointAt (ell : Ellipse) (t : ℝ) : Point2 :=
  ell.center.translate
    ⟨ell.major_axis.x * Real.cos t + (ellipseMinorVec ell).x * Real.sin t,
     ell.major_axis.y * Real.cos t + (ellipseMinorVec ell).y * Real.sin t⟩

/-- The i-th sample parameter of `document::ellipse_bounds`. -/
noncomputable def ellipseSampleParameter (s span : ℝ) (i stepCount : ℕ) : ℝ :=
  s + span * ((i : ℝ) / (stepCount : ℝ))

/-- `document::ellipse_bounds`: samples the curve, no quadrant analysis. -/
noncomputable def ellipseBounds (ell : Ellipse) (b : Bounds2D) : Bounds2D :=
  let majorLength := ell.major_axis.length
  if majorLength ≤ f64Epsilon then b.includePoint ell.center
  else
    let s := ell.start_parameter
    let e := ellipseAdjustedEnd s ell.end_parameter
    let span := e - s
    let stepCount := ellipseStepCount span
    (List.range (stepCount + 1)).foldl
      (fun acc i => acc.includePoint (ellipsePointAt ell (ellipseSampleParameter s span i stepCount))) b

/-- The bulge→arc reconstruction inside `document::polyline_segment_bounds`:
`None` on any of the degeneracy guards, otherwise the `Arc` value the source
hands to `arc_bounds` (center = chord midpoint + unit left normal × sagitta). -/
noncomputable def bulgeArcOf (start endPoint : Point2) (bulge : ℝ) : Option Arc :=
  if |bulge| ≤ oneE9 then Option.none
  else
    let chord : Vector2 := ⟨endPoint.x - start.x, endPoint.y - start.y⟩
    let chordLen := chord.length
    if chordLen ≤ f64Epsilon then Option.none
    else
      let theta := 4 * Real.arctan bulge
      if |theta| ≤ oneE9 then Option.none
      else
        let halfTheta := theta / 2
        let sinHalf := Real.sin halfTheta
        if |sinHalf| ≤ oneE9 then Option.none
        else
          let radius := chordLen / (2 * sinHalf)
          let midpoint : Point2 := ⟨(start.x + endPoint.x) / 2, (start.y + endPoint.y) / 2⟩
          let perp : Vector2 := ⟨-chord.y, chord.x⟩
          if perp.lengthSquared ≤ f64Epsilon then Option.none
          else
            let perpDir : Vector2 := ⟨perp.x / perp.length, perp.y / perp.length⟩
            let sagitta := bulge * chordLen / 2
            let center : Point2 :=
              ⟨midpoint.x + perpDir.x * sagitta, midpoint.y + perpDir.y * sagitta⟩
            let startDir : Vector2 := ⟨start.x - center.x, start.y - center.y⟩
            let startAngle := atan2 startDir.y startDir.x
            Option.some ⟨center, |radius|, startAngle, startAngle + theta, ""⟩

/-- `document::polyline_segment_bounds`. -/
noncomputable def polylineSegmentBounds (start endPoint : Point2) (bulge : ℝ)
    (b : Bounds2D) : Bounds2D :=
  match bulgeArcOf start endPoint bulge with
  | Option.none => b
  | Option.some arc => arcBounds arc b

/-- `document::include_hatch_edge_bounds`.  Note: the `is_counter_clockwise`
flag of arc and ellipse edges is matched with `..` and never used. -/
noncomputable def includeHatchEdgeBounds (edge : HatchEdge) (b : Bounds2D) : Bounds2D :=
  match edge with
  | .line s e => (b.includePoint s).includePoint e
  | .arc center radius sa ea _ => arcBounds ⟨center, radius, sa, ea, ""⟩ b
  | .polylineSegment s e bulge =>
      polylineSegmentBounds s e bulge ((b.includePoint s).includePoint e)
  | .ellipse center major minorRatio sa ea _ =>
      ellipseBounds ⟨center, major, minorRatio, sa, ea, ""⟩ b
  | .boundaryReference _ => b
  | .spline cps fps _ _ _ _ =>
      (cps ++ fps).foldl Bounds2D.includePoint b

/-- `document::include_clip_bounds` (raster image / wipeout extent). -/
noncomputable def includeClipBounds (b : Bounds2D) (insert : Point2)
    (uVector vVector imageSize : Vector2) (clip : Option RasterImageClip) : Bounds2D :=
  let includeLocal := fun (acc : Bounds2D) (localPt : Point2) =>
    acc.includePoint
      ⟨insert.x + uVector.x * localPt.x + vVector.x * localPt.y,
       insert.y + uVector.y * localPt.x + vVector.y * localPt.y⟩
  match clip with
  | Option.some (.rectangle lo hi _) =>
      [lo, Point2.mk hi.x lo.y, Point2.mk lo.x hi.y, hi].foldl includeLocal b
  | Option.some (.polygon vertices _) => vertices.foldl includeLocal b
  | Option.none =>
      [Point2.mk 0 0, Point2.mk imageSize.x 0, Point2.mk 0 imageSize.y,
        Point2.mk imageSize.x imageSize.y].foldl includeLocal b

/-- `Entity::bounds`: exhaustive per-variant 2D extent, `none` when nothing
was included. -/
noncomputable def Entity.bounds (entity : Entity) : Option Bounds2D :=
  let b := Bounds2D.empty
  let result :=
    match entity with
    | .line l => (b.includePoint l.start).includePoint l.endPoint
    | .circle c =>
        let radius := |c.radius|
        (b.includePoint ⟨c.center.x - radius, c.center.y - radius⟩).includePoint
          ⟨c.center.x + radius, c.center.y + radius⟩
    | .arc a => arcBounds a b
    | .ellipse e => ellipseBounds e b
    | .polyline p => p.vertices.foldl (fun acc v => acc.includePoint v.position) b
    | .spline s =>
        (s.fit_points.foldl Bounds2D.includePoint
          (s.control_points.foldl Bounds2D.includePoint b))
    | .text t => b.includePoint t.insert
    | .mtext m => b.includePoint m.insert
    | .blockReference r =>
        r.attributes.foldl
          (fun acc attr =>
            let acc := acc.includePoint attr.insert
            match attr.alignment with
            | Option.some alignment => acc.includePoint alignment
            | Option.none => acc)
          (b.includePoint r.insert)
    | .hatch h =>
        h.loops.foldl
          (fun acc loopPath => loopPath.edges.foldl (fun a e => includeHatchEdgeBounds e a) acc) b
    | .dimension d =>
        let acc := (b.includePoint d.definition_point).includePoint d.text_midpoint
        let opt := fun (a : Bounds2D) (p : Option Point2) =>
          match p with
          | Option.some point => a.includePoint point
          | Option.none => a
        opt (opt (opt (opt (opt (opt acc d.dimension_line_point) d.extension_line_origin)
          d.extension_line_end) d.secondary_point) d.arc_definition_point) d.center_point
    | .leader l => l.vertices.foldl Bounds2D.includePoint b
    | .mleader m =>
        let acc := m.leader_lines.foldl
          (fun acc line => line.vertices.foldl Bounds2D.includePoint acc) b
        match m.content with
        | .mtext _ location => acc.includePoint location
        | .block block => acc.includePoint block.location
        | .none => acc
    | .rasterImage img =>
        includeClipBounds b img.insert img.u_vector img.v_vector img.image_size img.clip
    | .wipeout w =>
        includeClipBounds b w.insert w.u_vector w.v_vector w.image_size w.clip
    | .face3d f => f.vertices.foldl (fun acc v => acc.includePoint ⟨v.x, v.y⟩) b
  if result.isEmpty then Option.none else Option.some result

/-! ### Document (zcad-core) -/

/-- `HashMap::insert` on a name-keyed table: replace any existing binding. -/
def mapInsert {α : Type} (key : String) (value : α) (m : List (String × α)) :
    List (String × α) :=
  (key, value) :: m.filter (fun p => p.1 ≠ key)

/-- `HashMap::get`. -/
def mapGet {α : Type} (m : List (String × α)) (key : String) : Option α :=
  (m.find? (fun p => p.1 = key)).map (fun p => p.2)

/-- `document::BlockDefinition`. -/
structure BlockDefinition where
  name : String
  base_point : Point2
  entities : List Entity
  attributes : List AttributeDefinition

/-- `document::Document`.  Hash maps are modelled as key-unique association
lists; `entities` keeps insertion order exactly as the source `Vec`. -/
structure Document where
  layers : List (String × Layer)
  entities : List (Nat × Entity)
  next_entity_id : Nat
  blocks : List (String × BlockDefinition)
  block_handles : List (String × String)
  image_definitions : List (String × RasterImageDefinition)
  image_def_reactors : List (String × ImageDefReactor)
  image_dictionary : Option ImageDictionary
  raster_image_variables : Option RasterImageVariables

namespace Document

/-- `Document::default`. -/
def default : Document := ⟨[], [], 0, [], [], [], [], Option.none, Option.none⟩

/-- `Document::ensure_layer`: `entry(..).or_insert_with(..)`. -/
def ensureLayer (doc : Document) (name : String) : Document :=
  match mapGet doc.layers name with
  | Option.some _ => doc
  | Option.none => { doc with layers := mapInsert name (Layer.new name) doc.layers }

/-- `Document::new`: default plus `ensure_layer("0")`. -/
def new : Document := default.ensureLayer "0"

/-- `Document::next_id`. -/
def nextId (doc : Document) : Nat × Document :=
  (doc.next_entity_id, { doc with next_entity_id := doc.next_entity_id + 1 })

/-- Shared tail of every `add_<kind>`: allocate the id and append. -/
def pushEntity (doc : Document) (entity : Entity) : Nat × Document :=
  let p := doc.nextId
  (p.1, { p.2 with entities := p.2.entities ++ [(p.1, entity)] })

/-- `Document::add_line`. -/
def addLine (doc : Document) (start endPoint : Point2) (layer : String) : Nat × Document :=
  (doc.ensureLayer layer).pushEntity (.line ⟨start, endPoint, layer⟩)

/-- `Document::add_circle`. -/
def addCircle (doc : Document) (center : Point2) (radius : ℝ) (layer : String) :
    Nat × Document :=
  (doc.ensureLayer layer).pushEntity (.circle ⟨center, radius, layer⟩)

/-- `Document::add_arc`. -/
def addArc (doc : Document) (center : Point2) (radius startAngle endAngle : ℝ)
    (layer : String) : Nat × Document :=
  (doc.ensureLayer layer).pushEntity (.arc ⟨center, radius, startAngle, endAngle, layer⟩)

/-- `Document::add_ellipse`. -/
def addEllipse (doc : Document) (center : Point2) (majorAxis : Vector2)
    (ratio startParameter endParameter : ℝ) (layer : String) : Nat × Document :=
  (doc.ensureLayer layer).pushEntity
    (.ellipse ⟨center, majorAxis, ratio, startParameter, endParameter, layer⟩)

/-- `Document::add_polyline_with_vertices`. -/
def addPolylineWithVertices (doc : Document) (vertices : List PolylineVertex)
    (isClosed : Bool) (layer : String) : Nat × Document :=
  (doc.ensureLayer layer).pushEntity (.polyline ⟨vertices, isClosed, layer⟩)

/-- `Document::add_polyline` (plain points, zero bulge). -/
def addPolyline (doc : Document) (vertices : List Point2) (isClosed : Bool)
    (layer : String) : Nat × Document :=
  doc.addPolylineWithVertices (vertices.map PolylineVertex.new) isClosed layer

/-- `Document::add_spline`. -/
def addSpline (doc : Document) (s : Spline) : Nat × Document :=
  (doc.ensureLayer s.layer).pushEntity (.spline s)

/-- `Document::add_text`. -/
def addText (doc : Document) (insert : Point2) (content : String) (height rotation : ℝ)
    (layer : String) : Nat × Document :=
  (doc.ensureLayer layer).pushEntity (.text ⟨insert, content, height, rotation, layer⟩)

/-- `Document::add_mtext`. -/
def addMText (doc : Document) (m : MText) : Nat × Document :=
  (doc.ensureLayer m.layer).pushEntity (.mtext m)

/-- `Document::block`. -/
def block (doc : Document) (name : String) : Option BlockDefinition :=
  mapGet doc.blocks name

/-- The verbatim `AttributeDefinition → Attribute` copy performed inside
`Document::add_block_reference`. -/
def attributeOfDefinition (d : AttributeDefinition) : Attribute :=
  ⟨d.tag, d.default_text, d.insert, d.height, d.rotation, d.width_factor, d.oblique,
    d.style, d.prompt, d.alignment, d.horizontal_align, d.vertical_align,
    d.line_spacing_factor, d.line_spacing_style, d.is_invisible, d.is_constant,
    d.is_verify, d.is_preset, d.lock_position, d.layer⟩

/-- `Document::add_block_reference`: synthesise attributes from the block
definition when the explicit list is empty and the block is registered. -/
def addBlockReference (doc : Document) (name : String) (insert : Point2)
    (scale : Vector2) (rotation : ℝ) (attributes : List Attribute) (layer : String) :
    Nat × Document :=
  let doc := doc.ensureLayer layer
  let resolvedAttributes :=
    if attributes.isEmpty then
      match doc.block name with
      | Option.some definition => definition.attributes.map attributeOfDefinition
      | Option.none => []
    else attributes
  let doc := resolvedAttributes.foldl (fun d attr => d.ensureLayer attr.layer) doc
  doc.pushEntity (.blockReference ⟨name, insert, scale, rotation, resolvedAttributes, layer⟩)

/-- `Document::add_hatch`. -/
def addHatch (doc : Document) (patternName : String) (isSolid : Bool)
    (loops : List HatchLoop) (gradient : Option HatchGradient) (layer : String) :
    Nat × Document :=
  (doc.ensureLayer layer).pushEntity (.hatch ⟨patternName, isSolid, loops, gradient, layer⟩)

/-- `Document::add_dimension`. -/
def addDimension (doc : Document) (d : Dimension) : Nat × Document :=
  (doc.ensureLayer d.layer).pushEntity (.dimension d)

/-- `Document::add_leader`. -/
def addLeader (doc : Document) (vertices : List Point2) (layer : String)
    (styleName : Option String) (hasArrowhead : Bool) : Nat × Document :=
  (doc.ensureLayer layer).pushEntity (.leader ⟨layer, styleName, vertices, hasArrowhead⟩)

/-- `Document::resolve_block_content_name_from_handles`. -/
def resolveBlockContentNameFromHandles (handles : List (String × String))
    (blockContent : MLeaderBlockContent) : MLeaderBlockContent :=
  if blockContent.block_name = Option.none then
    match blockContent.block_handle with
    | Option.some handle =>
        match mapGet handles handle with
        | Option.some mapped => { blockContent with block_name := Option.some mapped }
        | Option.none => blockContent
    | Option.none => blockContent
  else blockContent

/-- `Document::add_mleader`: resolves a block-content name from the current
alias table at insertion time. -/
def addMLeader (doc : Document) (leaderLines : List LeaderLine) (layer : String)
    (styleName : Option String) (content : MLeaderContent) (textHeight : Option ℝ)
    (scale : Option ℝ) (hasDogleg : Bool) (doglegLength landingGap : Option ℝ) :
    Nat × Document :=
  let doc := doc.ensureLayer layer
  let content :=
    match content with
    | .block blk => .block (resolveBlockContentNameFromHandles doc.block_handles blk)
    | other => other
  doc.pushEntity (.mleader ⟨layer, styleName, leaderLines, content, textHeight, scale,
    hasDogleg, doglegLength, landingGap⟩)

/-- `Document::add_face3d`. -/
def addFace3d (doc : Document) (vertices : List Point3) (invisibleEdges : List Bool)
    (layer : String) : Nat × Document :=
  (doc.ensureLayer layer).pushEntity (.face3d ⟨layer, vertices, invisibleEdges⟩)

/-- `Document::add_raster_image`. -/
def addRasterImage (doc : Document) (img : RasterImage) : Nat × Document :=
  (doc.ensureLayer img.layer).pushEntity (.rasterImage img)

/-- `Document::add_wipeout`. -/
def addWipeout (doc : Document) (w : Wipeout) : Nat × Document :=
  (doc.ensureLayer w.layer).pushEntity (.wipeout w)

/-- `Document::update_mleader_block_names`: in-place backfill of every stored
MLeader block content from the alias table. -/
def updateMLeaderBlockNames (doc : Document) : Document :=
  { doc with
    entities := doc.entities.map (fun p =>
      match p with
      | (id, .mleader m) =>
          match m.content with
          | .block blk =>
              (id, .mleader { m with
                content := .block (resolveBlockContentNameFromHandles doc.block_handles blk) })
          | _ => (id, .mleader m)
      | other => other) }

/-- `Document::add_block_definition_with_handle`. -/
def addBlockDefinitionWithHandle (doc : Document) (definition : BlockDefinition)
    (blockHandle blockRecordHandle : Option String) : Document :=
  let name := definition.name
  let doc := definition.entities.foldl (fun d e => d.ensureLayer e.layerName) doc
  let doc := definition.attributes.foldl (fun d a => d.ensureLayer a.layer) doc
  let p1 : Bool × Document :=
    match blockHandle with
    | Option.some handle =>
        (true, { doc with block_handles := mapInsert handle name doc.block_handles })
    | Option.none => (false, doc)
  let p2 : Bool × Document :=
    match blockRecordHandle with
    | Option.some recordHandle =>
        (true, { p1.2 with block_handles := mapInsert recordHandle name p1.2.block_handles })
    | Option.none => p1
  let doc := if p2.1 then p2.2.updateMLeaderBlockNames else p2.2
  { doc with blocks := mapInsert name definition doc.blocks }

/-- `Document::add_block_definition`. -/
def addBlockDefinition (doc : Document) (definition : BlockDefinition) : Document :=
  doc.addBlockDefinitionWithHandle definition Option.none Option.none

/-- `Document::block_name_by_handle`. -/
def blockNameByHandle (doc : Document) (handle : String) : Option String :=
  mapGet doc.block_handles handle

/-- `Document::entity`. -/
def entity (doc : Document) (id : Nat) : Option Entity :=
  (doc.entities.find? (fun p => p.1 = id)).map (fun p => p.2)

/-- `Document::entity_bounds`. -/
noncomputable def entityBounds (doc : Document) (id : Nat) : Option Bounds2D :=
  (doc.entity id).bind Entity.bounds

/-- `Document::bounds`: union of per-entity bounds, `none` when no entity
contributed. -/
noncomputable def bounds (doc : Document) : Option Bounds2D :=
  let p := doc.entities.foldl
    (fun (acc : Bounds2D × Bool) pr =>
      match pr.2.bounds with
      | Option.some entityB => (acc.1.includeBounds entityB, true)
      | Option.none => acc)
    (Bounds2D.empty, false)
  if p.2 then Option.some p.1 else Option.none

/-- `Document::add_raster_image_definition`. -/
def addRasterImageDefinition (doc : Document) (definition : RasterImageDefinition) :
    Document :=
  { doc with image_definitions := mapInsert definition.handle definition doc.image_definitions }

/-- `Document::add_image_def_reactor`. -/
def addImageDefReactor (doc : Document) (reactor : ImageDefReactor) : Document :=
  { doc with image_def_reactors := mapInsert reactor.handle reactor doc.image_def_reactors }

/-- `Document::set_image_dictionary`. -/
def setImageDictionary (doc : Document) (dictionary : ImageDictionary) : Document :=
  { doc with image_dictionary := Option.some dictionary }

/-- `Document::set_raster_image_variables`. -/
def setRasterImageVariables (doc : Document) (vars : RasterImageVariables) : Document :=
  { doc with raster_image_variables := Option.some vars }

/-- `Document::add_entity`: dispatch by variant to the typed operation. -/
def addEntity (doc : Document) (e : Entity) : Nat × Document :=
  match e with
  | .line l => doc.addLine l.start l.endPoint l.layer
  | .circle c => doc.addCircle c.center c.radius c.layer
  | .arc a => doc.addArc a.center a.radius a.start_angle a.end_angle a.layer
  | .ellipse el =>
      doc.addEllipse el.center el.major_axis el.ratio el.start_parameter el.end_parameter
        el.layer
  | .polyline p => doc.addPolylineWithVertices p.vertices p.is_closed p.layer
  | .spline s => doc.addSpline s
  | .text t => doc.addText t.insert t.content t.height t.rotation t.layer
  | .mtext m => doc.addMText m
  | .blockReference r =>
      doc.addBlockReference r.name r.insert r.scale r.rotation r.attributes r.layer
  | .hatch h => doc.addHatch h.pattern_name h.is_solid h.loops h.gradient h.layer
  | .dimension d => doc.addDimension d
  | .leader l => doc.addLeader l.vertices l.layer l.style_name l.has_arrowhead
  | .mleader m =>
      doc.addMLeader m.leader_lines m.layer m.style_name m.content m.text_height m.scale
        m.has_dogleg m.dogleg_length m.landing_gap
  | .rasterImage img => doc.addRasterImage img
  | .wipeout w => doc.addWipeout w
  | .face3d f => doc.addFace3d f.vertices f.invisible_edges f.layer

end Document

/-! ### zcad-io: error taxonomy, tokenizer, numeric field parsing -/

/-- `zcad_io::DxfError` (internal parser error type). -/
inductive DxfError where
  | unsupported (feature : String)
  | invalid (message : String)

/-- `zcad_io::IoError`, restricted to the variants the parser can produce
(file-system read/write failures are outside the embedded core). -/
inductive IoError where
  | unsupportedFeature (feature : String)
  | invalidDocument (message : String)

/-- The error mapping of `DxfFacade::load`. -/
def toIoError : DxfError → IoError
  | .unsupported feature => .unsupportedFeature feature
  | .invalid message => .invalidDocument message

/-- An aborted parse: either a Rust `panic!` (process abort) or a returned
`DxfError`. -/
inductive Failure where
  | panicked (message : String)
  | failed (e : DxfError)

/-- Result type threaded through the parser. -/
abbrev PResult (α : Type) := Except Failure α

/-- Rust `str::trim` (whitespace at both ends; implemented structurally on
the char list so concrete inputs reduce definitionally). -/
def rustTrim (s : String) : String :=
  ⟨((s.toList.dropWhile Char.isWhitespace).reverse.dropWhile Char.isWhitespace).reverse⟩

/-- Rust `str::trim_end_matches('\r')`: strip every trailing carriage
return. -/
def trimEndCR (s : String) : String :=
  ⟨(s.toList.reverse.dropWhile (fun c => c = '\r')).reverse⟩

/-- Decimal digit run → natural number. -/
def digitsToNat (cs : List Char) : Nat :=
  cs.foldl (fun acc c => acc * 10 + (c.toNat - 48)) 0

/-- Rust `str::parse::<i64-like>`: optional sign then at least one digit. -/
def parseIntStr (s : String) : Option Int :=
  match s.toList with
  | [] => Option.none
  | c :: rest =>
      let p : Int × List Char :=
        if c = '-' then (-1, rest) else if c = '+' then (1, rest) else (1, c :: rest)
      if p.2 ≠ [] ∧ p.2.all Char.isDigit then Option.some (p.1 * (digitsToNat p.2 : Int))
      else Option.none

/-- Rust `str::parse::<u32-like>`: optional plus then at least one digit. -/
def parseNatStr (s : String) : Option Nat :=
  match s.toList with
  | [] => Option.none
  | c :: rest =>
      let ds := if c = '+' then rest else c :: rest
      if ds ≠ [] ∧ ds.all Char.isDigit then Option.some (digitsToNat ds)
      else Option.none

/-- Split a char list at the first occurrence of a separator satisfying `p`. -/
def splitAtFirst (p : Char → Bool) : List Char → List Char × Option (List Char)
  | [] => ([], Option.none)
  | c :: rest =>
      if p c then ([], Option.some rest)
      else
        let q := splitAtFirst p rest
        (c :: q.1, q.2)

/-- Rust `str::parse::<f64>` on ordinary decimal notation, modelled exactly
over `ℚ`: `sign? digits* (. digits*)? ((e|E) sign? digits+)?` with at least
one mantissa digit.  (`inf`/`NaN` inputs are not representable in the real
idealisation and are treated as parse failures.) -/
def parseDecimal? (s : String) : Option ℚ :=
  match s.toList with
  | [] => Option.none
  | c :: rest =>
      let p : ℚ × List Char :=
        if c = '-' then (-1, rest) else if c = '+' then (1, rest) else (1, c :: rest)
      let mexp := splitAtFirst (fun ch => ch = 'e' ∨ ch = 'E') p.2
      let mantissa := mexp.1
      let ifrac := splitAtFirst (fun ch => ch = '.') mantissa
      let ipart := ifrac.1
      let fpart := (ifrac.2).getD []
      if ipart.all Char.isDigit ∧ fpart.all Char.isDigit ∧ (ipart ≠ [] ∨ fpart ≠ []) then
        let mant : ℚ :=
          ((digitsToNat ipart : ℚ) * 10 ^ fpart.length + (digitsToNat fpart : ℚ)) /
            10 ^ fpart.length
        match mexp.2 with
        | Option.none => Option.some (p.1 * mant)
        | Option.some ecs =>
            match
              (match ecs with
               | [] => Option.none
               | e0 :: erest =>
                   let q : Int × List Char :=
                     if e0 = '-' then (-1, erest)
                     else if e0 = '+' then (1, erest) else (1, e0 :: erest)
                   if q.2 ≠ [] ∧ q.2.all Char.isDigit then
                     Option.some (q.1 * (digitsToNat q.2 : Int))
                   else Option.none) with
            | Option.none => Option.none
            | Option.some expv => Option.some (p.1 * mant * (10 : ℚ) ^ expv)
      else Option.none

/-- `zcad_io::parse_f64`. -/
noncomputable def parseF64 (raw context : String) : PResult ℝ :=
  match parseDecimal? (rustTrim raw) with
  | Option.some q => .ok (q : ℝ)
  | Option.none =>
      .error (.failed (.invalid (context ++ " 解析失败（值：\"" ++ raw ++ "\"）")))

/-- `zcad_io::parse_i32`. -/
def parseI32 (raw context : String) : PResult Int :=
  match parseIntStr (rustTrim raw) with
  | Option.some v => .ok v
  | Option.none =>
      .error (.failed (.invalid (context ++ " 解析失败（值：\"" ++ raw ++ "\"）")))

/-- `zcad_io::parse_i16`: `parse_i32` plus an `i16` range check. -/
def parseI16 (raw context : String) : PResult Int :=
  match parseI32 raw context with
  | .error e => .error e
  | .ok v =>
      if -32768 ≤ v ∧ v ≤ 32767 then .ok v
      else .error (.failed (.invalid (context ++ " 超出 i16 范围（值：" ++ toString v ++ "）")))

/-- `zcad_io::parse_u32`. -/
def parseU32 (raw context : String) : PResult Nat :=
  match parseNatStr (rustTrim raw) with
  | Option.some v => .ok v
  | Option.none =>
      .error (.failed (.invalid (context ++ " 解析失败（值：\"" ++ raw ++ "\"）")))

/-- Two's-complement bit test for an `i16` value (as produced by
`parse_i16`): Rust `v & (1 << k) != 0`. -/
def i16TestBit (v : Int) (k : Nat) : Bool :=
  ((v.emod 65536).toNat / 2 ^ k) % 2 = 1

/-- Two's-complement bit test for an `i32` value: Rust `v & (1 << k) != 0`. -/
def i32TestBit (v : Int) (k : Nat) : Bool :=
  ((v.emod 4294967296).toNat / 2 ^ k) % 2 = 1

/-- `zcad_io::DxfReader`: the line stream (already split at newlines, as by
Rust `str::lines`) plus the one-slot pushback buffer. -/
structure DxfReader where
  lines : List String
  buffer : Option (Int × String)
  line_number : Nat

/-- `DxfReader::new`. -/
def DxfReader.new (lines : List String) : DxfReader := ⟨lines, Option.none, 0⟩

/-- `DxfReader::next_pair`: drain the pushback slot, otherwise read a
group-code line and a value line. -/
def DxfReader.nextPair (r : DxfReader) : PResult (Option (Int × String) × DxfReader) :=
  match r.buffer with
  | Option.some pair => .ok (Option.some pair, { r with buffer := Option.none })
  | Option.none =>
      match r.lines with
      | [] => .ok (Option.none, r)
      | codeLine :: rest =>
          let n1 := r.line_number + 1
          match rest with
          | [] =>
              .error (.failed (.invalid
                ("文件在第 " ++ toString n1 ++ " 行结束，缺少与组码对应的值行")))
          | valueLine :: rest2 =>
              let n2 := n1 + 1
              match parseIntStr (rustTrim codeLine) with
              | Option.none =>
                  .error (.failed (.invalid
                    ("第 " ++ toString (n2 - 1) ++ " 行的组码 \"" ++ (rustTrim codeLine) ++
                      "\" 无法解析为整数")))
              | Option.some code =>
                  .ok (Option.some (code, (trimEndCR valueLine)),
                    ⟨rest2, Option.none, n2⟩)

/-- `DxfReader::put_back`: `none` models the Rust
`panic!("内部错误：尝试多次回退 DXF pair")` fired when the slot is already
occupied. -/
def DxfReader.putBack (r : DxfReader) (pair : Int × String) : Option DxfReader :=
  match r.buffer with
  | Option.some _ => Option.none
  | Option.none => Option.some { r with buffer := Option.some pair }

/-- `put_back` lifted into the parser result type (the panic becomes a
`Failure.panicked`, which no caller catches — mirroring process abort). -/
def DxfReader.putBackP (r : DxfReader) (pair : Int × String) : PResult DxfReader :=
  match r.putBack pair with
  | Option.some r2 => .ok r2
  | Option.none => .error (.panicked "内部错误：尝试多次回退 DXF pair")

/-- The uniform record-scanning loop shared by every entity/object sub-parser:
consume pairs until a group-0 pair (pushed back for the caller), feeding each
non-zero pair to the accumulator `step`; end of input inside a record is the
parser-specific `eofMessage` error.  Recursion is fuelled; fuel exhaustion is
a bookkeeping artifact that never fires with fuel ≥ the pair count. -/
def runRecord {σ : Type} (step : σ → Int → String → PResult σ) (eofMessage : String) :
    Nat → DxfReader → σ → PResult (σ × DxfReader)
  | 0, _, _ => .error (.failed (.invalid "内部 fuel 耗尽"))
  | fuel + 1, r, st =>
      match r.nextPair with
      | .error e => .error e
      | .ok (Option.none, _) => .error (.failed (.invalid eofMessage))
      | .ok (Option.some (code, value), r2) =>
          if code = 0 then
            match r2.putBackP (0, value) with
            | .error e => .error e
            | .ok r3 => .ok (st, r3)
          else
            match step st code value with
            | .error e => .error e
            | .ok st2 => runRecord step eofMessage fuel r2 st2

/-! ### zcad-io: LINE / CIRCLE / ARC / ELLIPSE sub-parsers -/

/-- Field accumulator of `DxfParser::parse_line`. -/
structure LineAcc where
  layer : Option String
  start_x : Option ℝ
  start_y : Option ℝ
  end_x : Option ℝ
  end_y : Option ℝ

/-- All-empty initial accumulator. -/
def LineAcc.init : LineAcc :=
  ⟨Option.none, Option.none, Option.none, Option.none, Option.none⟩

/-- Per-pair body of the `parse_line` loop. -/
noncomputable def lineStep (st : LineAcc) (code : Int) (value : String) : PResult LineAcc :=
  if code = 8 then .ok { st with layer := Option.some (rustTrim value) }
  else if code = 10 then
    if st.start_x.isSome then .error (.failed (.invalid "LINE 遇到重复的起点 X（组码 10）"))
    else
      match parseF64 value "LINE 起点 X" with
      | .error e => .error e
      | .ok v => .ok { st with start_x := Option.some v }
  else if code = 20 then
    if st.start_y.isSome then .error (.failed (.invalid "LINE 遇到重复的起点 Y（组码 20）"))
    else
      match parseF64 value "LINE 起点 Y" with
      | .error e => .error e
      | .ok v => .ok { st with start_y := Option.some v }
  else if code = 11 then
    if st.end_x.isSome then .error (.failed (.invalid "LINE 遇到重复的终点 X（组码 11）"))
    else
      match parseF64 value "LINE 终点 X" with
      | .error e => .error e
      | .ok v => .ok { st with end_x := Option.some v }
  else if code = 21 then
    if st.end_y.isSome then .error (.failed (.invalid "LINE 遇到重复的终点 Y（组码 21）"))
    else
      match parseF64 value "LINE 终点 Y" with
      | .error e => .error e
      | .ok v => .ok { st with end_y := Option.some v }
  else .ok st

/-- Required-field extraction at the end of `parse_line`. -/
noncomputable def finishLine (st : LineAcc) : PResult Entity :=
  let layer := st.layer.getD "0"
  match st.start_x with
  | Option.none => .error (.failed (.invalid "LINE 缺少起点 X（组码 10）"))
  | Option.some sx =>
      match st.start_y with
      | Option.none => .error (.failed (.invalid "LINE 缺少起点 Y（组码 20）"))
      | Option.some sy =>
          match st.end_x with
          | Option.none => .error (.failed (.invalid "LINE 缺少终点 X（组码 11）"))
          | Option.some ex =>
              match st.end_y with
              | Option.none => .error (.failed (.invalid "LINE 缺少终点 Y（组码 21）"))
              | Option.some ey => .ok (.line ⟨⟨sx, sy⟩, ⟨ex, ey⟩, layer⟩)

/-- `DxfParser::parse_line`. -/
noncomputable def parseLine (fuel : Nat) (r : DxfReader) : PResult (Entity × DxfReader) :=
  match runRecord lineStep "LINE 未正确结束" fuel r LineAcc.init with
  | .error e => .error e
  | .ok (st, r2) =>
      match finishLine st with
      | .error e => .error e
      | .ok ent => .ok (ent, r2)

/-- Field accumulator of `DxfParser::parse_circle`. -/
structure CircleAcc where
  layer : Option String
  center_x : Option ℝ
  center_y : Option ℝ
  radius : Option ℝ

/-- All-empty initial accumulator. -/
def CircleAcc.init : CircleAcc := ⟨Option.none, Option.none, Option.none, Option.none⟩

/-- Per-pair body of the `parse_circle` loop. -/
noncomputable def circleStep (st : CircleAcc) (code : Int) (value : String) :
    PResult CircleAcc :=
  if code = 8 then .ok { st with layer := Option.some (rustTrim value) }
  else if code = 10 then
    if st.center_x.isSome then
      .error (.failed (.invalid "CIRCLE 遇到重复的圆心 X（组码 10）"))
    else
      match parseF64 value "CIRCLE 圆心 X" with
      | .error e => .error e
      | .ok v => .ok { st with center_x := Option.some v }
  else if code = 20 then
    if st.center_y.isSome then
      .error (.failed (.invalid "CIRCLE 遇到重复的圆心 Y（组码 20）"))
    else
      match parseF64 value "CIRCLE 圆心 Y" with
      | .error e => .error e
      | .ok v => .ok { st with center_y := Option.some v }
  else if code = 40 then
    if st.radius.isSome then .error (.failed (.invalid "CIRCLE 遇到重复的半径（组码 40）"))
    else
      match parseF64 value "CIRCLE 半径" with
      | .error e => .error e
      | .ok v => .ok { st with radius := Option.some v }
  else .ok st

/-- Required-field extraction at the end of `parse_circle`. -/
noncomputable def finishCircle (st : CircleAcc) : PResult Entity :=
  let layer := st.layer.getD "0"
  match st.center_x with
  | Option.none => .error (.failed (.invalid "CIRCLE 缺少圆心 X（组码 10）"))
  | Option.some cx =>
      match st.center_y with
      | Option.none => .error (.failed (.invalid "CIRCLE 缺少圆心 Y（组码 20）"))
      | Option.some cy =>
          match st.radius with
          | Option.none => .error (.failed (.invalid "CIRCLE 缺少半径（组码 40）"))
          | Option.some rad => .ok (.circle ⟨⟨cx, cy⟩, rad, layer⟩)

/-- `DxfParser::parse_circle`. -/
noncomputable def parseCircle (fuel : Nat) (r : DxfReader) : PResult (Entity × DxfReader) :=
  match runRecord circleStep "CIRCLE 未正确结束" fuel r CircleAcc.init with
  | .error e => .error e
  | .ok (st, r2) =>
      match finishCircle st with
      | .error e => .error e
      | .ok ent => .ok (ent, r2)

/-- Field accumulator of `DxfParser::parse_arc`. -/
structure ArcAcc where
  layer : Option String
  center_x : Option ℝ
  center_y : Option ℝ
  radius : Option ℝ
  start_angle : Option ℝ
  end_angle : Option ℝ

/-- All-empty initial accumulator. -/
def ArcAcc.init : ArcAcc :=
  ⟨Option.none, Option.none, Option.none, Option.none, Option.none, Option.none⟩

/-- Per-pair body of the `parse_arc` loop.  The code-50/51 angles are
converted with `to_radians` on ingestion. -/
noncomputable def arcStep (st : ArcAcc) (code : Int) (value : String) : PResult ArcAcc :=
  if code = 8 then .ok { st with layer := Option.some (rustTrim value) }
  else if code = 10 then
    if st.center_x.isSome then .error (.failed (.invalid "ARC 遇到重复的圆心 X（组码 10）"))
    else
      match parseF64 value "ARC 圆心 X" with
      | .error e => .error e
      | .ok v => .ok { st with center_x := Option.some v }
  else if code = 20 then
    if st.center_y.isSome then .error (.failed (.invalid "ARC 遇到重复的圆心 Y（组码 20）"))
    else
      match parseF64 value "ARC 圆心 Y" with
      | .error e => .error e
      | .ok v => .ok { st with center_y := Option.some v }
  else if code = 40 then
    if st.radius.isSome then .error (.failed (.invalid "ARC 遇到重复的半径（组码 40）"))
    else
      match parseF64 value "ARC 半径" with
      | .error e => .error e
      | .ok v => .ok { st with radius := Option.some v }
  else if code = 50 then
    if st.start_angle.isSome then
      .error (.failed (.invalid "ARC 遇到重复的起始角（组码 50）"))
    else
      match parseF64 value "ARC 起始角" with
      | .error e => .error e
      | .ok v => .ok { st with start_angle := Option.some (degToRad v) }
  else if code = 51 then
    if st.end_angle.isSome then
      .error (.failed (.invalid "ARC 遇到重复的终止角（组码 51）"))
    else
      match parseF64 value "ARC 终止角" with
      | .error e => .error e
      | .ok v => .ok { st with end_angle := Option.some (degToRad v) }
  else .ok st

/-- Required-field extraction at the end of `parse_arc`. -/
noncomputable def finishArc (st : ArcAcc) : PResult Entity :=
  let layer := st.layer.getD "0"
  match st.center_x with
  | Option.none => .error (.failed (.invalid "ARC 缺少圆心 X（组码 10）"))
  | Option.some cx =>
      match st.center_y with
      | Option.none => .error (.failed (.invalid "ARC 缺少圆心 Y（组码 20）"))
      | Option.some cy =>
          match st.radius with
          | Option.none => .error (.failed (.invalid "ARC 缺少半径（组码 40）"))
          | Option.some rad =>
              match st.start_angle with
              | Option.none => .error (.failed (.invalid "ARC 缺少起始角（组码 50）"))
              | Option.some sa =>
                  match st.end_angle with
                  | Option.none => .error (.failed (.invalid "ARC 缺少终止角（组码 51）"))
                  | Option.some ea => .ok (.arc ⟨⟨cx, cy⟩, rad, sa, ea, layer⟩)

/-- `DxfParser::parse_arc`. -/
noncomputable def parseArc (fuel : Nat) (r : DxfReader) : PResult (Entity × DxfReader) :=
  match runRecord arcStep "ARC 未正确结束" fuel r ArcAcc.init with
  | .error e => .error e
  | .ok (st, r2) =>
      match finishArc st with
      | .error e => .error e
      | .ok ent => .ok (ent, r2)

/-- Field accumulator of `DxfParser::parse_ellipse`. -/
structure EllipseAcc where
  layer : Option String
  center_x : Option ℝ
  center_y : Option ℝ
  major_x : Option ℝ
  major_y : Option ℝ
  ratio : Option ℝ
  start_parameter : ℝ
  end_parameter : ℝ
  has_start : Bool
  has_end : Bool

/-- Initial accumulator: parameter range defaults to a full turn. -/
noncomputable def EllipseAcc.init : EllipseAcc :=
  ⟨Option.none, Option.none, Option.none, Option.none, Option.none, Option.none,
    0, tau, false, false⟩

/-- Per-pair body of the `parse_ellipse` loop. -/
noncomputable def ellipseStep (st : EllipseAcc) (code : Int) (value : String) :
    PResult EllipseAcc :=
  if code = 8 then .ok { st with layer := Option.some (rustTrim value) }
  else if code = 10 then
    if st.center_x.isSome then
      .error (.failed (.invalid "ELLIPSE 遇到重复的圆心 X（组码 10）"))
    else
      match parseF64 value "ELLIPSE 圆心 X" with
      | .error e => .error e
      | .ok v => .ok { st with center_x := Option.some v }
  else if code = 20 then
    if st.center_y.isSome then
      .error (.failed (.invalid "ELLIPSE 遇到重复的圆心 Y（组码 20）"))
    else
      match parseF64 value "ELLIPSE 圆心 Y" with
      | .error e => .error e
      | .ok v => .ok { st with center_y := Option.some v }
  else if code = 11 then
    if st.major_x.isSome then
      .error (.failed (.invalid "ELLIPSE 遇到重复的主轴向量 X（组码 11）"))
    else
      match parseF64 value "ELLIPSE 主轴向量 X" with
      | .error e => .error e
      | .ok v => .ok { st with major_x := Option.some v }
  else if code = 21 then
    if st.major_y.isSome then
      .error (.failed (.invalid "ELLIPSE 遇到重复的主轴向量 Y（组码 21）"))
    else
      match parseF64 value "ELLIPSE 主轴向量 Y" with
      | .error e => .error e
      | .ok v => .ok { st with major_y := Option.some v }
  else if code = 40 then
    if st.ratio.isSome then
      .error (.failed (.invalid "ELLIPSE 遇到重复的半径比（组码 40）"))
    else
      match parseF64 value "ELLIPSE 半径比" with
      | .error e => .error e
      | .ok v => .ok { st with ratio := Option.some v }
  else if code = 41 then
    match parseF64 value "ELLIPSE 起始参数" with
    | .error e => .error e
    | .ok v => .ok { st with start_parameter := v, has_start := true }
  else if code = 42 then
    match parseF64 value "ELLIPSE 终止参数" with
    | .error e => .error e
    | .ok v => .ok { st with end_parameter := v, has_end := true }
  else .ok st

/-- Required-field extraction and validity checks at the end of
`parse_ellipse`. -/
noncomputable def finishEllipse (st : EllipseAcc) : PResult Entity :=
  let layer := st.layer.getD "0"
  match st.center_x with
  | Option.none => .error (.failed (.invalid "ELLIPSE 缺少圆心 X（组码 10）"))
  | Option.some cx =>
      match st.center_y with
      | Option.none => .error (.failed (.invalid "ELLIPSE 缺少圆心 Y（组码 20）"))
      | Option.some cy =>
          match st.major_x with
          | Option.none => .error (.failed (.invalid "ELLIPSE 缺少主轴向量 X（组码 11）"))
          | Option.some mx =>
              match st.major_y with
              | Option.none =>
                  .error (.failed (.invalid "ELLIPSE 缺少主轴向量 Y（组码 21）"))
              | Option.some my =>
                  if |mx| < f64Epsilon ∧ |my| < f64Epsilon then
                    .error (.failed (.invalid "ELLIPSE 主轴向量长度为 0，无法创建实体"))
                  else
                    let ratio := st.ratio.getD 1
                    if ratio ≤ 0 then
                      .error (.failed (.invalid "ELLIPSE 半径比必须为正数，实际为非正值"))
                    else
                      let sp := if st.has_start then st.start_parameter else 0
                      let ep := if st.has_end then st.end_parameter else tau
                      .ok (.ellipse ⟨⟨cx, cy⟩, ⟨mx, my⟩, ratio, sp, ep, layer⟩)

/-- `DxfParser::parse_ellipse`. -/
noncomputable def parseEllipse (fuel : Nat) (r : DxfReader) : PResult (Entity × DxfReader) :=
  match runRecord ellipseStep "ELLIPSE 未正确结束" fuel r EllipseAcc.init with
  | .error e => .error e
  | .ok (st, r2) =>
      match finishEllipse st with
      | .error e => .error e
      | .ok ent => .ok (ent, r2)

/-! ### zcad-io: inline text decoding -/

/-- Skip through (and past) the next `;`, used for `\S...;` stacked fractions. -/
def skipToSemicolon : List Char → List Char
  | [] => []
  | c :: rest => if c = ';' then rest else skipToSemicolon rest

/-- `zcad_io::decode_mtext_content` over the character list. -/
def decodeMtextChars : List Char → List Char
  | [] => []
  | c :: rest =>
      if c = '\\' then
        match rest with
        | [] => ['\\']
        | d :: rest2 =>
            if d = 'P' ∨ d = 'p' then '\n' :: decodeMtextChars rest2
            else if d = '~' then ' ' :: decodeMtextChars rest2
            else if d = '\\' then '\\' :: decodeMtextChars rest2
            else '\\' :: d :: decodeMtextChars rest2
      else c :: decodeMtextChars rest

/-- `zcad_io::decode_mtext_content`. -/
def decodeMtextContent (s : String) : String := ⟨decodeMtextChars s.toList⟩

/-- One escape step of `decode_inline_text`: given the characters after a
backslash, the emitted characters and the continuation. -/
def inlineEscapeStep : List Char → List Char × List Char
  | [] => (['\\'], [])
  | d :: rest2 =>
      if d = 'P' ∨ d = 'p' then (['\n'], rest2)
      else if d = '~' then ([' '], rest2)
      else if d = '\\' then (['\\'], rest2)
      else if d = 'S' ∨ d = 's' then ([], skipToSemicolon rest2)
      else (['\\', d], rest2)

/-- `zcad_io::decode_inline_text` over the character list (adds the `\S...;`
skip to the mtext decoding). -/
def decodeInlineChars : List Char → List Char
  | [] => []
  | c :: rest =>
      if c = '\\' then
        let p := inlineEscapeStep rest
        p.1 ++ decodeInlineChars p.2
      else c :: decodeInlineChars rest
  termination_by cs => cs.length
  decreasing_by
    all_goals simp_wf
    all_goals
      have hskip : ∀ cs : List Char, (skipToSemicolon cs).length ≤ cs.length := by
        intro cs
        induction cs with
        | nil => simp [skipToSemicolon]
        | cons c rest ih =>
            by_cases h : c = ';'
            · simp [skipToSemicolon, h]
            · simp [skipToSemicolon, h]
              omega
    all_goals
      have hstep : (inlineEscapeStep rest).2.length ≤ rest.length := by
        cases rest with
        | nil => simp [inlineEscapeStep]
        | cons d rest2 =>
            simp only [inlineEscapeStep]
            split
            · simp
            · split
              · simp
              · split
                · simp
                · split
                  · have := hskip rest2
                    simp
                    omega
                  · simp
    all_goals omega

/-- `zcad_io::decode_inline_text`. -/
def decodeInlineText (s : String) : String := ⟨decodeInlineChars s.toList⟩

/-! ### zcad-io: TEXT / MTEXT sub-parsers -/

/-- Field accumulator of `DxfParser::parse_text`. -/
structure TextAcc where
  layer : Option String
  insert_x : Option ℝ
  insert_y : Option ℝ
  height : Option ℝ
  rotation_deg : ℝ
  text : Option String

/-- Initial accumulator (rotation defaults to 0 degrees). -/
def TextAcc.init : TextAcc :=
  ⟨Option.none, Option.none, Option.none, Option.none, 0, Option.none⟩

/-- Per-pair body of the `parse_text` loop; code-1 continuations are joined
with a newline. -/
noncomputable def textStep (st : TextAcc) (code : Int) (value : String) : PResult TextAcc :=
  if code = 8 then .ok { st with layer := Option.some (rustTrim value) }
  else if code = 10 then
    if st.insert_x.isSome then
      .error (.failed (.invalid "TEXT 遇到重复的插入点 X（组码 10）"))
    else
      match parseF64 value "TEXT 插入点 X" with
      | .error e => .error e
      | .ok v => .ok { st with insert_x := Option.some v }
  else if code = 20 then
    if st.insert_y.isSome then
      .error (.failed (.invalid "TEXT 遇到重复的插入点 Y（组码 20）"))
    else
      match parseF64 value "TEXT 插入点 Y" with
      | .error e => .error e
      | .ok v => .ok { st with insert_y := Option.some v }
  else if code = 40 then
    if st.height.isSome then
      .error (.failed (.invalid "TEXT 遇到重复的文字高度（组码 40）"))
    else
      match parseF64 value "TEXT 高度" with
      | .error e => .error e
      | .ok v => .ok { st with height := Option.some v }
  else if code = 50 then
    match parseF64 value "TEXT 旋转角" with
    | .error e => .error e
    | .ok v => .ok { st with rotation_deg := v }
  else if code = 1 then
    match st.text with
    | Option.some existing => .ok { st with text := Option.some (existing ++ "\n" ++ value) }
    | Option.none => .ok { st with text := Option.some value }
  else .ok st

/-- Required-field extraction at the end of `parse_text`; rotation is
converted to radians. -/
noncomputable def finishText (st : TextAcc) : PResult Entity :=
  let layer := st.layer.getD "0"
  match st.insert_x with
  | Option.none => .error (.failed (.invalid "TEXT 缺少插入点 X（组码 10）"))
  | Option.some ix =>
      match st.insert_y with
      | Option.none => .error (.failed (.invalid "TEXT 缺少插入点 Y（组码 20）"))
      | Option.some iy =>
          match st.height with
          | Option.none => .error (.failed (.invalid "TEXT 缺少文字高度（组码 40）"))
          | Option.some h =>
              match st.text with
              | Option.none => .error (.failed (.invalid "TEXT 缺少文本内容（组码 1）"))
              | Option.some content =>
                  .ok (.text ⟨⟨ix, iy⟩, content, h, degToRad st.rotation_deg, layer⟩)

/-- `DxfParser::parse_text`. -/
noncomputable def parseText (fuel : Nat) (r : DxfReader) : PResult (Entity × DxfReader) :=
  match runRecord textStep "TEXT 未正确结束" fuel r TextAcc.init with
  | .error e => .error e
  | .ok (st, r2) =>
      match finishText st with
      | .error e => .error e
      | .ok ent => .ok (ent, r2)

/-- Field accumulator of `DxfParser::parse_mtext`. -/
structure MTextAcc where
  layer : Option String
  insert_x : Option ℝ
  insert_y : Option ℝ
  height : Option ℝ
  reference_width : Option ℝ
  direction_x : Option ℝ
  direction_y : Option ℝ
  rotation_deg : Option ℝ
  attachment_point : Int
  drawing_direction : Int
  style : Option String
  fragments : List String

/-- Initial accumulator (attachment point and drawing direction default 1). -/
def MTextAcc.init : MTextAcc :=
  ⟨Option.none, Option.none, Option.none, Option.none, Option.none, Option.none,
    Option.none, Option.none, 1, 1, Option.none, []⟩

/-- Per-pair body of the `parse_mtext` loop. -/
noncomputable def mtextStep (st : MTextAcc) (code : Int) (value : String) :
    PResult MTextAcc :=
  if code = 8 then .ok { st with layer := Option.some (rustTrim value) }
  else if code = 10 then
    if st.insert_x.isSome then
      .error (.failed (.invalid "MTEXT 遇到重复的插入点 X（组码 10）"))
    else
      match parseF64 value "MTEXT 插入点 X" with
      | .error e => .error e
      | .ok v => .ok { st with insert_x := Option.some v }
  else if code = 20 then
    if st.insert_y.isSome then
      .error (.failed (.invalid "MTEXT 遇到重复的插入点 Y（组码 20）"))
    else
      match parseF64 value "MTEXT 插入点 Y" with
      | .error e => .error e
      | .ok v => .ok { st with insert_y := Option.some v }
  else if code = 40 then
    if st.height.isSome then
      .error (.failed (.invalid "MTEXT 遇到重复的文本高度（组码 40）"))
    else
      match parseF64 value "MTEXT 高度" with
      | .error e => .error e
      | .ok v => .ok { st with height := Option.some v }
  else if code = 41 then
    match parseF64 value "MTEXT 参考宽度" with
    | .error e => .error e
    | .ok width =>
        .ok { st with
          reference_width := if |width| < f64Epsilon then Option.none else Option.some width }
  else if code = 11 then
    match parseF64 value "MTEXT 方向向量 X" with
    | .error e => .error e
    | .ok v => .ok { st with direction_x := Option.some v }
  else if code = 21 then
    match parseF64 value "MTEXT 方向向量 Y" with
    | .error e => .error e
    | .ok v => .ok { st with direction_y := Option.some v }
  else if code = 50 then
    match parseF64 value "MTEXT 旋转角" with
    | .error e => .error e
    | .ok v => .ok { st with rotation_deg := Option.some v }
  else if code = 71 then
    match parseI16 value "MTEXT 附着点 (组码 71)" with
    | .error e => .error e
    | .ok v => .ok { st with attachment_point := v }
  else if code = 72 then
    match parseI16 value "MTEXT 书写方向 (组码 72)" with
    | .error e => .error e
    | .ok v => .ok { st with drawing_direction := v }
  else if code = 7 then .ok { st with style := Option.some (rustTrim value) }
  else if code = 1 ∨ code = 3 then .ok { st with fragments := st.fragments ++ [value] }
  else .ok st

/-- Required-field extraction, fragment decoding and direction derivation at
the end of `parse_mtext`. -/
noncomputable def finishMText (st : MTextAcc) : PResult Entity :=
  let layer := st.layer.getD "0"
  match st.insert_x with
  | Option.none => .error (.failed (.invalid "MTEXT 缺少插入点 X（组码 10）"))
  | Option.some ix =>
      match st.insert_y with
      | Option.none => .error (.failed (.invalid "MTEXT 缺少插入点 Y（组码 20）"))
      | Option.some iy =>
          match st.height with
          | Option.none => .error (.failed (.invalid "MTEXT 缺少文本高度（组码 40）"))
          | Option.some h =>
              if st.fragments.isEmpty then
                .error (.failed (.invalid "MTEXT 缺少内容（组码 1/3）"))
              else
                let decoded := String.join (st.fragments.map decodeMtextContent)
                let direction : Vector2 :=
                  match st.direction_x, st.direction_y with
                  | Option.some dx, Option.some dy =>
                      if |dx| < f64Epsilon ∧ |dy| < f64Epsilon then ⟨1, 0⟩ else ⟨dx, dy⟩
                  | _, _ =>
                      match st.rotation_deg with
                      | Option.some rot =>
                          ⟨Real.cos (degToRad rot), Real.sin (degToRad rot)⟩
                      | Option.none => ⟨1, 0⟩
                .ok (.mtext ⟨⟨ix, iy⟩, decoded, h, st.reference_width, direction,
                  st.attachment_point, st.drawing_direction, st.style, layer⟩)

/-- `DxfParser::parse_mtext`. -/
noncomputable def parseMText (fuel : Nat) (r : DxfReader) : PResult (Entity × DxfReader) :=
  match runRecord mtextStep "MTEXT 未正确结束" fuel r MTextAcc.init with
  | .error e => .error e
  | .ok (st, r2) =>
      match finishMText st with
      | .error e => .error e
      | .ok ent => .ok (ent, r2)

/-! ### zcad-io: ATTRIB / ATTDEF sub-parsers -/

/-- Field accumulator shared by `parse_attrib` and `parse_attdef` (both read
an identical field set apart from the prompt source and text slot). -/
structure AttribAcc where
  layer : Option String
  insert_x : Option ℝ
  insert_y : Option ℝ
  height : Option ℝ
  rotation_deg : ℝ
  width_factor : ℝ
  oblique_deg : ℝ
  text : Option String
  tag : Option String
  prompt : Option String
  style : Option String
  align_x : Option ℝ
  align_y : Option ℝ
  horizontal_align : Int
  vertical_align : Int
  flags : Int
  lock_position : Bool
  line_spacing_factor : ℝ
  line_spacing_style : Int

/-- Initial accumulator with the documented defaults (width factor 1,
line-spacing factor 1). -/
def AttribAcc.init : AttribAcc :=
  ⟨Option.none, Option.none, Option.none, Option.none, 0, 1, 0, Option.none,
    Option.none, Option.none, Option.none, Option.none, Option.none, 0, 0, 0,
    false, 1, 0⟩

/-- Per-pair body of the `parse_attrib` loop (`kindName` switches the error
message prefix between ATTRIB and ATTDEF, whose bodies are otherwise
field-for-field identical in the source). -/
noncomputable def attribStep (kindName : String) (st : AttribAcc) (code : Int)
    (value : String) : PResult AttribAcc :=
  if code = 8 then .ok { st with layer := Option.some (rustTrim value) }
  else if code = 10 then
    if st.insert_x.isSome then
      .error (.failed (.invalid (kindName ++ " 遇到重复的插入点 X（组码 10）")))
    else
      match parseF64 value (kindName ++ " 插入点 X") with
      | .error e => .error e
      | .ok v => .ok { st with insert_x := Option.some v }
  else if code = 20 then
    if st.insert_y.isSome then
      .error (.failed (.invalid (kindName ++ " 遇到重复的插入点 Y（组码 20）")))
    else
      match parseF64 value (kindName ++ " 插入点 Y") with
      | .error e => .error e
      | .ok v => .ok { st with insert_y := Option.some v }
  else if code = 40 then
    if kindName = "ATTDEF" ∧ st.height.isSome then
      .error (.failed (.invalid "ATTDEF 遇到重复的文本高度（组码 40）"))
    else
      match parseF64 value (kindName ++ " 高度") with
      | .error e => .error e
      | .ok v => .ok { st with height := Option.some v }
  else if code = 41 then
    match parseF64 value (kindName ++ " 宽度因子") with
    | .error e => .error e
    | .ok v => .ok { st with width_factor := v }
  else if code = 50 then
    match parseF64 value (kindName ++ " 旋转角") with
    | .error e => .error e
    | .ok v => .ok { st with rotation_deg := v }
  else if code = 51 then
    match parseF64 value (kindName ++ " 倾斜角") with
    | .error e => .error e
    | .ok v => .ok { st with oblique_deg := v }
  else if code = 1 then
    match st.text with
    | Option.some existing => .ok { st with text := Option.some (existing ++ "\n" ++ value) }
    | Option.none => .ok { st with text := Option.some value }
  else if code = 2 then .ok { st with tag := Option.some (rustTrim value) }
  else if code = 3 then .ok { st with prompt := Option.some value }
  else if code = 7 then .ok { st with style := Option.some (rustTrim value) }
  else if code = 11 then
    match parseF64 value (kindName ++ " 对齐点 X") with
    | .error e => .error e
    | .ok v => .ok { st with align_x := Option.some v }
  else if code = 21 then
    match parseF64 value (kindName ++ " 对齐点 Y") with
    | .error e => .error e
    | .ok v => .ok { st with align_y := Option.some v }
  else if code = 70 then
    match parseI16 value (kindName ++ " 标志") with
    | .error e => .error e
    | .ok v => .ok { st with flags := v }
  else if code = 72 then
    match parseI16 value (kindName ++ " 水平对齐") with
    | .error e => .error e
    | .ok v => .ok { st with horizontal_align := v }
  else if code = 73 then
    match parseI16 value (kindName ++ " 垂直对齐") with
    | .error e => .error e
    | .ok v => .ok { st with vertical_align := v }
  else if code = 74 then
    match parseI16 value (kindName ++ " 行距样式") with
    | .error e => .error e
    | .ok v => .ok { st with line_spacing_style := v }
  else if code = 44 then
    match parseF64 value (kindName ++ " 行距因子") with
    | .error e => .error e
    | .ok v => .ok { st with line_spacing_factor := v }
  else if code = 280 then
    match parseI16 value (kindName ++ " 锁定标志") with
    | .error e => .error e
    | .ok v => .ok { st with lock_position := v ≠ 0 }
  else .ok st

/-- Final assembly of `parse_attrib`: angles to radians, inline-decoded text,
flag unpacking. -/
noncomputable def finishAttrib (st : AttribAcc) : PResult Attribute :=
  let layer := st.layer.getD "0"
  match st.insert_x with
  | Option.none => .error (.failed (.invalid "ATTRIB 缺少插入点 X（组码 10）"))
  | Option.some ix =>
      match st.insert_y with
      | Option.none => .error (.failed (.invalid "ATTRIB 缺少插入点 Y（组码 20）"))
      | Option.some iy =>
          match st.text with
          | Option.none => .error (.failed (.invalid "ATTRIB 缺少文本内容（组码 1）"))
          | Option.some rawText =>
              match st.tag with
              | Option.none => .error (.failed (.invalid "ATTRIB 缺少标记（组码 2）"))
              | Option.some tg =>
                  let alignment :=
                    match st.align_x, st.align_y with
                    | Option.some ax, Option.some ay => Option.some (Point2.mk ax ay)
                    | _, _ => Option.none
                  .ok ⟨tg, decodeInlineText rawText, ⟨ix, iy⟩, st.height.getD 0,
                    degToRad st.rotation_deg, st.width_factor, degToRad st.oblique_deg,
                    st.style, st.prompt, alignment, st.horizontal_align, st.vertical_align,
                    st.line_spacing_factor, st.line_spacing_style,
                    i16TestBit st.flags 0, i16TestBit st.flags 1, i16TestBit st.flags 2,
                    i16TestBit st.flags 3, st.lock_position, layer⟩

/-- `DxfParser::parse_attrib`. -/
noncomputable def parseAttrib (fuel : Nat) (r : DxfReader) :
    PResult (Attribute × DxfReader) :=
  match runRecord (attribStep "ATTRIB") "ATTRIB 未正确结束" fuel r AttribAcc.init with
  | .error e => .error e
  | .ok (st, r2) =>
      match finishAttrib st with
      | .error e => .error e
      | .ok attr => .ok (attr, r2)

/-- Final assembly of `parse_attdef` (height required, default text decoded). -/
noncomputable def finishAttdef (st : AttribAcc) : PResult AttributeDefinition :=
  let layer := st.layer.getD "0"
  match st.insert_x with
  | Option.none => .error (.failed (.invalid "ATTDEF 缺少插入点 X（组码 10）"))
  | Option.some ix =>
      match st.insert_y with
      | Option.none => .error (.failed (.invalid "ATTDEF 缺少插入点 Y（组码 20）"))
      | Option.some iy =>
          match st.text with
          | Option.none => .error (.failed (.invalid "ATTDEF 缺少默认文本（组码 1）"))
          | Option.some rawDefault =>
              match st.tag with
              | Option.none => .error (.failed (.invalid "ATTDEF 缺少标记（组码 2）"))
              | Option.some tg =>
                  let alignment :=
                    match st.align_x, st.align_y with
                    | Option.some ax, Option.some ay => Option.some (Point2.mk ax ay)
                    | _, _ => Option.none
                  .ok ⟨tg, st.prompt, decodeInlineText rawDefault, ⟨ix, iy⟩,
                    st.height.getD 0, degToRad st.rotation_deg, st.width_factor,
                    degToRad st.oblique_deg, st.style, alignment, st.horizontal_align,
                    st.vertical_align, st.line_spacing_factor, st.line_spacing_style,
                    i16TestBit st.flags 0, i16TestBit st.flags 1, i16TestBit st.flags 2,
                    i16TestBit st.flags 3, st.lock_position, layer⟩

/-- `DxfParser::parse_attdef`. -/
noncomputable def parseAttdef (fuel : Nat) (r : DxfReader) :
    PResult (AttributeDefinition × DxfReader) :=
  match runRecord (attribStep "ATTDEF") "ATTDEF 未正确结束" fuel r AttribAcc.init with
  | .error e => .error e
  | .ok (st, r2) =>
      match finishAttdef st with
      | .error e => .error e
      | .ok attrDef => .ok (attrDef, r2)

/-! ### zcad-io: generic record-body skip -/

/-- `DxfParser::skip_entity_body`: consume pairs up to the next group-0 pair
(pushed back) or end of input. -/
def skipEntityBody : Nat → DxfReader → PResult DxfReader
  | 0, _ => .error (.failed (.invalid "内部 fuel 耗尽"))
  | fuel + 1, r =>
      match r.nextPair with
      | .error e => .error e
      | .ok (Option.none, r2) => .ok r2
      | .ok (Option.some (code, value), r2) =>
          if code = 0 then r2.putBackP (0, value)
          else skipEntityBody fuel r2

/-! ### zcad-io: INSERT sub-parser (with trailing ATTRIB records) -/

/-- Field accumulator of the first `parse_insert` loop. -/
structure InsertAcc where
  layer : Option String
  name : Option String
  insert_x : Option ℝ
  insert_y : Option ℝ
  scale_x : Option ℝ
  scale_y : Option ℝ
  rotation_deg : ℝ

/-- Initial accumulator (rotation defaults to 0 degrees). -/
def InsertAcc.init : InsertAcc :=
  ⟨Option.none, Option.none, Option.none, Option.none, Option.none, Option.none, 0⟩

/-- Per-pair body of the first `parse_insert` loop. -/
noncomputable def insertStep (st : InsertAcc) (code : Int) (value : String) :
    PResult InsertAcc :=
  if code = 8 then .ok { st with layer := Option.some (rustTrim value) }
  else if code = 2 then
    if st.name.isSome then .error (.failed (.invalid "INSERT 遇到重复的块名（组码 2）"))
    else .ok { st with name := Option.some (rustTrim value) }
  else if code = 10 then
    if st.insert_x.isSome then
      .error (.failed (.invalid "INSERT 遇到重复的插入点 X（组码 10）"))
    else
      match parseF64 value "INSERT 插入点 X" with
      | .error e => .error e
      | .ok v => .ok { st with insert_x := Option.some v }
  else if code = 20 then
    if st.insert_y.isSome then
      .error (.failed (.invalid "INSERT 遇到重复的插入点 Y（组码 20）"))
    else
      match parseF64 value "INSERT 插入点 Y" with
      | .error e => .error e
      | .ok v => .ok { st with insert_y := Option.some v }
  else if code = 41 then
    match parseF64 value "INSERT 缩放 X" with
    | .error e => .error e
    | .ok v => .ok { st with scale_x := Option.some v }
  else if code = 42 then
    match parseF64 value "INSERT 缩放 Y" with
    | .error e => .error e
    | .ok v => .ok { st with scale_y := Option.some v }
  else if code = 50 then
    match parseF64 value "INSERT 旋转角" with
    | .error e => .error e
    | .ok v => .ok { st with rotation_deg := v }
  else .ok st

/-- The post-record ATTRIB/SEQEND loop of `parse_insert`. -/
noncomputable def insertAttribLoop : Nat → DxfReader → List Attribute →
    PResult (List Attribute × DxfReader)
  | 0, _, _ => .error (.failed (.invalid "内部 fuel 耗尽"))
  | fuel + 1, r, acc =>
      match r.nextPair with
      | .error e => .error e
      | .ok (Option.none, r2) => .ok (acc, r2)
      | .ok (Option.some (code, value), r2) =>
          if code = 0 then
            if value = "ATTRIB" then
              match parseAttrib fuel r2 with
              | .error e => .error e
              | .ok (attr, r3) => insertAttribLoop fuel r3 (acc ++ [attr])
            else if value = "SEQEND" then
              match skipEntityBody fuel r2 with
              | .error e => .error e
              | .ok r3 => .ok (acc, r3)
            else
              match r2.putBackP (0, value) with
              | .error e => .error e
              | .ok r3 => .ok (acc, r3)
          else
            .error (.failed (.invalid
              ("INSERT 属性段出现意外组码 " ++ toString code ++ " 值 " ++ value)))

/-- `DxfParser::parse_insert`. -/
noncomputable def parseInsert (fuel : Nat) (r : DxfReader) : PResult (Entity × DxfReader) :=
  match runRecord insertStep "INSERT 未正确结束" fuel r InsertAcc.init with
  | .error e => .error e
  | .ok (st, r2) =>
      let layer := st.layer.getD "0"
      match st.name with
      | Option.none => .error (.failed (.invalid "INSERT 缺少块名（组码 2）"))
      | Option.some blockName =>
          match st.insert_x with
          | Option.none => .error (.failed (.invalid "INSERT 缺少插入点 X（组码 10）"))
          | Option.some ix =>
              match st.insert_y with
              | Option.none => .error (.failed (.invalid "INSERT 缺少插入点 Y（组码 20）"))
              | Option.some iy =>
                  let sx := st.scale_x.getD 1
                  let sy := st.scale_y.getD (st.scale_x.getD 1)
                  match insertAttribLoop fuel r2 [] with
                  | .error e => .error e
                  | .ok (attributes, r3) =>
                      .ok (.blockReference ⟨blockName, ⟨ix, iy⟩, ⟨sx, sy⟩,
                        degToRad st.rotation_deg, attributes, layer⟩, r3)

/-! ### zcad-io: SPLINE / LEADER sub-parsers -/

/-- Field accumulator of `DxfParser::parse_spline`. -/
structure SplineAcc where
  layer : Option String
  flags : Int
  degree : Option Int
  knot_values : List ℝ
  weights : List ℝ
  control_points : List Point2
  fit_points : List Point2
  pending_control_x : Option ℝ
  pending_fit_x : Option ℝ
  pending_start_tangent_x : Option ℝ
  pending_end_tangent_x : Option ℝ
  start_tangent : Option Vector2
  end_tangent : Option Vector2

/-- Initial accumulator. -/
def SplineAcc.init : SplineAcc :=
  ⟨Option.none, 0, Option.none, [], [], [], [], Option.none, Option.none,
    Option.none, Option.none, Option.none, Option.none⟩

/-- Per-pair body of the `parse_spline` loop. -/
noncomputable def splineStep (st : SplineAcc) (code : Int) (value : String) :
    PResult SplineAcc :=
  if code = 8 then .ok { st with layer := Option.some (rustTrim value) }
  else if code = 70 then
    match parseI16 value "SPLINE 类型标志（组码 70）" with
    | .error e => .error e
    | .ok v => .ok { st with flags := v }
  else if code = 71 then
    match parseI16 value "SPLINE 阶数（组码 71）" with
    | .error e => .error e
    | .ok v => .ok { st with degree := Option.some v }
  else if code = 72 ∨ code = 73 ∨ code = 74 then
    match parseI32 value "SPLINE 计数信息" with
    | .error e => .error e
    | .ok _ => .ok st
  else if code = 40 then
    match parseF64 value "SPLINE 节点值（组码 40）" with
    | .error e => .error e
    | .ok v => .ok { st with knot_values := st.knot_values ++ [v] }
  else if code = 41 then
    match parseF64 value "SPLINE 权重（组码 41）" with
    | .error e => .error e
    | .ok v => .ok { st with weights := st.weights ++ [v] }
  else if code = 10 then
    match parseF64 value "SPLINE 控制点 X（组码 10）" with
    | .error e => .error e
    | .ok v =>
        if st.pending_control_x.isSome then
          .error (.failed (.invalid "SPLINE 控制点 X（组码 10）在未提供 Y 之前重复出现"))
        else .ok { st with pending_control_x := Option.some v }
  else if code = 20 then
    match parseF64 value "SPLINE 控制点 Y（组码 20）" with
    | .error e => .error e
    | .ok y =>
        match st.pending_control_x with
        | Option.none =>
            .error (.failed (.invalid "SPLINE 控制点 Y（组码 20）缺少对应的 X"))
        | Option.some x =>
            .ok { st with
              pending_control_x := Option.none
              control_points := st.control_points ++ [⟨x, y⟩] }
  else if code = 11 then
    match parseF64 value "SPLINE 拟合点 X（组码 11）" with
    | .error e => .error e
    | .ok v =>
        if st.pending_fit_x.isSome then
          .error (.failed (.invalid "SPLINE 拟合点 X（组码 11）在未提供 Y 之前重复出现"))
        else .ok { st with pending_fit_x := Option.some v }
  else if code = 21 then
    match parseF64 value "SPLINE 拟合点 Y（组码 21）" with
    | .error e => .error e
    | .ok y =>
        match st.pending_fit_x with
        | Option.none =>
            .error (.failed (.invalid "SPLINE 拟合点 Y（组码 21）缺少对应的 X"))
        | Option.some x =>
            .ok { st with
              pending_fit_x := Option.none
              fit_points := st.fit_points ++ [⟨x, y⟩] }
  else if code = 12 then
    match parseF64 value "SPLINE 起始切向量 X（组码 12）" with
    | .error e => .error e
    | .ok v =>
        if st.pending_start_tangent_x.isSome then
          .error (.failed (.invalid "SPLINE 起始切向量 X（组码 12）重复出现"))
        else .ok { st with pending_start_tangent_x := Option.some v }
  else if code = 22 then
    match parseF64 value "SPLINE 起始切向量 Y（组码 22）" with
    | .error e => .error e
    | .ok y =>
        match st.pending_start_tangent_x with
        | Option.none =>
            .error (.failed (.invalid "SPLINE 起始切向量 Y（组码 22）缺少对应的 X"))
        | Option.some x =>
            .ok { st with
              pending_start_tangent_x := Option.none
              start_tangent := Option.some ⟨x, y⟩ }
  else if code = 13 then
    match parseF64 value "SPLINE 终止切向量 X（组码 13）" with
    | .error e => .error e
    | .ok v =>
        if st.pending_end_tangent_x.isSome then
          .error (.failed (.invalid "SPLINE 终止切向量 X（组码 13）重复出现"))
        else .ok { st with pending_end_tangent_x := Option.some v }
  else if code = 23 then
    match parseF64 value "SPLINE 终止切向量 Y（组码 23）" with
    | .error e => .error e
    | .ok y =>
        match st.pending_end_tangent_x with
        | Option.none =>
            .error (.failed (.invalid "SPLINE 终止切向量 Y（组码 23）缺少对应的 X"))
        | Option.some x =>
            .ok { st with
              pending_end_tangent_x := Option.none
              end_tangent := Option.some ⟨x, y⟩ }
  else .ok st

/-- Pending-coordinate checks and final assembly of `parse_spline` (the source
interpolates the dangling X value into these messages; the embedding keeps a
fixed message text). -/
noncomputable def finishSpline (st : SplineAcc) : PResult Entity :=
  if st.pending_control_x.isSome then
    .error (.failed (.invalid "SPLINE 控制点 X 缺少对应的 Y（组码 20）"))
  else if st.pending_fit_x.isSome then
    .error (.failed (.invalid "SPLINE 拟合点 X 缺少对应的 Y（组码 21）"))
  else if st.pending_start_tangent_x.isSome then
    .error (.failed (.invalid "SPLINE 起始切向量 X 缺少对应的 Y（组码 22）"))
  else if st.pending_end_tangent_x.isSome then
    .error (.failed (.invalid "SPLINE 终止切向量 X 缺少对应的 Y（组码 23）"))
  else
    let layer := st.layer.getD "0"
    match st.degree with
    | Option.none => .error (.failed (.invalid "SPLINE 缺少阶数（组码 71）"))
    | Option.some deg =>
        .ok (.spline ⟨deg, i16TestBit st.flags 2, i16TestBit st.flags 0, i16TestBit st.flags 1,
          st.control_points, st.fit_points, st.knot_values, st.weights,
          st.start_tangent, st.end_tangent, layer⟩)

/-- `DxfParser::parse_spline`. -/
noncomputable def parseSpline (fuel : Nat) (r : DxfReader) : PResult (Entity × DxfReader) :=
  match runRecord splineStep "SPLINE 未正确结束" fuel r SplineAcc.init with
  | .error e => .error e
  | .ok (st, r2) =>
      match finishSpline st with
      | .error e => .error e
      | .ok ent => .ok (ent, r2)

/-- Field accumulator of `DxfParser::parse_leader`. -/
structure LeaderAcc where
  layer : Option String
  style_name : Option String
  has_arrowhead : Bool
  pending_x : Option ℝ
  vertices : List Point2

/-- Initial accumulator. -/
def LeaderAcc.init : LeaderAcc := ⟨Option.none, Option.none, false, Option.none, []⟩

/-- Per-pair body of the `parse_leader` loop. -/
noncomputable def leaderStep (st : LeaderAcc) (code : Int) (value : String) :
    PResult LeaderAcc :=
  if code = 8 then .ok { st with layer := Option.some (rustTrim value) }
  else if code = 3 then
    if (rustTrim value) = "" then .ok st
    else .ok { st with style_name := Option.some (rustTrim value) }
  else if code = 10 then
    if st.pending_x.isSome then
      .error (.failed (.invalid "LEADER 顶点 X（组码 10）重复出现且缺少对应的组码 20"))
    else
      match parseF64 value "LEADER 顶点 X（组码 10）" with
      | .error e => .error e
      | .ok v => .ok { st with pending_x := Option.some v }
  else if code = 20 then
    match st.pending_x with
    | Option.none =>
        .error (.failed (.invalid "LEADER 顶点 Y（组码 20）出现前缺少组码 10"))
    | Option.some x =>
        match parseF64 value "LEADER 顶点 Y（组码 20）" with
        | .error e => .error e
        | .ok y =>
            .ok { st with pending_x := Option.none, vertices := st.vertices ++ [Point2.mk x y] }
  else if code = 71 then
    match parseI16 value "LEADER 箭头标志（组码 71）" with
    | .error e => .error e
    | .ok v => .ok { st with has_arrowhead := i16TestBit v 0 }
  else .ok st

/-- Pending-vertex checks and final assembly of `parse_leader`. -/
def finishLeader (st : LeaderAcc) : PResult Entity :=
  if st.pending_x.isSome then
    .error (.failed (.invalid "LEADER 读取完毕时缺少最后一个顶点的组码 20"))
  else if st.vertices.isEmpty then
    .error (.failed (.invalid "LEADER 缺少任意顶点（组码 10/20）"))
  else
    .ok (.leader ⟨st.layer.getD "0", st.style_name, st.vertices, st.has_arrowhead⟩)

/-- `DxfParser::parse_leader`. -/
noncomputable def parseLeader (fuel : Nat) (r : DxfReader) : PResult (Entity × DxfReader) :=
  match runRecord leaderStep "LEADER 未正确结束" fuel r LeaderAcc.init with
  | .error e => .error e
  | .ok (st, r2) =>
      match finishLeader st with
      | .error e => .error e
      | .ok ent => .ok (ent, r2)

/-! ### zcad-io: LWPOLYLINE sub-parser -/

/-- Field accumulator of `DxfParser::parse_lwpolyline`. -/
structure LwpolyAcc where
  layer : Option String
  is_closed : Bool
  vertices : List PolylineVertex
  pending_x : Option ℝ
  pending_y : Option ℝ
  last_vertex_index : Option Nat

/-- Initial accumulator. -/
def LwpolyAcc.init : LwpolyAcc :=
  ⟨Option.none, false, [], Option.none, Option.none, Option.none⟩

/-- Per-pair body of the `parse_lwpolyline` loop. -/
noncomputable def lwpolyStep (st : LwpolyAcc) (code : Int) (value : String) :
    PResult LwpolyAcc :=
  if code = 8 then .ok { st with layer := Option.some (rustTrim value) }
  else if code = 70 then
    match parseI32 value "LWPOLYLINE 标志" with
    | .error e => .error e
    | .ok flag => .ok { st with is_closed := i32TestBit flag 0 }
  else if code = 10 then
    match parseF64 value "LWPOLYLINE 顶点 X" with
    | .error e => .error e
    | .ok x =>
        match st.pending_y with
        | Option.some y =>
            .ok { st with
              pending_y := Option.none
              vertices := st.vertices ++ [PolylineVertex.new ⟨x, y⟩]
              last_vertex_index := Option.some st.vertices.length }
        | Option.none =>
            if st.pending_x.isSome then
              .error (.failed (.invalid "LWPOLYLINE 顶点缺少对应的 Y（组码 20）"))
            else .ok { st with pending_x := Option.some x }
  else if code = 20 then
    match parseF64 value "LWPOLYLINE 顶点 Y" with
    | .error e => .error e
    | .ok y =>
        match st.pending_x with
        | Option.some x =>
            .ok { st with
              pending_x := Option.none
              vertices := st.vertices ++ [PolylineVertex.new ⟨x, y⟩]
              last_vertex_index := Option.some st.vertices.length }
        | Option.none =>
            if st.pending_y.isSome then
              .error (.failed (.invalid "LWPOLYLINE 顶点缺少对应的 X（组码 10）"))
            else .ok { st with pending_y := Option.some y }
  else if code = 42 then
    match parseF64 value "LWPOLYLINE 顶点 bulge" with
    | .error e => .error e
    | .ok bulge =>
        match st.last_vertex_index with
        | Option.some idx =>
            if h : idx < st.vertices.length then
              let v := st.vertices.get ⟨idx, h⟩
              .ok { st with vertices := st.vertices.set idx { v with bulge := bulge } }
            else .error (.failed (.invalid "LWPOLYLINE 内部错误：索引越界"))
        | Option.none =>
            .error (.failed (.invalid "LWPOLYLINE 在定义首个顶点前遇到 bulge（组码 42）"))
  else .ok st

/-- Pending-coordinate checks and final assembly of `parse_lwpolyline`. -/
def finishLwpoly (st : LwpolyAcc) : PResult Entity :=
  if st.pending_x.isSome ∨ st.pending_y.isSome then
    .error (.failed (.invalid
      "LWPOLYLINE 顶点坐标成对出现（组码 10/20），检测到不完整的顶点"))
  else if st.vertices.isEmpty then
    .error (.failed (.invalid "LWPOLYLINE 未解析到任何顶点"))
  else .ok (.polyline ⟨st.vertices, st.is_closed, st.layer.getD "0"⟩)

/-- `DxfParser::parse_lwpolyline`. -/
noncomputable def parseLwpolyline (fuel : Nat) (r : DxfReader) :
    PResult (Entity × DxfReader) :=
  match runRecord lwpolyStep "LWPOLYLINE 未正确结束" fuel r LwpolyAcc.init with
  | .error e => .error e
  | .ok (st, r2) =>
      match finishLwpoly st with
      | .error e => .error e
      | .ok ent => .ok (ent, r2)

/-! ### zcad-io: legacy POLYLINE (polyface mesh / polygon mesh) -/

/-- `zcad_io::PolyfaceRecord`. -/
inductive PolyfaceRecord where
  | coordinate (point : Point3)
  | face (indices : List Int)
  | ignored

/-- Field accumulator of `parse_polyface_vertex_record` and
`parse_mesh_vertex_record`. -/
structure VertexRecAcc where
  x : Option ℝ
  y : Option ℝ
  z : Option ℝ
  flags : Int
  idx1 : Int
  idx2 : Int
  idx3 : Int
  idx4 : Int

/-- Initial accumulator (all indices 0, flags 0). -/
def VertexRecAcc.init : VertexRecAcc :=
  ⟨Option.none, Option.none, Option.none, 0, 0, 0, 0, 0⟩

/-- Per-pair body of the `parse_polyface_vertex_record` loop. -/
noncomputable def polyfaceVertexStep (st : VertexRecAcc) (code : Int) (value : String) :
    PResult VertexRecAcc :=
  if code = 8 then .ok st
  else if code = 10 then
    match parseF64 value "POLYFACE 顶点 X（组码 10）" with
    | .error e => .error e
    | .ok v => .ok { st with x := Option.some v }
  else if code = 20 then
    match parseF64 value "POLYFACE 顶点 Y（组码 20）" with
    | .error e => .error e
    | .ok v => .ok { st with y := Option.some v }
  else if code = 30 then
    match parseF64 value "POLYFACE 顶点 Z（组码 30）" with
    | .error e => .error e
    | .ok v => .ok { st with z := Option.some v }
  else if code = 70 then
    match parseI16 value "VERTEX 标志（组码 70）" with
    | .error e => .error e
    | .ok v => .ok { st with flags := v }
  else if code = 71 then
    match parseI32 value "POLYFACE 面顶点 1（组码 71）" with
    | .error e => .error e
    | .ok v => .ok { st with idx1 := v }
  else if code = 72 then
    match parseI32 value "POLYFACE 面顶点 2（组码 72）" with
    | .error e => .error e
    | .ok v => .ok { st with idx2 := v }
  else if code = 73 then
    match parseI32 value "POLYFACE 面顶点 3（组码 73）" with
    | .error e => .error e
    | .ok v => .ok { st with idx3 := v }
  else if code = 74 then
    match parseI32 value "POLYFACE 面顶点 4（组码 74）" with
    | .error e => .error e
    | .ok v => .ok { st with idx4 := v }
  else .ok st

/-- Classification at the end of `parse_polyface_vertex_record`: flag `0x80`
with `0x40` is a coordinate vertex, `0x80` alone a face record. -/
def finishPolyfaceVertex (st : VertexRecAcc) : PResult PolyfaceRecord :=
  if i16TestBit st.flags 7 ∧ i16TestBit st.flags 6 then
    match st.x with
    | Option.none => .error (.failed (.invalid "POLYFACE 顶点缺少 X（组码 10）"))
    | Option.some xv =>
        match st.y with
        | Option.none => .error (.failed (.invalid "POLYFACE 顶点缺少 Y（组码 20）"))
        | Option.some yv => .ok (.coordinate ⟨xv, yv, st.z.getD 0⟩)
  else if i16TestBit st.flags 7 then .ok (.face [st.idx1, st.idx2, st.idx3, st.idx4])
  else .ok .ignored

/-- `DxfParser::parse_polyface_vertex_record`. -/
noncomputable def parsePolyfaceVertexRecord (fuel : Nat) (r : DxfReader) :
    PResult (PolyfaceRecord × DxfReader) :=
  match runRecord polyfaceVertexStep "VERTEX 未正确结束" fuel r VertexRecAcc.init with
  | .error e => .error e
  | .ok (st, r2) =>
      match finishPolyfaceVertex st with
      | .error e => .error e
      | .ok rec => .ok (rec, r2)

/-- `DxfParser::resolve_polyface_vertex`: signed 1-based index lookup. -/
def resolvePolyfaceVertex (coordinates : List Point3) (index : Int) : PResult Point3 :=
  let idx := index.natAbs
  if h : idx = 0 ∨ coordinates.length < idx then
    .error (.failed (.invalid "POLYFACE 面引用了不存在的顶点索引"))
  else
    .ok (coordinates.get ⟨idx - 1, by omega⟩)

/-- One slot of `build_polyface_face`: index 0 repeats the previous vertex and
marks the edge invisible, a negative index hides the edge. -/
def polyfaceSlot (coordinates : List Point3) (lastVertex : Point3) (index : Int) :
    PResult (Point3 × Bool × Point3) :=
  if index = 0 then .ok (lastVertex, true, lastVertex)
  else
    match resolvePolyfaceVertex coordinates index with
    | .error e => .error e
    | .ok resolved => .ok (resolved, decide (index < 0), resolved)

/-- `DxfParser::build_polyface_face` (the four index slots unrolled). -/
def buildPolyfaceFace (coordinates : List Point3) (indices : List Int) :
    PResult (Option (List Point3 × List Bool)) :=
  match coordinates with
  | [] => .ok Option.none
  | c0 :: _ =>
      match indices with
      | [i1, i2, i3, i4] =>
          match polyfaceSlot coordinates c0 i1 with
          | .error e => .error e
          | .ok (v1, h1, l1) =>
              match polyfaceSlot coordinates l1 i2 with
              | .error e => .error e
              | .ok (v2, h2, l2) =>
                  match polyfaceSlot coordinates l2 i3 with
                  | .error e => .error e
                  | .ok (v3, h3, l3) =>
                      match polyfaceSlot coordinates l3 i4 with
                      | .error e => .error e
                      | .ok (v4, h4, _) =>
                          .ok (Option.some ([v1, v2, v3, v4], [h1, h2, h3, h4]))
      | _ => .ok Option.none

/-- `DxfParser::parse_polyface_mesh`: VERTEX records accumulate coordinates,
face records emit `Face3D` entities into the document. -/
noncomputable def parsePolyfaceMesh (layer : String) :
    Nat → DxfReader → Document → List Point3 → PResult (Document × DxfReader)
  | 0, _, _, _ => .error (.failed (.invalid "内部 fuel 耗尽"))
  | fuel + 1, r, doc, coordinates =>
      match r.nextPair with
      | .error e => .error e
      | .ok (Option.none, _) =>
          .error (.failed (.invalid "POLYLINE 缺少 SEQEND（组码 0, 值为 SEQEND）"))
      | .ok (Option.some (code, value), r2) =>
          if code = 0 then
            if value = "VERTEX" then
              match parsePolyfaceVertexRecord fuel r2 with
              | .error e => .error e
              | .ok (.coordinate point, r3) =>
                  parsePolyfaceMesh layer fuel r3 doc (coordinates ++ [point])
              | .ok (.face indices, r3) =>
                  match buildPolyfaceFace coordinates indices with
                  | .error e => .error e
                  | .ok (Option.some (vertices, invisible)) =>
                      parsePolyfaceMesh layer fuel r3
                        (doc.addFace3d vertices invisible layer).2 coordinates
                  | .ok Option.none => parsePolyfaceMesh layer fuel r3 doc coordinates
              | .ok (.ignored, r3) => parsePolyfaceMesh layer fuel r3 doc coordinates
            else if value = "SEQEND" then .ok (doc, r2)
            else
              match r2.putBackP (0, value) with
              | .error e => .error e
              | .ok r3 => .ok (doc, r3)
          else .error (.failed (.invalid "POLYLINE 遇到无效的记录，期望 VERTEX/SEQEND"))

/-- Per-pair body of the `parse_mesh_vertex_record` loop. -/
noncomputable def meshVertexStep (st : VertexRecAcc) (code : Int) (value : String) :
    PResult VertexRecAcc :=
  if code = 8 then .ok st
  else if code = 10 then
    match parseF64 value "POLYLINE 网格顶点 X（组码 10）" with
    | .error e => .error e
    | .ok v => .ok { st with x := Option.some v }
  else if code = 20 then
    match parseF64 value "POLYLINE 网格顶点 Y（组码 20）" with
    | .error e => .error e
    | .ok v => .ok { st with y := Option.some v }
  else if code = 30 then
    match parseF64 value "POLYLINE 网格顶点 Z（组码 30）" with
    | .error e => .error e
    | .ok v => .ok { st with z := Option.some v }
  else if code = 70 then
    match parseI16 value "VERTEX 标志（组码 70）" with
    | .error e => .error e
    | .ok v => .ok { st with flags := v }
  else .ok st

/-- Coordinate extraction at the end of `parse_mesh_vertex_record` (flag
`0x80` records are skipped). -/
def finishMeshVertex (st : VertexRecAcc) : PResult (Option Point3) :=
  if i16TestBit st.flags 7 then .ok Option.none
  else
    match st.x with
    | Option.none => .error (.failed (.invalid "POLYLINE 网格顶点缺少 X（组码 10）"))
    | Option.some xv =>
        match st.y with
        | Option.none => .error (.failed (.invalid "POLYLINE 网格顶点缺少 Y（组码 20）"))
        | Option.some yv => .ok (Option.some ⟨xv, yv, st.z.getD 0⟩)

/-- `DxfParser::parse_mesh_vertex_record`. -/
noncomputable def parseMeshVertexRecord (fuel : Nat) (r : DxfReader) :
    PResult (Option Point3 × DxfReader) :=
  match runRecord meshVertexStep "VERTEX 未正确结束" fuel r VertexRecAcc.init with
  | .error e => .error e
  | .ok (st, r2) =>
      match finishMeshVertex st with
      | .error e => .error e
      | .ok pt => .ok (pt, r2)

/-- The VERTEX-collection loop of `parse_polygon_mesh`. -/
noncomputable def collectMeshVertices :
    Nat → DxfReader → List Point3 → PResult (List Point3 × DxfReader)
  | 0, _, _ => .error (.failed (.invalid "内部 fuel 耗尽"))
  | fuel + 1, r, vertices =>
      match r.nextPair with
      | .error e => .error e
      | .ok (Option.none, _) =>
          .error (.failed (.invalid "POLYLINE 网格缺少 SEQEND（组码 0, 值为 SEQEND）"))
      | .ok (Option.some (code, value), r2) =>
          if code = 0 then
            if value = "VERTEX" then
              match parseMeshVertexRecord fuel r2 with
              | .error e => .error e
              | .ok (Option.some point, r3) => collectMeshVertices fuel r3 (vertices ++ [point])
              | .ok (Option.none, r3) => collectMeshVertices fuel r3 vertices
            else if value = "SEQEND" then .ok (vertices, r2)
            else
              match r2.putBackP (0, value) with
              | .error e => .error e
              | .ok r3 => .ok (vertices, r3)
          else .error (.failed (.invalid "POLYLINE 网格遇到无效记录"))

/-- Emit the grid faces of `parse_polygon_mesh` (row-major `rows × cols`
vertices, optional wrap in both directions). -/
def emitMeshFaces (layer : String) (vertices : List Point3) (rows cols : Nat)
    (wrapM wrapN : Bool) (doc : Document) : Document :=
  let rowIterations := if wrapM then rows else rows - 1
  let colIterations := if wrapN then cols else cols - 1
  (List.range rowIterations).foldl
    (fun d row =>
      (List.range colIterations).foldl
        (fun d2 col =>
          let nextRow := (row + 1) % rows
          let nextCol := (col + 1) % cols
          let at_ := fun i => (vertices.get? i).getD ⟨0, 0, 0⟩
          let face := [at_ (row * cols + col), at_ (nextRow * cols + col),
            at_ (nextRow * cols + nextCol), at_ (row * cols + nextCol)]
          (d2.addFace3d face [false, false, false, false] layer).2)
        d)
    doc

/-- `DxfParser::parse_polygon_mesh`. -/
noncomputable def parsePolygonMesh (layer : String) (rows cols : Nat)
    (wrapM wrapN : Bool) (fuel : Nat) (r : DxfReader) (doc : Document) :
    PResult (Document × DxfReader) :=
  if rows < 2 ∨ cols < 2 then
    .error (.failed (.invalid "POLYLINE 网格至少需要 2x2 个顶点才能构成面"))
  else
    match collectMeshVertices fuel r [] with
    | .error e => .error e
    | .ok (vertices, r2) =>
        if vertices.length < rows * cols then
          .error (.failed (.invalid "POLYLINE 网格顶点不足"))
        else .ok (emitMeshFaces layer vertices rows cols wrapM wrapN doc, r2)

/-- `DxfParser::skip_polyline_sequence`. -/
def skipPolylineSequence : Nat → DxfReader → PResult DxfReader
  | 0, _ => .error (.failed (.invalid "内部 fuel 耗尽"))
  | fuel + 1, r =>
      match r.nextPair with
      | .error e => .error e
      | .ok (Option.none, r2) => .ok r2
      | .ok (Option.some (code, value), r2) =>
          if code = 0 then
            if value = "VERTEX" then
              match skipEntityBody fuel r2 with
              | .error e => .error e
              | .ok r3 => skipPolylineSequence fuel r3
            else if value = "SEQEND" then .ok r2
            else r2.putBackP (0, value)
          else skipPolylineSequence fuel r2

/-- Field accumulator of the header loop of `parse_polyline_entity`. -/
structure PolylineHeaderAcc where
  layer : Option String
  flags : Option Int
  mesh_rows : Option Int
  mesh_cols : Option Int

/-- Initial accumulator. -/
def PolylineHeaderAcc.init : PolylineHeaderAcc :=
  ⟨Option.none, Option.none, Option.none, Option.none⟩

/-- Per-pair body of the `parse_polyline_entity` header loop. -/
noncomputable def polylineHeaderStep (st : PolylineHeaderAcc) (code : Int)
    (value : String) : PResult PolylineHeaderAcc :=
  if code = 8 then .ok { st with layer := Option.some (rustTrim value) }
  else if code = 70 then
    match parseI16 value "POLYLINE 标志（组码 70）" with
    | .error e => .error e
    | .ok v => .ok { st with flags := Option.some v }
  else if code = 71 then
    match parseI16 value "POLYLINE 网格行数（组码 71）" with
    | .error e => .error e
    | .ok v => .ok { st with mesh_rows := Option.some v }
  else if code = 72 then
    match parseI16 value "POLYLINE 网格列数（组码 72）" with
    | .error e => .error e
    | .ok v => .ok { st with mesh_cols := Option.some v }
  else .ok st

/-- `DxfParser::parse_polyline_entity`: dispatch on the flag bits — `0x40`
polyface mesh, `0x10` polygon mesh, anything else unsupported. -/
noncomputable def parsePolylineEntity (fuel : Nat) (r : DxfReader) (doc : Document) :
    PResult (Document × DxfReader) :=
  match runRecord polylineHeaderStep "POLYLINE 未正确结束" fuel r PolylineHeaderAcc.init with
  | .error e => .error e
  | .ok (st, r2) =>
      let flags := st.flags.getD 0
      let layer := st.layer.getD "0"
      if i16TestBit flags 6 then parsePolyfaceMesh layer fuel r2 doc []
      else if i16TestBit flags 4 then
        match st.mesh_rows with
        | Option.none => .error (.failed (.invalid "POLYLINE Mesh 缺少行数（组码 71）"))
        | Option.some rows =>
            match st.mesh_cols with
            | Option.none => .error (.failed (.invalid "POLYLINE Mesh 缺少列数（组码 72）"))
            | Option.some cols =>
                parsePolygonMesh layer rows.toNat cols.toNat (i16TestBit flags 0)
                  (i16TestBit flags 1) fuel r2 doc
      else
        match skipPolylineSequence fuel r2 with
        | .error e => .error e
        | .ok _ => .error (.failed (.unsupported "POLYLINE Mesh/Polyface 以外的模式暂未实现"))

/-! ### zcad-io: MULTILEADER sub-parser -/

/-- Field accumulator of `DxfParser::parse_mleader`. -/
structure MLeaderAcc where
  layer : Option String
  style_name : Option String
  text_height : Option ℝ
  scale : Option ℝ
  landing_gap : Option ℝ
  leader_lines : List LeaderLine
  current_line : List Point2
  pending_vertex_x : Option ℝ
  content_location_pending_x : Option ℝ
  content_location : Option Point2
  text_lines : List String
  content_type : Option Int
  block_handle : Option String
  block_scale_x : ℝ
  block_scale_y : ℝ
  block_scale_z : ℝ
  block_scale_next_code : Option Int
  block_rotation : Option ℝ
  block_connection_type : Option Int
  block_location_x : Option ℝ
  block_location_y : Option ℝ
  in_leader_section : Bool
  dogleg_length : Option ℝ

/-- Initial accumulator (block scale defaults to (1,1,1)). -/
def MLeaderAcc.init : MLeaderAcc :=
  ⟨Option.none, Option.none, Option.none, Option.none, Option.none, [], [],
    Option.none, Option.none, Option.none, [], Option.none, Option.none,
    1, 1, 1, Option.none, Option.none, Option.none, Option.none, Option.none,
    false, Option.none⟩

/-- Per-pair body of the `parse_mleader` loop.  Code 40 is scale outside a
`LEADER{` section and dogleg length inside it; codes 10/20/30 are leader-line
vertices unless a block handle (code 344) armed the 3-axis block scale. -/
noncomputable def mleaderStep (st : MLeaderAcc) (code : Int) (value : String) :
    PResult MLeaderAcc :=
  if code = 8 then .ok { st with layer := Option.some (rustTrim value) }
  else if code = 3 then
    if (rustTrim value) = "" then .ok st
    else .ok { st with style_name := Option.some (rustTrim value) }
  else if code = 40 then
    if st.in_leader_section then
      match parseF64 value "MULTILEADER 狗腿长度（组码 40）" with
      | .error e => .error e
      | .ok v => .ok { st with dogleg_length := Option.some v }
    else
      match parseF64 value "MULTILEADER 缩放（组码 40）" with
      | .error e => .error e
      | .ok v => .ok { st with scale := Option.some v }
  else if code = 140 then
    match parseF64 value "MULTILEADER 文本高度（组码 140）" with
    | .error e => .error e
    | .ok v => .ok { st with text_height := Option.some v }
  else if code = 145 then
    match parseF64 value "MULTILEADER 落脚间隙（组码 145）" with
    | .error e => .error e
    | .ok v => .ok { st with landing_gap := Option.some v }
  else if code = 10 then
    if st.block_scale_next_code = Option.some 10 then
      match parseF64 value "MULTILEADER 块缩放 X（组码 10）" with
      | .error e => .error e
      | .ok v =>
          .ok { st with block_scale_x := v, block_scale_next_code := Option.some 20 }
    else if st.pending_vertex_x.isSome then
      .error (.failed (.invalid "MULTILEADER 顶点 X（组码 10）重复出现且缺少对应的组码 20"))
    else
      match parseF64 value "MULTILEADER 引线顶点 X（组码 10）" with
      | .error e => .error e
      | .ok v => .ok { st with pending_vertex_x := Option.some v }
  else if code = 20 then
    if st.block_scale_next_code = Option.some 20 then
      match parseF64 value "MULTILEADER 块缩放 Y（组码 20）" with
      | .error e => .error e
      | .ok v =>
          .ok { st with block_scale_y := v, block_scale_next_code := Option.some 30 }
    else
      match st.pending_vertex_x with
      | Option.none =>
          .error (.failed (.invalid "MULTILEADER 引线顶点 Y（组码 20）出现前缺少组码 10"))
      | Option.some x =>
          match parseF64 value "MULTILEADER 引线顶点 Y（组码 20）" with
          | .error e => .error e
          | .ok y =>
              .ok { st with
                pending_vertex_x := Option.none
                current_line := st.current_line ++ [Point2.mk x y] }
  else if code = 30 then
    if st.block_scale_next_code = Option.some 30 then
      match parseF64 value "MULTILEADER 块缩放 Z（组码 30）" with
      | .error e => .error e
      | .ok v =>
          .ok { st with block_scale_z := v, block_scale_next_code := Option.none }
    else .ok st
  else if code = 12 then
    match parseF64 value "MULTILEADER 内容位置 X（组码 12）" with
    | .error e => .error e
    | .ok v => .ok { st with content_location_pending_x := Option.some v }
  else if code = 22 then
    match st.content_location_pending_x with
    | Option.none =>
        .error (.failed (.invalid "MULTILEADER 内容位置 Y（组码 22）出现前缺少组码 12"))
    | Option.some x =>
        match parseF64 value "MULTILEADER 内容位置 Y（组码 22）" with
        | .error e => .error e
        | .ok y =>
            .ok { st with
              content_location_pending_x := Option.none
              content_location := Option.some ⟨x, y⟩ }
  else if code = 91 then
    if st.current_line.isEmpty then .ok st
    else
      .ok { st with
        leader_lines := st.leader_lines ++ [⟨st.current_line⟩]
        current_line := [] }
  else if code = 302 ∨ code = 303 ∨ code = 304 then
    let trimmed := (trimEndCR value)
    if trimmed = "LEADER\x7b" then .ok { st with in_leader_section := true }
    else if trimmed = "LEADER_LINE\x7b" then .ok st
    else if trimmed = "\x7d" then .ok st
    else if trimmed = "" then .ok st
    else .ok { st with text_lines := st.text_lines ++ [trimmed] }
  else if code = 305 ∨ code = 306 ∨ code = 307 then
    let trimmed := (trimEndCR value)
    if trimmed = "\x7d" then .ok { st with in_leader_section := false }
    else .ok st
  else if code = 15 then
    match parseF64 value "MULTILEADER 块内容位置 X（组码 15）" with
    | .error e => .error e
    | .ok v => .ok { st with block_location_x := Option.some v }
  else if code = 25 then
    match parseF64 value "MULTILEADER 块内容位置 Y（组码 25）" with
    | .error e => .error e
    | .ok v => .ok { st with block_location_y := Option.some v }
  else if code = 172 then
    match parseI16 value "MULTILEADER 内容类型（组码 172）" with
    | .error e => .error e
    | .ok v => .ok { st with content_type := Option.some v }
  else if code = 344 then
    if (rustTrim value) = "" then .ok st
    else
      .ok { st with
        block_handle := Option.some (rustTrim value)
        block_scale_next_code := Option.some 10 }
  else if code = 43 then
    match parseF64 value "MULTILEADER 块旋转（组码 43）" with
    | .error e => .error e
    | .ok v => .ok { st with block_rotation := Option.some v }
  else if code = 176 then
    match parseI16 value "MULTILEADER 块连接类型（组码 176）" with
    | .error e => .error e
    | .ok v => .ok { st with block_connection_type := Option.some v }
  else .ok st

/-- Content classification and final assembly of `parse_mleader`: Block iff
content type 1, a block handle, or an explicit block location component
appeared; else MText iff text fragments were collected; else None. -/
noncomputable def finishMLeader (st : MLeaderAcc) : PResult Entity :=
  if st.pending_vertex_x.isSome then
    .error (.failed (.invalid "MULTILEADER 读取完毕时缺少最后一个引线顶点的组码 20"))
  else if st.content_location_pending_x.isSome then
    .error (.failed (.invalid "MULTILEADER 内容位置缺少组码 22 对应的 Y 坐标"))
  else
    let leaderLines :=
      if st.current_line.isEmpty then st.leader_lines
      else st.leader_lines ++ [⟨st.current_line⟩]
    if leaderLines.isEmpty then
      .error (.failed (.invalid "MULTILEADER 缺少任何引线几何（组码 10/20）"))
    else
      let layer := st.layer.getD "0"
      let fallbackLocation :=
        (st.content_location.orElse (fun _ =>
          (leaderLines.head?).bind (fun line => line.vertices.getLast?))).getD ⟨0, 0⟩
      let hasBlockContent :=
        st.content_type = Option.some 1 ∨ st.block_handle.isSome ∨
          st.block_location_x.isSome ∨ st.block_location_y.isSome
      let hasDogleg :=
        match st.dogleg_length with
        | Option.some v => decide (f64Epsilon < |v|)
        | Option.none => false
      let content : MLeaderContent :=
        if hasBlockContent then
          let location :=
            match st.block_location_x, st.block_location_y with
            | Option.some x, Option.some y => Point2.mk x y
            | _, _ => fallbackLocation
          .block ⟨st.block_handle, Option.none, location,
            ⟨st.block_scale_x, st.block_scale_y⟩, st.block_rotation.getD 0,
            st.block_connection_type⟩
        else if ¬ st.text_lines.isEmpty then
          .mtext (decodeInlineText (String.intercalate "\n" st.text_lines))
            (st.content_location.getD fallbackLocation)
        else .none
      .ok (.mleader ⟨layer, st.style_name, leaderLines, content, st.text_height,
        st.scale, hasDogleg, st.dogleg_length, st.landing_gap⟩)

/-- `DxfParser::parse_mleader`. -/
noncomputable def parseMLeader (fuel : Nat) (r : DxfReader) : PResult (Entity × DxfReader) :=
  match runRecord mleaderStep "MULTILEADER 未正确结束" fuel r MLeaderAcc.init with
  | .error e => .error e
  | .ok (st, r2) =>
      match finishMLeader st with
      | .error e => .error e
      | .ok ent => .ok (ent, r2)

/-! ### zcad-io: HATCH sub-parser -/

/-- `parse_hatch::PolyVertex`. -/
structure HatchPolyVertex where
  point : Point2
  bulge : ℝ

/-- `parse_hatch::PartialLoop` (loop accumulator). -/
structure HatchLoopAcc where
  flags : Int
  is_polyline : Bool
  has_bulge : Bool
  is_closed : Bool
  expected_vertices : Option Nat
  poly_vertices : List HatchPolyVertex
  boundary_handles : List String
  edges : List HatchEdge
  pending_vertex_x : Option ℝ

/-- `PartialLoop::new`: the polyline bit is flag `0x02`. -/
def HatchLoopAcc.new (flags : Int) : HatchLoopAcc :=
  ⟨flags, i32TestBit flags 1, false, false, Option.none, [], [], [], Option.none⟩

/-- `parse_hatch::SplineBuilder` (typed spline edge accumulator). -/
structure SplineEdgeAcc where
  control_points : List Point2
  fit_points : List Point2
  knot_values : List ℝ
  degree : Option Int
  is_rational : Bool
  is_periodic : Bool
  pending_control_x : Option ℝ
  pending_fit_x : Option ℝ

/-- Empty spline edge accumulator. -/
def SplineEdgeAcc.default : SplineEdgeAcc :=
  ⟨[], [], [], Option.none, false, false, Option.none, Option.none⟩

/-- `parse_hatch::EdgeBuilder` (typed boundary edge accumulator; the partial
points are updated componentwise via `get_or_insert(origin).x = ..`). -/
inductive EdgeBuilder where
  | line (start endPoint : Option Point2)
  | arc (center : Option Point2) (radius start_angle end_angle : Option ℝ)
      (is_counter_clockwise : Bool)
  | ellipse (center : Option Point2) (major_axis : Option Vector2)
      (minor_ratio start_angle end_angle : Option ℝ) (is_counter_clockwise : Bool)
  | spline (builder : SplineEdgeAcc)

/-- `EdgeBuilder::new` keyed by the type code `{1: Line, 2: Arc, 3: Ellipse,
4: Spline}`; anything else is an unsupported feature. -/
def EdgeBuilder.new (edgeType : Int) : PResult EdgeBuilder :=
  if edgeType = 1 then .ok (.line Option.none Option.none)
  else if edgeType = 2 then .ok (.arc Option.none Option.none Option.none Option.none true)
  else if edgeType = 3 then
    .ok (.ellipse Option.none Option.none Option.none Option.none Option.none true)
  else if edgeType = 4 then .ok (.spline SplineEdgeAcc.default)
  else .error (.failed (.unsupported ("HATCH 不支持的边界类型 " ++ toString edgeType)))

/-- `get_or_insert(Point2::new(0,0)).x = x` on an optional point. -/
def setOptPointX (p : Option Point2) (x : ℝ) : Option Point2 :=
  match p with
  | Option.some q => Option.some ⟨x, q.y⟩
  | Option.none => Option.some ⟨x, 0⟩

/-- `get_or_insert(Point2::new(0,0)).y = y` on an optional point. -/
def setOptPointY (p : Option Point2) (y : ℝ) : Option Point2 :=
  match p with
  | Option.some q => Option.some ⟨q.x, y⟩
  | Option.none => Option.some ⟨0, y⟩

/-- `get_or_insert(Vector2::new(0,0)).x = x` on an optional vector. -/
def setOptVecX (p : Option Vector2) (x : ℝ) : Option Vector2 :=
  match p with
  | Option.some q => Option.some ⟨x, q.y⟩
  | Option.none => Option.some ⟨x, 0⟩

/-- `get_or_insert(Vector2::new(0,0)).y = y` on an optional vector. -/
def setOptVecY (p : Option Vector2) (y : ℝ) : Option Vector2 :=
  match p with
  | Option.some q => Option.some ⟨q.x, y⟩
  | Option.none => Option.some ⟨0, y⟩

/-- `SplineBuilder::finish`. -/
def SplineEdgeAcc.finish (b : SplineEdgeAcc) : PResult HatchEdge :=
  if b.pending_control_x.isSome then
    .error (.failed (.invalid "HATCH 样条边控制点 X 缺少对应的 Y 坐标"))
  else if b.pending_fit_x.isSome then
    .error (.failed (.invalid "HATCH 样条边拟合点 X 缺少对应的 Y 坐标"))
  else if b.control_points.length < 2 then
    .error (.failed (.invalid "HATCH 样条边至少需要两个控制点"))
  else
    .ok (.spline b.control_points b.fit_points b.knot_values (b.degree.getD 3)
      b.is_rational b.is_periodic)

/-- `EdgeBuilder::finish`. -/
def EdgeBuilder.finish : EdgeBuilder → PResult HatchEdge
  | .line start endPoint =>
      match start with
      | Option.none => .error (.failed (.invalid "HATCH 直线边缺少起点"))
      | Option.some s =>
          match endPoint with
          | Option.none => .error (.failed (.invalid "HATCH 直线边缺少终点"))
          | Option.some e => .ok (.line s e)
  | .arc center radius sa ea ccw =>
      match center with
      | Option.none => .error (.failed (.invalid "HATCH 圆弧边缺少圆心"))
      | Option.some c =>
          match radius with
          | Option.none => .error (.failed (.invalid "HATCH 圆弧边缺少半径"))
          | Option.some rad =>
              match sa with
              | Option.none => .error (.failed (.invalid "HATCH 圆弧边缺少起始角"))
              | Option.some a1 =>
                  match ea with
                  | Option.none => .error (.failed (.invalid "HATCH 圆弧边缺少终止角"))
                  | Option.some a2 => .ok (.arc c rad a1 a2 ccw)
  | .ellipse center major minorRatio sa ea ccw =>
      match center with
      | Option.none => .error (.failed (.invalid "HATCH 椭圆边缺少圆心"))
      | Option.some c =>
          match major with
          | Option.none => .error (.failed (.invalid "HATCH 椭圆边缺少主轴向量"))
          | Option.some m =>
              match minorRatio with
              | Option.none => .error (.failed (.invalid "HATCH 椭圆边缺少轴比"))
              | Option.some ratio =>
                  match sa with
                  | Option.none => .error (.failed (.invalid "HATCH 椭圆边缺少起始角"))
                  | Option.some a1 =>
                      match ea with
                      | Option.none => .error (.failed (.invalid "HATCH 椭圆边缺少终止角"))
                      | Option.some a2 => .ok (.ellipse c m ratio a1 a2 ccw)
  | .spline b => b.finish

/-- `PartialLoop::finalize_edge_builder`. -/
def HatchLoopAcc.finalizeEdgeBuilder (loopAcc : HatchLoopAcc)
    (builder : Option EdgeBuilder) : PResult HatchLoopAcc :=
  match builder with
  | Option.none => .ok loopAcc
  | Option.some b =>
      match b.finish with
      | .error e => .error e
      | .ok edge => .ok { loopAcc with edges := loopAcc.edges ++ [edge] }

/-- `PartialLoop::convert_polyline_vertices_to_edges`. -/
def HatchLoopAcc.convertPolylineVertices (loopAcc : HatchLoopAcc) : HatchLoopAcc :=
  if loopAcc.poly_vertices.length < 2 then loopAcc
  else
    let vs := loopAcc.poly_vertices
    let consecutive := (vs.zip vs.tail).map (fun p =>
      HatchEdge.polylineSegment p.1.point p.2.point
        (if loopAcc.has_bulge then p.1.bulge else 0))
    let closing :=
      if loopAcc.is_closed then
        match vs.head?, vs.getLast? with
        | Option.some first, Option.some last =>
            [HatchEdge.polylineSegment last.point first.point
              (if loopAcc.has_bulge then last.bulge else 0)]
        | _, _ => []
      else []
    { loopAcc with edges := loopAcc.edges ++ consecutive ++ closing }

/-- `PartialLoop::finalize`. -/
def HatchLoopAcc.finalize (loopAcc : HatchLoopAcc) : PResult HatchLoop :=
  let checked : PResult HatchLoopAcc :=
    if loopAcc.is_polyline then
      match loopAcc.expected_vertices with
      | Option.some expected =>
          if expected ≠ loopAcc.poly_vertices.length then
            .error (.failed (.invalid "HATCH 多段线环路声明的顶点数量与实际数量不符"))
          else .ok loopAcc.convertPolylineVertices
      | Option.none => .ok loopAcc.convertPolylineVertices
    else .ok loopAcc
  match checked with
  | .error e => .error e
  | .ok la =>
      if la.pending_vertex_x.isSome then
        .error (.failed (.invalid "HATCH 顶点 X 缺少对应的 Y 坐标"))
      else .ok ⟨la.is_polyline, la.is_closed, la.edges, la.boundary_handles⟩

/-- `parse_hatch::GradientBuilder`. -/
structure GradientAcc where
  enabled : Bool
  angle : Option ℝ
  shift : Option ℝ
  tint : Option ℝ
  is_single_color : Bool
  colors : List Nat
  name : Option String

/-- Empty gradient accumulator. -/
def GradientAcc.default : GradientAcc :=
  ⟨false, Option.none, Option.none, Option.none, false, [], Option.none⟩

/-- `GradientBuilder::finish`. -/
def GradientAcc.finish (g : GradientAcc) : Option HatchGradient :=
  if g.enabled then
    Option.some ⟨g.name.getD "LINEAR", g.angle.getD 0, g.shift, g.tint,
      g.is_single_color, g.colors.get? 0, g.colors.get? 1⟩
  else Option.none

/-- Whole-record accumulator of `parse_hatch`. -/
structure HatchAcc where
  layer : Option String
  pattern_name : String
  is_solid : Bool
  loops : List HatchLoop
  current_loop : Option HatchLoopAcc
  edge_builder : Option EdgeBuilder
  gradient : GradientAcc

/-- Initial accumulator (pattern name defaults to SOLID). -/
def HatchAcc.init : HatchAcc :=
  ⟨Option.none, "SOLID", false, [], Option.none, Option.none, GradientAcc.default⟩

/-- `parse_hatch::finalize_loop`: flush the edge builder and the current loop
into the finished loop list. -/
def hatchFinalizeLoop (st : HatchAcc) : PResult HatchAcc :=
  match st.current_loop with
  | Option.none => .ok st
  | Option.some loopAcc =>
      match loopAcc.finalizeEdgeBuilder st.edge_builder with
      | .error e => .error e
      | .ok la =>
          match la.finalize with
          | .error e => .error e
          | .ok finished =>
              .ok { st with
                loops := st.loops ++ [finished]
                current_loop := Option.none
                edge_builder := Option.none }

/-- Per-pair body of the `parse_hatch` loop. -/
noncomputable def hatchStep (st : HatchAcc) (code : Int) (value : String) :
    PResult HatchAcc :=
  if code = 8 then .ok { st with layer := Option.some (rustTrim value) }
  else if code = 2 then .ok { st with pattern_name := (rustTrim value) }
  else if code = 70 then
    match parseI16 value "HATCH 旗标（组码 70）" with
    | .error e => .error e
    | .ok flag => .ok { st with is_solid := i16TestBit flag 0 }
  else if code = 91 then
    match parseI32 value "HATCH 环路数量（组码 91）" with
    | .error e => .error e
    | .ok _ => .ok st
  else if code = 92 then
    match hatchFinalizeLoop st with
    | .error e => .error e
    | .ok st2 =>
        match parseI32 value "HATCH 环路类型（组码 92）" with
        | .error e => .error e
        | .ok flags => .ok { st2 with current_loop := Option.some (HatchLoopAcc.new flags) }
  else if code = 93 then
    match st.current_loop with
    | Option.none => .ok st
    | Option.some loopAcc =>
        match parseI32 value "HATCH 边计数（组码 93）" with
        | .error e => .error e
        | .ok n =>
            .ok { st with
              current_loop := Option.some { loopAcc with expected_vertices := Option.some n.toNat } }
  else if code = 72 then
    match st.current_loop with
    | Option.none =>
        .error (.failed (.invalid "HATCH 在缺少环路的情况下出现了边定义（组码 72）"))
    | Option.some loopAcc =>
        if loopAcc.is_polyline ∧ st.edge_builder.isNone then
          match parseI32 value "HATCH 多段线 bulge 标记（组码 72）" with
          | .error e => .error e
          | .ok v =>
              .ok { st with
                current_loop := Option.some { loopAcc with has_bulge := v ≠ 0 } }
        else
          match loopAcc.finalizeEdgeBuilder st.edge_builder with
          | .error e => .error e
          | .ok la =>
              match parseI32 value "HATCH 边类型（组码 72）" with
              | .error e => .error e
              | .ok edgeType =>
                  match EdgeBuilder.new edgeType with
                  | .error e => .error e
                  | .ok builder =>
                      .ok { st with
                        current_loop := Option.some la
                        edge_builder := Option.some builder }
  else if code = 73 then
    match st.current_loop with
    | Option.none => .ok st
    | Option.some loopAcc =>
        if loopAcc.is_polyline ∧ st.edge_builder.isNone then
          match parseI32 value "HATCH 多段线闭合标记（组码 73）" with
          | .error e => .error e
          | .ok v =>
              .ok { st with
                current_loop := Option.some { loopAcc with is_closed := v ≠ 0 } }
        else
          match st.edge_builder with
          | Option.none => .ok st
          | Option.some (.arc c rad sa ea _) =>
              match parseI32 value "HATCH 边方向标记（组码 73）" with
              | .error e => .error e
              | .ok v => .ok { st with edge_builder := Option.some (.arc c rad sa ea (v ≠ 0)) }
          | Option.some (.ellipse c m ratio sa ea _) =>
              match parseI32 value "HATCH 边方向标记（组码 73）" with
              | .error e => .error e
              | .ok v =>
                  .ok { st with edge_builder := Option.some (.ellipse c m ratio sa ea (v ≠ 0)) }
          | Option.some (.spline b) =>
              match parseI32 value "HATCH 样条有理标记（组码 73）" with
              | .error e => .error e
              | .ok v =>
                  .ok { st with
                    edge_builder := Option.some (.spline { b with is_rational := v ≠ 0 }) }
          | Option.some other => .ok { st with edge_builder := Option.some other }
  else if code = 74 then
    match st.edge_builder with
    | Option.some (.spline b) =>
        match parseI32 value "HATCH 样条周期标记（组码 74）" with
        | .error e => .error e
        | .ok v =>
            .ok { st with edge_builder := Option.some (.spline { b with is_periodic := v ≠ 0 }) }
    | _ => .ok st
  else if code = 75 then
    match st.edge_builder with
    | Option.some (.spline b) =>
        match parseI32 value "HATCH 样条阶数（组码 75）" with
        | .error e => .error e
        | .ok v =>
            .ok { st with
              edge_builder := Option.some (.spline { b with degree := Option.some v }) }
    | _ => .ok st
  else if code = 97 then
    match parseI32 value "HATCH 边界引用数量（组码 97）" with
    | .error e => .error e
    | .ok _ => .ok st
  else if code = 330 then
    match st.current_loop with
    | Option.none => .ok st
    | Option.some loopAcc =>
        .ok { st with
          current_loop := Option.some { loopAcc with
            boundary_handles := loopAcc.boundary_handles ++ [(rustTrim value)] } }
  else if code = 10 then
    match st.current_loop with
    | Option.none => .ok st
    | Option.some loopAcc =>
        if loopAcc.is_polyline ∧ st.edge_builder.isNone then
          if loopAcc.pending_vertex_x.isSome then
            .error (.failed (.invalid "HATCH 多段线遇到重复的顶点 X（组码 10）"))
          else
            match parseF64 value "HATCH 顶点 X（组码 10）" with
            | .error e => .error e
            | .ok x =>
                .ok { st with
                  current_loop := Option.some { loopAcc with pending_vertex_x := Option.some x } }
        else
          match st.edge_builder with
          | Option.none => .ok st
          | Option.some (.line s e) =>
              match parseF64 value "HATCH 直线起点 X（组码 10）" with
              | .error err => .error err
              | .ok x => .ok { st with edge_builder := Option.some (.line (setOptPointX s x) e) }
          | Option.some (.arc c rad sa ea ccw) =>
              match parseF64 value "HATCH 圆弧圆心 X（组码 10）" with
              | .error err => .error err
              | .ok x =>
                  .ok { st with edge_builder := Option.some (.arc (setOptPointX c x) rad sa ea ccw) }
          | Option.some (.ellipse c m ratio sa ea ccw) =>
              match parseF64 value "HATCH 椭圆圆心 X（组码 10）" with
              | .error err => .error err
              | .ok x =>
                  .ok { st with
                    edge_builder := Option.some (.ellipse (setOptPointX c x) m ratio sa ea ccw) }
          | Option.some (.spline b) =>
              match parseF64 value "HATCH 样条控制点 X（组码 10）" with
              | .error err => .error err
              | .ok x =>
                  if b.pending_control_x.isSome then
                    .error (.failed (.invalid "HATCH 样条边遇到重复的控制点 X（组码 10）"))
                  else
                    .ok { st with
                      edge_builder := Option.some (.spline { b with pending_control_x := Option.some x }) }
  else if code = 20 then
    match st.current_loop with
    | Option.none => .ok st
    | Option.some loopAcc =>
        if loopAcc.is_polyline ∧ st.edge_builder.isNone then
          match parseF64 value "HATCH 顶点 Y（组码 20）" with
          | .error err => .error err
          | .ok y =>
              match loopAcc.pending_vertex_x with
              | Option.none =>
                  .error (.failed (.invalid "HATCH 顶点 Y 前未读取到对应的 X 值（组码 20）"))
              | Option.some x =>
                  .ok { st with
                    current_loop := Option.some { loopAcc with
                      pending_vertex_x := Option.none
                      poly_vertices := loopAcc.poly_vertices ++ [⟨⟨x, y⟩, 0⟩] } }
        else
          match st.edge_builder with
          | Option.none => .ok st
          | Option.some (.line s e) =>
              match parseF64 value "HATCH 直线起点 Y（组码 20）" with
              | .error err => .error err
              | .ok y => .ok { st with edge_builder := Option.some (.line (setOptPointY s y) e) }
          | Option.some (.arc c rad sa ea ccw) =>
              match parseF64 value "HATCH 圆弧圆心 Y（组码 20）" with
              | .error err => .error err
              | .ok y =>
                  .ok { st with edge_builder := Option.some (.arc (setOptPointY c y) rad sa ea ccw) }
          | Option.some (.ellipse c m ratio sa ea ccw) =>
              match parseF64 value "HATCH 椭圆圆心 Y（组码 20）" with
              | .error err => .error err
              | .ok y =>
                  .ok { st with
                    edge_builder := Option.some (.ellipse (setOptPointY c y) m ratio sa ea ccw) }
          | Option.some (.spline b) =>
              match parseF64 value "HATCH 样条控制点 Y（组码 20）" with
              | .error err => .error err
              | .ok y =>
                  match b.pending_control_x with
                  | Option.none =>
                      .error (.failed (.invalid "HATCH 样条边缺少控制点 X（组码 10）"))
                  | Option.some x =>
                      .ok { st with
                        edge_builder := Option.some (.spline { b with
                          pending_control_x := Option.none
                          control_points := b.control_points ++ [⟨x, y⟩] }) }
  else if code = 11 then
    match st.edge_builder with
    | Option.some (.line s e) =>
        match parseF64 value "HATCH 直线终点 X（组码 11）" with
        | .error err => .error err
        | .ok x => .ok { st with edge_builder := Option.some (.line s (setOptPointX e x)) }
    | Option.some (.ellipse c m ratio sa ea ccw) =>
        match parseF64 value "HATCH 椭圆主轴向量 X（组码 11）" with
        | .error err => .error err
        | .ok x =>
            .ok { st with edge_builder := Option.some (.ellipse c (setOptVecX m x) ratio sa ea ccw) }
    | Option.some (.spline b) =>
        match parseF64 value "HATCH 样条拟合点 X（组码 11）" with
        | .error err => .error err
        | .ok x =>
            if b.pending_fit_x.isSome then
              .error (.failed (.invalid "HATCH 样条边遇到重复的拟合点 X（组码 11）"))
            else
              .ok { st with
                edge_builder := Option.some (.spline { b with pending_fit_x := Option.some x }) }
    | _ => .ok st
  else if code = 21 then
    match st.edge_builder with
    | Option.some (.line s e) =>
        match parseF64 value "HATCH 直线终点 Y（组码 21）" with
        | .error err => .error err
        | .ok y => .ok { st with edge_builder := Option.some (.line s (setOptPointY e y)) }
    | Option.some (.ellipse c m ratio sa ea ccw) =>
        match parseF64 value "HATCH 椭圆主轴向量 Y（组码 21）" with
        | .error err => .error err
        | .ok y =>
            .ok { st with edge_builder := Option.some (.ellipse c (setOptVecY m y) ratio sa ea ccw) }
    | Option.some (.spline b) =>
        match parseF64 value "HATCH 样条拟合点 Y（组码 21）" with
        | .error err => .error err
        | .ok y =>
            match b.pending_fit_x with
            | Option.none => .error (.failed (.invalid "HATCH 样条边缺少拟合点 X（组码 11）"))
            | Option.some x =>
                .ok { st with
                  edge_builder := Option.some (.spline { b with
                    pending_fit_x := Option.none
                    fit_points := b.fit_points ++ [⟨x, y⟩] }) }
    | _ => .ok st
  else if code = 40 then
    match st.edge_builder with
    | Option.some (.arc c _ sa ea ccw) =>
        match parseF64 value "HATCH 圆弧半径（组码 40）" with
        | .error err => .error err
        | .ok v => .ok { st with edge_builder := Option.some (.arc c (Option.some v) sa ea ccw) }
    | Option.some (.ellipse c m _ sa ea ccw) =>
        match parseF64 value "HATCH 椭圆轴比（组码 40）" with
        | .error err => .error err
        | .ok v =>
            .ok { st with edge_builder := Option.some (.ellipse c m (Option.some v) sa ea ccw) }
    | Option.some (.spline b) =>
        match parseF64 value "HATCH 样条数据（组码 40）" with
        | .error err => .error err
        | .ok v =>
            .ok { st with
              edge_builder := Option.some (.spline { b with knot_values := b.knot_values ++ [v] }) }
    | _ => .ok st
  else if code = 41 then
    match st.edge_builder with
    | Option.some (.spline b) =>
        match parseF64 value "HATCH 样条数据（组码 41）" with
        | .error err => .error err
        | .ok v =>
            .ok { st with
              edge_builder := Option.some (.spline { b with knot_values := b.knot_values ++ [v] }) }
    | _ => .ok st
  else if code = 42 then
    let afterBulge : PResult HatchAcc :=
      match st.current_loop with
      | Option.some loopAcc =>
          if loopAcc.is_polyline ∧ ¬ loopAcc.poly_vertices.isEmpty then
            match parseF64 value "HATCH 多段线 bulge（组码 42）" with
            | .error err => .error err
            | .ok bulge =>
                match loopAcc.poly_vertices.getLast? with
                | Option.some last =>
                    .ok { st with
                      current_loop := Option.some { loopAcc with
                        poly_vertices :=
                          loopAcc.poly_vertices.dropLast ++ [{ last with bulge := bulge }] } }
                | Option.none => .ok st
          else .ok st
      | Option.none => .ok st
    match afterBulge with
    | .error err => .error err
    | .ok st2 =>
        match st2.edge_builder with
        | Option.some (.spline b) =>
            match parseF64 value "HATCH 样条节点（组码 42）" with
            | .error err => .error err
            | .ok v =>
                .ok { st2 with
                  edge_builder := Option.some (.spline { b with knot_values := b.knot_values ++ [v] }) }
        | _ => .ok st2
  else if code = 50 then
    match st.edge_builder with
    | Option.some (.arc c rad _ ea ccw) =>
        match parseF64 value "HATCH 圆弧起始角（组码 50）" with
        | .error err => .error err
        | .ok v => .ok { st with edge_builder := Option.some (.arc c rad (Option.some v) ea ccw) }
    | Option.some (.ellipse c m ratio _ ea ccw) =>
        match parseF64 value "HATCH 椭圆起始角（组码 50）" with
        | .error err => .error err
        | .ok v =>
            .ok { st with edge_builder := Option.some (.ellipse c m ratio (Option.some v) ea ccw) }
    | Option.some other => .ok { st with edge_builder := Option.some other }
    | Option.none =>
        match parseF64 value "HATCH 渐变角度（组码 50）" with
        | .error err => .error err
        | .ok v => .ok { st with gradient := { st.gradient with angle := Option.some v } }
  else if code = 51 then
    match st.edge_builder with
    | Option.some (.arc c rad sa _ ccw) =>
        match parseF64 value "HATCH 圆弧终止角（组码 51）" with
        | .error err => .error err
        | .ok v => .ok { st with edge_builder := Option.some (.arc c rad sa (Option.some v) ccw) }
    | Option.some (.ellipse c m ratio sa _ ccw) =>
        match parseF64 value "HATCH 椭圆终止角（组码 51）" with
        | .error err => .error err
        | .ok v =>
            .ok { st with edge_builder := Option.some (.ellipse c m ratio sa (Option.some v) ccw) }
    | _ => .ok st
  else if code = 63 then
    match parseI32 value "HATCH 渐变颜色索引（组码 63）" with
    | .error err => .error err
    | .ok index =>
        .ok { st with
          gradient := { st.gradient with colors := st.gradient.colors ++ [(index.emod 4294967296).toNat] } }
  else if code = 420 ∨ code = 421 then
    match parseU32 value "HATCH 渐变颜色（组码 420/421）" with
    | .error err => .error err
    | .ok colorValue =>
        .ok { st with
          gradient := { st.gradient with colors := st.gradient.colors ++ [colorValue] } }
  else if code = 450 then
    match parseI32 value "HATCH 渐变开关（组码 450）" with
    | .error err => .error err
    | .ok v => .ok { st with gradient := { st.gradient with enabled := v ≠ 0 } }
  else if code = 451 then
    match parseI32 value "HATCH 渐变颜色数量（组码 451）" with
    | .error err => .error err
    | .ok _ => .ok st
  else if code = 452 then
    match parseF64 value "HATCH 渐变角度（组码 452）" with
    | .error err => .error err
    | .ok v => .ok { st with gradient := { st.gradient with angle := Option.some v } }
  else if code = 453 then
    match parseI32 value "HATCH 渐变类型（组码 453）" with
    | .error err => .error err
    | .ok v => .ok { st with gradient := { st.gradient with is_single_color := v ≠ 0 } }
  else if code = 460 then
    match parseF64 value "HATCH 渐变偏移（组码 460）" with
    | .error err => .error err
    | .ok v => .ok { st with gradient := { st.gradient with shift := Option.some v } }
  else if code = 461 ∨ code = 462 then
    match parseF64 value "HATCH 渐变颜色混合（组码 461/462）" with
    | .error err => .error err
    | .ok v => .ok { st with gradient := { st.gradient with tint := Option.some v } }
  else if code = 470 then
    .ok { st with gradient := { st.gradient with name := Option.some (rustTrim value) } }
  else .ok st

/-- `DxfParser::parse_hatch`: run the loop, flush the trailing loop at the
record boundary, require at least one boundary loop. -/
noncomputable def parseHatch (fuel : Nat) (r : DxfReader) : PResult (Entity × DxfReader) :=
  match runRecord hatchStep "HATCH 未正确结束" fuel r HatchAcc.init with
  | .error e => .error e
  | .ok (st, r2) =>
      match hatchFinalizeLoop st with
      | .error e => .error e
      | .ok st2 =>
          if st2.loops.isEmpty then
            .error (.failed (.invalid "HATCH 缺少边界定义"))
          else
            .ok (.hatch ⟨st2.pattern_name, st2.is_solid, st2.loops, st2.gradient.finish,
              st2.layer.getD "0"⟩, r2)

/-! ### zcad-io: DIMENSION sub-parser -/

/-- Field accumulator of `DxfParser::parse_dimension`. -/
structure DimensionAcc where
  layer : Option String
  flags : Int
  definition_x : Option ℝ
  definition_y : Option ℝ
  text_mid_x : Option ℝ
  text_mid_y : Option ℝ
  dim_line_x : Option ℝ
  dim_line_y : Option ℝ
  ext_origin_x : Option ℝ
  ext_origin_y : Option ℝ
  ext_end_x : Option ℝ
  ext_end_y : Option ℝ
  secondary_x : Option ℝ
  secondary_y : Option ℝ
  arc_def_x : Option ℝ
  arc_def_y : Option ℝ
  center_x : Option ℝ
  center_y : Option ℝ
  text_override : Option String
  measurement : Option ℝ
  rotation_deg : ℝ
  text_rotation_deg : Option ℝ
  oblique_angle_deg : Option ℝ

/-- Initial accumulator. -/
def DimensionAcc.init : DimensionAcc :=
  ⟨Option.none, 0, Option.none, Option.none, Option.none, Option.none, Option.none,
    Option.none, Option.none, Option.none, Option.none, Option.none, Option.none,
    Option.none, Option.none, Option.none, Option.none, Option.none, Option.none,
    Option.none, 0, Option.none, Option.none⟩

/-- Shorthand for storing an optional f64 field in a dimension slot. -/
noncomputable def dimSetF64 (value context : String) (set : ℝ → DimensionAcc) :
    PResult DimensionAcc :=
  match parseF64 value context with
  | .error e => .error e
  | .ok v => .ok (set v)

/-- Per-pair body of the `parse_dimension` loop. -/
noncomputable def dimensionStep (st : DimensionAcc) (code : Int) (value : String) :
    PResult DimensionAcc :=
  if code = 8 then .ok { st with layer := Option.some (rustTrim value) }
  else if code = 70 then
    match parseI16 value "DIMENSION 类型标志（组码 70）" with
    | .error e => .error e
    | .ok v => .ok { st with flags := v }
  else if code = 1 then
    let entry := (rustTrim value)
    if entry = "<>" ∨ entry = "" then .ok { st with text_override := Option.none }
    else .ok { st with text_override := Option.some entry }
  else if code = 10 then
    dimSetF64 value "DIMENSION 定义点 X（组码 10）"
      (fun v => { st with definition_x := Option.some v })
  else if code = 20 then
    dimSetF64 value "DIMENSION 定义点 Y（组码 20）"
      (fun v => { st with definition_y := Option.some v })
  else if code = 11 then
    dimSetF64 value "DIMENSION 文本位置 X（组码 11）"
      (fun v => { st with text_mid_x := Option.some v })
  else if code = 21 then
    dimSetF64 value "DIMENSION 文本位置 Y（组码 21）"
      (fun v => { st with text_mid_y := Option.some v })
  else if code = 12 then
    dimSetF64 value "DIMENSION 次要点 X（组码 12）"
      (fun v => { st with secondary_x := Option.some v })
  else if code = 22 then
    dimSetF64 value "DIMENSION 次要点 Y（组码 22）"
      (fun v => { st with secondary_y := Option.some v })
  else if code = 13 then
    dimSetF64 value "DIMENSION 尺寸线位置 X（组码 13）"
      (fun v => { st with dim_line_x := Option.some v })
  else if code = 23 then
    dimSetF64 value "DIMENSION 尺寸线位置 Y（组码 23）"
      (fun v => { st with dim_line_y := Option.some v })
  else if code = 14 then
    dimSetF64 value "DIMENSION 引线起点 X（组码 14）"
      (fun v => { st with ext_origin_x := Option.some v })
  else if code = 24 then
    dimSetF64 value "DIMENSION 引线起点 Y（组码 24）"
      (fun v => { st with ext_origin_y := Option.some v })
  else if code = 15 then
    dimSetF64 value "DIMENSION 引线终点 X（组码 15）"
      (fun v => { st with ext_end_x := Option.some v })
  else if code = 25 then
    dimSetF64 value "DIMENSION 引线终点 Y（组码 25）"
      (fun v => { st with ext_end_y := Option.some v })
  else if code = 16 then
    dimSetF64 value "DIMENSION 弧定义点 X（组码 16）"
      (fun v => { st with arc_def_x := Option.some v })
  else if code = 26 then
    dimSetF64 value "DIMENSION 弧定义点 Y（组码 26）"
      (fun v => { st with arc_def_y := Option.some v })
  else if code = 17 then
    dimSetF64 value "DIMENSION 圆心 X（组码 17）"
      (fun v => { st with center_x := Option.some v })
  else if code = 27 then
    dimSetF64 value "DIMENSION 圆心 Y（组码 27）"
      (fun v => { st with center_y := Option.some v })
  else if code = 42 then
    dimSetF64 value "DIMENSION 测量值（组码 42）"
      (fun v => { st with measurement := Option.some v })
  else if code = 50 then
    dimSetF64 value "DIMENSION 旋转角（组码 50）" (fun v => { st with rotation_deg := v })
  else if code = 51 then
    dimSetF64 value "DIMENSION 倾斜角（组码 51）"
      (fun v => { st with oblique_angle_deg := Option.some v })
  else if code = 52 then
    dimSetF64 value "DIMENSION 文本旋转（组码 52）"
      (fun v => { st with text_rotation_deg := Option.some v })
  else .ok st

/-- `DxfParser::dimension_kind_from_flags`: dispatch on the low nibble. -/
def dimensionKindFromFlags (flags : Int) : DimensionKind :=
  let code := flags.emod 16
  if code = 0 then .linear
  else if code = 1 then .aligned
  else if code = 2 then .angular
  else if code = 3 then .diameter
  else if code = 4 then .radius
  else if code = 5 then .angular3Point
  else if code = 6 then .ordinate
  else .unknown code

/-- Pair two optional coordinates into an optional point. -/
def optPoint : Option ℝ → Option ℝ → Option Point2
  | Option.some x, Option.some y => Option.some ⟨x, y⟩
  | _, _ => Option.none

/-- Required-field extraction and final assembly of `parse_dimension`
(angles converted to radians). -/
noncomputable def finishDimension (st : DimensionAcc) : PResult Entity :=
  let layer := st.layer.getD "0"
  match st.definition_x with
  | Option.none => .error (.failed (.invalid "DIMENSION 缺少定义点 X（组码 10）"))
  | Option.some dx =>
      match st.definition_y with
      | Option.none => .error (.failed (.invalid "DIMENSION 缺少定义点 Y（组码 20）"))
      | Option.some dy =>
          match st.text_mid_x with
          | Option.none => .error (.failed (.invalid "DIMENSION 缺少文本位置 X（组码 11）"))
          | Option.some tx =>
              match st.text_mid_y with
              | Option.none =>
                  .error (.failed (.invalid "DIMENSION 缺少文本位置 Y（组码 21）"))
              | Option.some ty =>
                  .ok (.dimension ⟨dimensionKindFromFlags st.flags, ⟨dx, dy⟩, ⟨tx, ty⟩,
                    optPoint st.dim_line_x st.dim_line_y,
                    optPoint st.ext_origin_x st.ext_origin_y,
                    optPoint st.ext_end_x st.ext_end_y,
                    optPoint st.secondary_x st.secondary_y,
                    optPoint st.arc_def_x st.arc_def_y,
                    optPoint st.center_x st.center_y,
                    st.text_override, st.measurement, degToRad st.rotation_deg,
                    st.text_rotation_deg.map degToRad,
                    st.oblique_angle_deg.map degToRad, layer⟩)

/-- `DxfParser::parse_dimension`. -/
noncomputable def parseDimension (fuel : Nat) (r : DxfReader) :
    PResult (Entity × DxfReader) :=
  match runRecord dimensionStep "DIMENSION 未正确结束" fuel r DimensionAcc.init with
  | .error e => .error e
  | .ok (st, r2) =>
      match finishDimension st with
      | .error e => .error e
      | .ok ent => .ok (ent, r2)

/-! ### zcad-io: IMAGE / WIPEOUT sub-parsers -/

/-- Field accumulator shared by `parse_image` and `parse_wipeout` (identical
code sets; IMAGE keeps the 340 handle as the image definition reference while
WIPEOUT discards it). -/
structure ImageAcc where
  layer : Option String
  image_def_handle : Option String
  insert_x : Option ℝ
  insert_y : Option ℝ
  u_vec_x : Option ℝ
  u_vec_y : Option ℝ
  v_vec_x : Option ℝ
  v_vec_y : Option ℝ
  width : ℝ
  height : ℝ
  options : RasterImageDisplayOptions
  clip_vertices : List Point2
  pending_clip_x : Option ℝ
  clip_enabled : Bool
  clip_boundary_type : Option Int
  expected_clip_vertices : Option Int
  image_def_reactor_handle : Option String
  clip_mode_value : ClipMode

/-- Initial accumulator. -/
def ImageAcc.init : ImageAcc :=
  ⟨Option.none, Option.none, Option.none, Option.none, Option.none, Option.none,
    Option.none, Option.none, 0, 0, RasterImageDisplayOptions.default, [],
    Option.none, false, Option.none, Option.none, Option.none, ClipMode.outside⟩

/-- Per-pair body of the `parse_image`/`parse_wipeout` loop (`kindName`
switches the error prefix; `keepHandle` is true for IMAGE's code-340). -/
noncomputable def imageStep (kindName : String) (keepHandle : Bool) (st : ImageAcc)
    (code : Int) (value : String) : PResult ImageAcc :=
  if code = 8 then .ok { st with layer := Option.some (rustTrim value) }
  else if code = 10 then
    match parseF64 value (kindName ++ " 插入点 X（组码 10）") with
    | .error e => .error e
    | .ok v => .ok { st with insert_x := Option.some v }
  else if code = 20 then
    match parseF64 value (kindName ++ " 插入点 Y（组码 20）") with
    | .error e => .error e
    | .ok v => .ok { st with insert_y := Option.some v }
  else if code = 11 then
    match parseF64 value (kindName ++ " U 向量 X（组码 11）") with
    | .error e => .error e
    | .ok v => .ok { st with u_vec_x := Option.some v }
  else if code = 21 then
    match parseF64 value (kindName ++ " U 向量 Y（组码 21）") with
    | .error e => .error e
    | .ok v => .ok { st with u_vec_y := Option.some v }
  else if code = 12 then
    match parseF64 value (kindName ++ " V 向量 X（组码 12）") with
    | .error e => .error e
    | .ok v => .ok { st with v_vec_x := Option.some v }
  else if code = 22 then
    match parseF64 value (kindName ++ " V 向量 Y（组码 22）") with
    | .error e => .error e
    | .ok v => .ok { st with v_vec_y := Option.some v }
  else if code = 13 then
    match parseF64 value (kindName ++ " 显示宽度（组码 13）") with
    | .error e => .error e
    | .ok v => .ok { st with width := v }
  else if code = 23 then
    match parseF64 value (kindName ++ " 显示高度（组码 23）") with
    | .error e => .error e
    | .ok v => .ok { st with height := v }
  else if code = 70 then
    match parseI16 value (kindName ++ " 显示标志（组码 70）") with
    | .error e => .error e
    | .ok flags =>
        .ok { st with options :=
          { st.options with
            show_image := i16TestBit flags 0
            show_border := i16TestBit flags 1
            use_clipping := i16TestBit flags 2 } }
  else if code = 280 then
    match parseI16 value (kindName ++ " 亮度（组码 280）") with
    | .error e => .error e
    | .ok v => .ok { st with options := { st.options with brightness := Option.some v } }
  else if code = 281 then
    match parseI16 value (kindName ++ " 对比度（组码 281）") with
    | .error e => .error e
    | .ok v => .ok { st with options := { st.options with contrast := Option.some v } }
  else if code = 282 then
    match parseI16 value (kindName ++ " 渐隐（组码 282）") with
    | .error e => .error e
    | .ok v => .ok { st with options := { st.options with fade := Option.some v } }
  else if code = 340 then
    if keepHandle then .ok { st with image_def_handle := Option.some (rustTrim value) }
    else .ok st
  else if code = 71 then
    match parseI16 value (kindName ++ " 裁剪开关（组码 71）") with
    | .error e => .error e
    | .ok v => .ok { st with clip_enabled := v ≠ 0 }
  else if code = 72 then
    match parseI16 value (kindName ++ " 裁剪类型（组码 72）") with
    | .error e => .error e
    | .ok v => .ok { st with clip_boundary_type := Option.some v }
  else if code = 290 then
    match parseI16 value (kindName ++ " 裁剪方向（组码 290）") with
    | .error e => .error e
    | .ok v =>
        .ok { st with clip_mode_value := if v ≠ 0 then .inside else .outside }
  else if code = 76 then
    match parseI16 value (kindName ++ " 裁剪开关（组码 76）") with
    | .error e => .error e
    | .ok v => .ok { st with clip_enabled := v ≠ 0 }
  else if code = 90 then
    match parseI16 value (kindName ++ " 裁剪类型（组码 90）") with
    | .error e => .error e
    | .ok v => .ok { st with clip_boundary_type := Option.some v }
  else if code = 91 then
    match parseI16 value (kindName ++ " 裁剪顶点数量（组码 91）") with
    | .error e => .error e
    | .ok v => .ok { st with expected_clip_vertices := Option.some v }
  else if code = 14 then
    match parseF64 value (kindName ++ " 裁剪点 X（组码 14）") with
    | .error e => .error e
    | .ok v => .ok { st with pending_clip_x := Option.some v }
  else if code = 24 then
    match parseF64 value (kindName ++ " 裁剪点 Y（组码 24）") with
    | .error e => .error e
    | .ok y =>
        .ok { st with
          pending_clip_x := Option.none
          clip_vertices := st.clip_vertices ++ [Point2.mk (st.pending_clip_x.getD 0) y] }
  else if code = 360 then
    if (rustTrim value) = "" then .ok st
    else .ok { st with image_def_reactor_handle := Option.some (rustTrim value) }
  else .ok st

/-- `DxfParser::build_raster_clip` (the `f64::INFINITY` fold start of the
rectangle branch collapses to a fold from the first vertex, which exists
because that branch requires at least two vertices). -/
def buildRasterClip (clipEnabled : Bool) (clipBoundaryType expectedClipVertices : Option Int)
    (clipVertices : List Point2) (clipModeValue : ClipMode) : Option RasterImageClip :=
  if ¬ clipEnabled then Option.none
  else
    let polygonExpected : Nat :=
      match expectedClipVertices with
      | Option.some count => if 0 < count then count.toNat else 0
      | Option.none => 0
    let boundaryType :=
      clipBoundaryType.getD
        (if 3 ≤ polygonExpected ∨ 3 ≤ clipVertices.length then 2 else 1)
    let treatAsPolygon :=
      boundaryType = 2 ∨ 3 ≤ polygonExpected ∨ 3 ≤ clipVertices.length
    if treatAsPolygon then
      if 3 ≤ clipVertices.length then
        Option.some (.polygon clipVertices clipModeValue)
      else Option.none
    else if 2 ≤ clipVertices.length then
      match clipVertices with
      | [] => Option.none
      | v0 :: rest =>
          let lo := rest.foldl
            (fun (acc : Point2) p => ⟨Min.min acc.x p.x, Min.min acc.y p.y⟩) v0
          let hi := rest.foldl
            (fun (acc : Point2) p => ⟨Max.max acc.x p.x, Max.max acc.y p.y⟩) v0
          Option.some (.rectangle lo hi clipModeValue)
    else Option.none

/-- `DxfParser::parse_image`. -/
noncomputable def parseImage (fuel : Nat) (r : DxfReader) : PResult (Entity × DxfReader) :=
  match runRecord (imageStep "IMAGE" true) "IMAGE 未正确结束" fuel r ImageAcc.init with
  | .error e => .error e
  | .ok (st, r2) =>
      match st.image_def_handle with
      | Option.none =>
          .error (.failed (.invalid "IMAGE 缺少引用的 IMAGEDEF 句柄（组码 340）"))
      | Option.some handle =>
          .ok (.rasterImage ⟨st.layer.getD "0", handle,
            ⟨st.insert_x.getD 0, st.insert_y.getD 0⟩,
            ⟨st.u_vec_x.getD 1, st.u_vec_y.getD 0⟩,
            ⟨st.v_vec_x.getD 0, st.v_vec_y.getD 1⟩,
            ⟨st.width, st.height⟩, st.options, st.image_def_reactor_handle,
            buildRasterClip st.clip_enabled st.clip_boundary_type
              st.expected_clip_vertices st.clip_vertices st.clip_mode_value⟩, r2)

/-- `DxfParser::parse_wipeout`. -/
noncomputable def parseWipeout (fuel : Nat) (r : DxfReader) : PResult (Entity × DxfReader) :=
  match runRecord (imageStep "WIPEOUT" false) "WIPEOUT 未正确结束" fuel r ImageAcc.init with
  | .error e => .error e
  | .ok (st, r2) =>
      .ok (.wipeout ⟨st.layer.getD "0",
        ⟨st.insert_x.getD 0, st.insert_y.getD 0⟩,
        ⟨st.u_vec_x.getD 1, st.u_vec_y.getD 0⟩,
        ⟨st.v_vec_x.getD 0, st.v_vec_y.getD 1⟩,
        ⟨st.width, st.height⟩, st.options,
        buildRasterClip st.clip_enabled st.clip_boundary_type
          st.expected_clip_vertices st.clip_vertices st.clip_mode_value⟩, r2)

/-! ### zcad-io: 3DFACE sub-parser -/

/-- Field accumulator of `DxfParser::parse_3dface`: four optional vertices. -/
structure Face3dAcc where
  layer : Option String
  v1x : Option ℝ
  v1y : Option ℝ
  v1z : Option ℝ
  v2x : Option ℝ
  v2y : Option ℝ
  v2z : Option ℝ
  v3x : Option ℝ
  v3y : Option ℝ
  v3z : Option ℝ
  v4x : Option ℝ
  v4y : Option ℝ
  v4z : Option ℝ
  invisible_edges : Option Int

/-- Initial accumulator. -/
def Face3dAcc.init : Face3dAcc :=
  ⟨Option.none, Option.none, Option.none, Option.none, Option.none, Option.none,
    Option.none, Option.none, Option.none, Option.none, Option.none, Option.none,
    Option.none, Option.none⟩

/-- `zcad_io::assign_coord`: duplicate occurrence of the same slot errors. -/
noncomputable def assignCoord (slot : Option ℝ) (raw context : String) :
    PResult (Option ℝ) :=
  if slot.isSome then .error (.failed (.invalid (context ++ " 出现重复值")))
  else
    match parseF64 raw context with
    | .error e => .error e
    | .ok v => .ok (Option.some v)

/-- Per-pair body of the `parse_3dface` loop. -/
noncomputable def face3dStep (st : Face3dAcc) (code : Int) (value : String) :
    PResult Face3dAcc :=
  if code = 8 then .ok { st with layer := Option.some (rustTrim value) }
  else if code = 10 then
    match assignCoord st.v1x value "3DFACE 顶点 1 X（组码 10）" with
    | .error e => .error e
    | .ok v => .ok { st with v1x := v }
  else if code = 20 then
    match assignCoord st.v1y value "3DFACE 顶点 1 Y（组码 20）" with
    | .error e => .error e
    | .ok v => .ok { st with v1y := v }
  else if code = 30 then
    match assignCoord st.v1z value "3DFACE 顶点 1 Z（组码 30）" with
    | .error e => .error e
    | .ok v => .ok { st with v1z := v }
  else if code = 11 then
    match assignCoord st.v2x value "3DFACE 顶点 2 X（组码 11）" with
    | .error e => .error e
    | .ok v => .ok { st with v2x := v }
  else if code = 21 then
    match assignCoord st.v2y value "3DFACE 顶点 2 Y（组码 21）" with
    | .error e => .error e
    | .ok v => .ok { st with v2y := v }
  else if code = 31 then
    match assignCoord st.v2z value "3DFACE 顶点 2 Z（组码 31）" with
    | .error e => .error e
    | .ok v => .ok { st with v2z := v }
  else if code = 12 then
    match assignCoord st.v3x value "3DFACE 顶点 3 X（组码 12）" with
    | .error e => .error e
    | .ok v => .ok { st with v3x := v }
  else if code = 22 then
    match assignCoord st.v3y value "3DFACE 顶点 3 Y（组码 22）" with
    | .error e => .error e
    | .ok v => .ok { st with v3y := v }
  else if code = 32 then
    match assignCoord st.v3z value "3DFACE 顶点 3 Z（组码 32）" with
    | .error e => .error e
    | .ok v => .ok { st with v3z := v }
  else if code = 13 then
    match assignCoord st.v4x value "3DFACE 顶点 4 X（组码 13）" with
    | .error e => .error e
    | .ok v => .ok { st with v4x := v }
  else if code = 23 then
    match assignCoord st.v4y value "3DFACE 顶点 4 Y（组码 23）" with
    | .error e => .error e
    | .ok v => .ok { st with v4y := v }
  else if code = 33 then
    match assignCoord st.v4z value "3DFACE 顶点 4 Z（组码 33）" with
    | .error e => .error e
    | .ok v => .ok { st with v4z := v }
  else if code = 70 then
    if st.invisible_edges.isSome then
      .error (.failed (.invalid "3DFACE 遇到重复的隐藏边标记（组码 70）"))
    else
      match parseI16 value "3DFACE 隐藏边标记（组码 70）" with
      | .error e => .error e
      | .ok v => .ok { st with invisible_edges := Option.some v }
  else .ok st

/-- `zcad_io::build_face_vertex`. -/
def buildFaceVertex (x y z : Option ℝ) : PResult (Option Point3) :=
  match x, y, z with
  | Option.none, Option.none, Option.none => .ok Option.none
  | Option.some xv, Option.some yv, zv => .ok (Option.some ⟨xv, yv, zv.getD 0⟩)
  | _, _, _ => .error (.failed (.invalid "3DFACE 顶点缺少完整的 XY 坐标"))

/-- Required-vertex extraction of `parse_3dface` (a missing fourth vertex
repeats the third). -/
def finishFace3d (st : Face3dAcc) : PResult Entity :=
  let layer := st.layer.getD "0"
  match buildFaceVertex st.v1x st.v1y st.v1z with
  | .error e => .error e
  | .ok Option.none => .error (.failed (.invalid "3DFACE 缺少第 1 个顶点"))
  | .ok (Option.some v1) =>
      match buildFaceVertex st.v2x st.v2y st.v2z with
      | .error e => .error e
      | .ok Option.none => .error (.failed (.invalid "3DFACE 缺少第 2 个顶点"))
      | .ok (Option.some v2) =>
          match buildFaceVertex st.v3x st.v3y st.v3z with
          | .error e => .error e
          | .ok Option.none => .error (.failed (.invalid "3DFACE 缺少第 3 个顶点"))
          | .ok (Option.some v3) =>
              match buildFaceVertex st.v4x st.v4y st.v4z with
              | .error e => .error e
              | .ok v4opt =>
                  let v4 := v4opt.getD v3
                  let flags := st.invisible_edges.getD 0
                  .ok (.face3d ⟨layer, [v1, v2, v3, v4],
                    [i16TestBit flags 0, i16TestBit flags 1, i16TestBit flags 2,
                      i16TestBit flags 3]⟩)

/-- `DxfParser::parse_3dface`. -/
noncomputable def parseFace3d (fuel : Nat) (r : DxfReader) : PResult (Entity × DxfReader) :=
  match runRecord face3dStep "3DFACE 未正确结束" fuel r Face3dAcc.init with
  | .error e => .error e
  | .ok (st, r2) =>
      match finishFace3d st with
      | .error e => .error e
      | .ok ent => .ok (ent, r2)

/-! ### zcad-io: OBJECTS sub-parsers -/

/-- `zcad_io::DictionaryEntry`. -/
structure DictionaryEntry where
  name : String
  handle : String

/-- `zcad_io::ParsedDictionary`. -/
structure ParsedDictionary where
  handle : String
  owner : Option String
  entries : List DictionaryEntry

/-- Field accumulator of `parse_image_def`. -/
structure ImageDefAcc where
  handle : Option String
  file_path : Option String
  name : Option String
  size_x : Option ℝ
  size_y : Option ℝ
  pixel_width : Option ℝ
  pixel_height : Option ℝ

/-- Initial accumulator. -/
def ImageDefAcc.init : ImageDefAcc :=
  ⟨Option.none, Option.none, Option.none, Option.none, Option.none, Option.none,
    Option.none⟩

/-- Per-pair body of the `parse_image_def` loop. -/
noncomputable def imageDefStep (st : ImageDefAcc) (code : Int) (value : String) :
    PResult ImageDefAcc :=
  if code = 5 then .ok { st with handle := Option.some (rustTrim value) }
  else if code = 1 then .ok { st with file_path := Option.some (rustTrim value) }
  else if code = 2 then
    if (rustTrim value) = "" then .ok st
    else .ok { st with name := Option.some (rustTrim value) }
  else if code = 10 then
    match parseF64 value "IMAGEDEF 像素宽度（组码 10）" with
    | .error e => .error e
    | .ok v => .ok { st with size_x := Option.some v }
  else if code = 20 then
    match parseF64 value "IMAGEDEF 像素高度（组码 20）" with
    | .error e => .error e
    | .ok v => .ok { st with size_y := Option.some v }
  else if code = 11 then
    match parseF64 value "IMAGEDEF 单像素宽度（组码 11）" with
    | .error e => .error e
    | .ok v => .ok { st with pixel_width := Option.some v }
  else if code = 21 then
    match parseF64 value "IMAGEDEF 单像素高度（组码 21）" with
    | .error e => .error e
    | .ok v => .ok { st with pixel_height := Option.some v }
  else .ok st

/-- `DxfParser::parse_image_def`. -/
noncomputable def parseImageDef (fuel : Nat) (r : DxfReader) :
    PResult (RasterImageDefinition × DxfReader) :=
  match runRecord imageDefStep "IMAGEDEF 未正确结束" fuel r ImageDefAcc.init with
  | .error e => .error e
  | .ok (st, r2) =>
      match st.handle with
      | Option.none => .error (.failed (.invalid "IMAGEDEF 缺少句柄（组码 5）"))
      | Option.some handle =>
          match st.file_path with
          | Option.none => .error (.failed (.invalid "IMAGEDEF 缺少文件路径（组码 1）"))
          | Option.some filePath =>
              .ok (⟨handle, st.name, filePath,
                (optPoint st.size_x st.size_y).map (fun p => ⟨p.x, p.y⟩),
                (optPoint st.pixel_width st.pixel_height).map (fun p => ⟨p.x, p.y⟩),
                Option.none⟩, r2)

/-- Field accumulator of `parse_dictionary`. -/
structure DictionaryAcc where
  handle : Option String
  owner : Option String
  entries : List DictionaryEntry
  pending_entry_name : Option String
  in_reactors : Bool

/-- Initial accumulator. -/
def DictionaryAcc.init : DictionaryAcc :=
  ⟨Option.none, Option.none, [], Option.none, false⟩

/-- Per-pair body of the `parse_dictionary` loop. -/
def dictionaryStep (st : DictionaryAcc) (code : Int) (value : String) :
    PResult DictionaryAcc :=
  if code = 5 then .ok { st with handle := Option.some (rustTrim value) }
  else if code = 3 then
    if (rustTrim value) = "" then .ok st
    else .ok { st with pending_entry_name := Option.some (rustTrim value) }
  else if code = 330 then
    if st.in_reactors then .ok st
    else if st.pending_entry_name.isNone then
      .ok { st with owner := Option.some (rustTrim value) }
    else .ok st
  else if code = 350 ∨ code = 360 then
    match st.pending_entry_name with
    | Option.some entryName =>
        if (rustTrim value) = "" then .ok { st with pending_entry_name := Option.none }
        else
          .ok { st with
            pending_entry_name := Option.none
            entries := st.entries ++ [⟨entryName, (rustTrim value)⟩] }
    | Option.none => .ok st
  else if code = 102 then
    if (rustTrim value).startsWith "\x7b" then .ok { st with in_reactors := true }
    else if (rustTrim value) = "\x7d" then .ok { st with in_reactors := false }
    else .ok st
  else .ok st

/-- `DxfParser::parse_dictionary`. -/
def parseDictionary (fuel : Nat) (r : DxfReader) :
    PResult (ParsedDictionary × DxfReader) :=
  match runRecord dictionaryStep "DICTIONARY 未正确结束" fuel r DictionaryAcc.init with
  | .error e => .error e
  | .ok (st, r2) =>
      match st.handle with
      | Option.none => .error (.failed (.invalid "DICTIONARY 缺少句柄（组码 5）"))
      | Option.some handle => .ok (⟨handle, st.owner, st.entries⟩, r2)

/-- Field accumulator of `parse_raster_variables`. -/
structure RasterVarsAcc where
  handle : Option String
  class_version : Option Int
  frame : Option Int
  quality : Option Int
  units : Option Int
  in_reactors : Bool

/-- Initial accumulator. -/
def RasterVarsAcc.init : RasterVarsAcc :=
  ⟨Option.none, Option.none, Option.none, Option.none, Option.none, false⟩

/-- Per-pair body of the `parse_raster_variables` loop. -/
def rasterVarsStep (st : RasterVarsAcc) (code : Int) (value : String) :
    PResult RasterVarsAcc :=
  if code = 5 then .ok { st with handle := Option.some (rustTrim value) }
  else if code = 90 then
    match parseI32 value "RASTERVARIABLES 类版本（组码 90）" with
    | .error e => .error e
    | .ok v => .ok { st with class_version := Option.some v }
  else if code = 70 then
    match parseI16 value "RASTERVARIABLES 图像边框（组码 70）" with
    | .error e => .error e
    | .ok v => .ok { st with frame := Option.some v }
  else if code = 71 then
    match parseI16 value "RASTERVARIABLES 图像质量（组码 71）" with
    | .error e => .error e
    | .ok v => .ok { st with quality := Option.some v }
  else if code = 72 then
    match parseI16 value "RASTERVARIABLES 单位（组码 72）" with
    | .error e => .error e
    | .ok v => .ok { st with units := Option.some v }
  else if code = 102 then
    if (rustTrim value).startsWith "\x7b" then .ok { st with in_reactors := true }
    else if (rustTrim value) = "\x7d" then .ok { st with in_reactors := false }
    else .ok st
  else .ok st

/-- `DxfParser::parse_raster_variables`. -/
def parseRasterVariables (fuel : Nat) (r : DxfReader) :
    PResult ((String × RasterImageVariables) × DxfReader) :=
  match runRecord rasterVarsStep "RASTERVARIABLES 未正确结束" fuel r RasterVarsAcc.init with
  | .error e => .error e
  | .ok (st, r2) =>
      match st.handle with
      | Option.none => .error (.failed (.invalid "RASTERVARIABLES 缺少句柄（组码 5）"))
      | Option.some handle =>
          .ok ((handle, ⟨Option.some handle, st.class_version, st.frame, st.quality,
            st.units⟩), r2)

/-- Field accumulator of `parse_image_def_reactor`. -/
structure ReactorAcc where
  handle : Option String
  owner_handle : Option String
  image_handle : Option String
  class_version : Int
  in_reactors : Bool
  in_reactor_subclass : Bool

/-- Initial accumulator. -/
def ReactorAcc.init : ReactorAcc :=
  ⟨Option.none, Option.none, Option.none, 0, false, false⟩

/-- Per-pair body of the `parse_image_def_reactor` loop. -/
def reactorStep (st : ReactorAcc) (code : Int) (value : String) : PResult ReactorAcc :=
  if code = 5 then .ok { st with handle := Option.some (rustTrim value) }
  else if code = 90 then
    match parseI32 value "IMAGEDEF_REACTOR 类版本（组码 90）" with
    | .error e => .error e
    | .ok v => .ok { st with class_version := v }
  else if code = 100 then
    .ok { st with in_reactor_subclass := (rustTrim value) = "AcDbRasterImageDefReactor" }
  else if code = 330 then
    if st.in_reactors then .ok st
    else if (rustTrim value) = "" then .ok st
    else if st.in_reactor_subclass then
      .ok { st with image_handle := Option.some (rustTrim value) }
    else if st.owner_handle.isNone then
      .ok { st with owner_handle := Option.some (rustTrim value) }
    else .ok st
  else if code = 102 then
    if (rustTrim value).startsWith "\x7b" then .ok { st with in_reactors := true }
    else if (rustTrim value) = "\x7d" then .ok { st with in_reactors := false }
    else .ok st
  else .ok st

/-- `DxfParser::parse_image_def_reactor`. -/
def parseImageDefReactor (fuel : Nat) (r : DxfReader) :
    PResult (ImageDefReactor × DxfReader) :=
  match runRecord reactorStep "IMAGEDEF_REACTOR 未正确结束" fuel r ReactorAcc.init with
  | .error e => .error e
  | .ok (st, r2) =>
      match st.handle with
      | Option.none => .error (.failed (.invalid "IMAGEDEF_REACTOR 缺少句柄（组码 5）"))
      | Option.some handle =>
          .ok (⟨handle, st.class_version, st.owner_handle, st.image_handle⟩, r2)

/-- Insert-if-absent (`HashMap::entry(..).or_insert_with(..)`). -/
def mapInsertIfAbsent {α : Type} (key : String) (value : α) (m : List (String × α)) :
    List (String × α) :=
  match mapGet m key with
  | Option.some _ => m
  | Option.none => (key, value) :: m

/-- Accumulated state of the OBJECTS section loop. -/
structure ObjectsAcc where
  dictionaries : List (String × ParsedDictionary)
  root_entries : List (String × String)
  raster_variables_by_handle : List (String × RasterImageVariables)
  reactor_by_owner : List (String × String)

/-- Initial state. -/
def ObjectsAcc.init : ObjectsAcc := ⟨[], [], [], []⟩

/-- The record loop of `parse_objects`. -/
noncomputable def parseObjectsLoop :
    Nat → DxfReader → Document → ObjectsAcc → PResult ((Document × ObjectsAcc) × DxfReader)
  | 0, _, _, _ => .error (.failed (.invalid "内部 fuel 耗尽"))
  | fuel + 1, r, doc, acc =>
      match r.nextPair with
      | .error e => .error e
      | .ok (Option.none, _) => .error (.failed (.invalid "OBJECTS 段提前结束"))
      | .ok (Option.some (code, value), r2) =>
          if code ≠ 0 then
            .error (.failed (.invalid
              ("OBJECTS 段遇到组码 " ++ toString code ++ "（期望 0 表示对象起始）")))
          else if value = "ENDSEC" then .ok ((doc, acc), r2)
          else if value = "IMAGEDEF" then
            match parseImageDef fuel r2 with
            | .error e => .error e
            | .ok (definition, r3) =>
                parseObjectsLoop fuel r3 (doc.addRasterImageDefinition definition) acc
          else if value = "IMAGEDEF_REACTOR" then
            match parseImageDefReactor fuel r2 with
            | .error e => .error e
            | .ok (reactor, r3) =>
                let acc2 :=
                  match reactor.owner_handle with
                  | Option.some owner =>
                      { acc with
                        reactor_by_owner := mapInsert owner reactor.handle acc.reactor_by_owner }
                  | Option.none => acc
                parseObjectsLoop fuel r3 (doc.addImageDefReactor reactor) acc2
          else if value = "RASTERVARIABLES" then
            match parseRasterVariables fuel r2 with
            | .error e => .error e
            | .ok ((handle, vars), r3) =>
                parseObjectsLoop fuel r3 doc
                  { acc with
                    raster_variables_by_handle :=
                      mapInsert handle vars acc.raster_variables_by_handle }
          else if value = "DICTIONARY" then
            match parseDictionary fuel r2 with
            | .error e => .error e
            | .ok (dict, r3) =>
                let newRoot := dict.entries.foldl
                  (fun m entry => mapInsertIfAbsent entry.name entry.handle m)
                  acc.root_entries
                let acc2 :=
                  if dict.owner = Option.some "0" then { acc with root_entries := newRoot }
                  else acc
                parseObjectsLoop fuel r3 doc
                  { acc2 with dictionaries := mapInsert dict.handle dict acc2.dictionaries }
          else
            match skipEntityBody fuel r2 with
            | .error e => .error e
            | .ok r3 => parseObjectsLoop fuel r3 doc acc

/-- The post-loop resolution of `parse_objects`: attach the name-sorted image
dictionary and the raster variables referenced from the root dictionary. -/
noncomputable def resolveObjects (doc : Document) (acc : ObjectsAcc) : Document :=
  let doc :=
    match mapGet acc.root_entries "ACAD_IMAGE_DICT" with
    | Option.some dictHandle =>
        match mapGet acc.dictionaries dictHandle with
        | Option.some dict =>
            let entries := dict.entries.map (fun entry =>
              ImageDictionaryEntry.mk entry.name entry.handle
                (mapGet acc.reactor_by_owner entry.handle))
            let sorted := entries.mergeSort (fun a b => a.name ≤ b.name)
            doc.setImageDictionary ⟨Option.some dict.handle, sorted⟩
        | Option.none => doc
    | Option.none => doc
  match mapGet acc.root_entries "ACAD_IMAGE_VARS" with
  | Option.some varsHandle =>
      match mapGet acc.raster_variables_by_handle varsHandle with
      | Option.some vars => doc.setRasterImageVariables vars
      | Option.none => doc
  | Option.none => doc

/-- `DxfParser::parse_objects`. -/
noncomputable def parseObjects (fuel : Nat) (r : DxfReader) (doc : Document) :
    PResult (Document × DxfReader) :=
  match parseObjectsLoop fuel r doc ObjectsAcc.init with
  | .error e => .error e
  | .ok ((doc2, acc), r2) => .ok (resolveObjects doc2 acc, r2)

/-! ### zcad-io: entity dispatch, section loops, top-level parse, facade -/

/-- `DxfParser::parse_entity`: dispatch on the record tag. -/
noncomputable def parseEntity (kind : String) (fuel : Nat) (r : DxfReader) :
    PResult (Entity × DxfReader) :=
  if kind = "LINE" then parseLine fuel r
  else if kind = "CIRCLE" then parseCircle fuel r
  else if kind = "ARC" then parseArc fuel r
  else if kind = "ELLIPSE" then parseEllipse fuel r
  else if kind = "LWPOLYLINE" then parseLwpolyline fuel r
  else if kind = "TEXT" then parseText fuel r
  else if kind = "MTEXT" then parseMText fuel r
  else if kind = "INSERT" then parseInsert fuel r
  else if kind = "HATCH" then parseHatch fuel r
  else if kind = "DIMENSION" then parseDimension fuel r
  else if kind = "SPLINE" then parseSpline fuel r
  else if kind = "LEADER" then parseLeader fuel r
  else if kind = "MULTILEADER" then parseMLeader fuel r
  else if kind = "IMAGE" then parseImage fuel r
  else if kind = "WIPEOUT" then parseWipeout fuel r
  else if kind = "3DFACE" then parseFace3d fuel r
  else .error (.failed (.unsupported ("暂不支持的实体类型 " ++ kind)))

/-- `DxfParser::parse_entities`: the ENTITIES record loop. -/
noncomputable def parseEntitiesLoop :
    Nat → DxfReader → Document → PResult (Document × DxfReader)
  | 0, _, _ => .error (.failed (.invalid "内部 fuel 耗尽"))
  | fuel + 1, r, doc =>
      match r.nextPair with
      | .error e => .error e
      | .ok (Option.none, _) => .error (.failed (.invalid "ENTITIES 段提前结束"))
      | .ok (Option.some (code, value), r2) =>
          if code ≠ 0 then
            .error (.failed (.invalid
              ("ENTITIES 段遇到组码 " ++ toString code ++ "（期望 0 表示实体起始）")))
          else if value = "ENDSEC" then .ok (doc, r2)
          else if value = "SEQEND" then
            match skipEntityBody fuel r2 with
            | .error e => .error e
            | .ok r3 => parseEntitiesLoop fuel r3 doc
          else if value = "POLYLINE" then
            match parsePolylineEntity fuel r2 doc with
            | .error e => .error e
            | .ok (doc2, r3) => parseEntitiesLoop fuel r3 doc2
          else
            match parseEntity value fuel r2 with
            | .error e => .error e
            | .ok (parsed, r3) => parseEntitiesLoop fuel r3 (doc.addEntity parsed).2

/-- Field accumulator of `parse_block_definition`. -/
structure BlockDefAcc where
  name : Option String
  base_x : ℝ
  base_y : ℝ
  collect_entities : Bool
  entities : List Entity
  attribute_defs : List AttributeDefinition
  block_handle : Option String
  record_handle : Option String

/-- Initial accumulator (`collect_entities` starts true). -/
def BlockDefAcc.init : BlockDefAcc :=
  ⟨Option.none, 0, 0, true, [], [], Option.none, Option.none⟩

/-- The record loop of `parse_block_definition`.  When a nested entity parser
reports an unsupported feature the source falls back to `skip_entity_body`
from the position the failing parser reached; scanning ends at the next
group-0 pair either way, so skipping from the record start is observably
identical. -/
noncomputable def parseBlockDefinitionLoop :
    Nat → DxfReader → BlockDefAcc → PResult (BlockDefAcc × DxfReader)
  | 0, _, _ => .error (.failed (.invalid "内部 fuel 耗尽"))
  | fuel + 1, r, st =>
      match r.nextPair with
      | .error e => .error e
      | .ok (Option.none, _) =>
          .error (.failed (.invalid "BLOCK 定义未找到 ENDBLK 终止标记"))
      | .ok (Option.some (code, value), r2) =>
          if code = 0 then
            if value = "ENDBLK" then
              match skipEntityBody fuel r2 with
              | .error e => .error e
              | .ok r3 => .ok (st, r3)
            else if st.collect_entities then
              if value = "ATTDEF" then
                match parseAttdef fuel r2 with
                | .error e => .error e
                | .ok (attrDef, r3) =>
                    parseBlockDefinitionLoop fuel r3
                      { st with attribute_defs := st.attribute_defs ++ [attrDef] }
              else
                match parseEntity value fuel r2 with
                | .ok (ent, r3) =>
                    parseBlockDefinitionLoop fuel r3
                      { st with entities := st.entities ++ [ent] }
                | .error (.failed (.unsupported _)) =>
                    match skipEntityBody fuel r2 with
                    | .error e => .error e
                    | .ok r3 => parseBlockDefinitionLoop fuel r3 st
                | .error e => .error e
            else
              match skipEntityBody fuel r2 with
              | .error e => .error e
              | .ok r3 => parseBlockDefinitionLoop fuel r3 st
          else if code = 2 then
            let trimmed := (rustTrim value)
            parseBlockDefinitionLoop fuel r2
              { st with
                collect_entities := ¬ trimmed.startsWith "*"
                name := Option.some trimmed }
          else if code = 10 then
            match parseF64 value "BLOCK 基点 X" with
            | .error e => .error e
            | .ok v => parseBlockDefinitionLoop fuel r2 { st with base_x := v }
          else if code = 20 then
            match parseF64 value "BLOCK 基点 Y" with
            | .error e => .error e
            | .ok v => parseBlockDefinitionLoop fuel r2 { st with base_y := v }
          else if code = 330 then
            if (rustTrim value) ≠ "" ∧ st.record_handle.isNone then
              parseBlockDefinitionLoop fuel r2
                { st with record_handle := Option.some (rustTrim value) }
            else parseBlockDefinitionLoop fuel r2 st
          else if code = 5 then
            if (rustTrim value) ≠ "" then
              parseBlockDefinitionLoop fuel r2
                { st with block_handle := Option.some (rustTrim value) }
            else parseBlockDefinitionLoop fuel r2 st
          else parseBlockDefinitionLoop fuel r2 st

/-- `DxfParser::parse_block_definition`: `none` for anonymous (`*`-prefixed)
blocks, which are parsed but not registered. -/
noncomputable def parseBlockDefinition (fuel : Nat) (r : DxfReader) :
    PResult (Option (BlockDefinition × Option String × Option String) × DxfReader) :=
  match parseBlockDefinitionLoop fuel r BlockDefAcc.init with
  | .error e => .error e
  | .ok (st, r2) =>
      match st.name with
      | Option.none => .error (.failed (.invalid "BLOCK 缺少名称（组码 2）"))
      | Option.some blockName =>
          if ¬ st.collect_entities then .ok (Option.none, r2)
          else
            .ok (Option.some (⟨blockName, ⟨st.base_x, st.base_y⟩, st.entities,
              st.attribute_defs⟩, st.block_handle, st.record_handle), r2)

/-- `DxfParser::parse_blocks`: the BLOCKS record loop. -/
noncomputable def parseBlocksLoop :
    Nat → DxfReader → Document → PResult (Document × DxfReader)
  | 0, _, _ => .error (.failed (.invalid "内部 fuel 耗尽"))
  | fuel + 1, r, doc =>
      match r.nextPair with
      | .error e => .error e
      | .ok (Option.none, _) => .error (.failed (.invalid "BLOCKS 段提前结束"))
      | .ok (Option.some (code, value), r2) =>
          if code ≠ 0 then
            .error (.failed (.invalid
              ("BLOCKS 段遇到组码 " ++ toString code ++ "（期望 0 表示实体起始）")))
          else if value = "ENDSEC" then .ok (doc, r2)
          else if value = "BLOCK" then
            match parseBlockDefinition fuel r2 with
            | .error e => .error e
            | .ok (Option.some (definition, blockHandle, recordHandle), r3) =>
                parseBlocksLoop fuel r3
                  (doc.addBlockDefinitionWithHandle definition blockHandle recordHandle)
            | .ok (Option.none, r3) => parseBlocksLoop fuel r3 doc
          else
            match skipEntityBody fuel r2 with
            | .error e => .error e
            | .ok r3 => parseBlocksLoop fuel r3 doc

/-- `DxfParser::skip_section`: scan to the matching ENDSEC; running out of
input is a hard error. -/
def skipSection : Nat → DxfReader → PResult DxfReader
  | 0, _ => .error (.failed (.invalid "内部 fuel 耗尽"))
  | fuel + 1, r =>
      match r.nextPair with
      | .error e => .error e
      | .ok (Option.none, _) => .error (.failed (.invalid "SECTION 未找到 ENDSEC 终止标记"))
      | .ok (Option.some (code, value), r2) =>
          if code = 0 ∧ value = "ENDSEC" then .ok r2
          else skipSection fuel r2

/-- `DxfParser::parse`: the SECTION/EOF driver loop. -/
noncomputable def parseLoop : Nat → DxfReader → Document → PResult Document
  | 0, _, _ => .error (.failed (.invalid "内部 fuel 耗尽"))
  | fuel + 1, r, doc =>
      match r.nextPair with
      | .error e => .error e
      | .ok (Option.none, _) => .ok doc
      | .ok (Option.some (code, value), r2) =>
          if code ≠ 0 then
            .error (.failed (.invalid
              ("意外的组码 " ++ toString code ++ "（期望 0 表示 SECTION/EOF）")))
          else if value = "SECTION" then
            match r2.nextPair with
            | .error e => .error e
            | .ok (Option.none, _) =>
                .error (.failed (.invalid "SECTION 缺少名称（组码 2）"))
            | .ok (Option.some (nameCode, name), r3) =>
                if nameCode ≠ 2 then
                  .error (.failed (.invalid
                    ("SECTION 名称使用了组码 " ++ toString nameCode ++ "（期望 2）")))
                else if name = "ENTITIES" then
                  match parseEntitiesLoop fuel r3 doc with
                  | .error e => .error e
                  | .ok (doc2, r4) => parseLoop fuel r4 doc2
                else if name = "BLOCKS" then
                  match parseBlocksLoop fuel r3 doc with
                  | .error e => .error e
                  | .ok (doc2, r4) => parseLoop fuel r4 doc2
                else if name = "OBJECTS" then
                  match parseObjects fuel r3 doc with
                  | .error e => .error e
                  | .ok (doc2, r4) => parseLoop fuel r4 doc2
                else
                  match skipSection fuel r3 with
                  | .error e => .error e
                  | .ok r4 => parseLoop fuel r4 doc
          else if value = "EOF" then .ok doc
          else
            .error (.failed (.invalid ("意外的标记 " ++ value ++ "，期望 SECTION 或 EOF")))

/-- `DxfParser::parse` on a line stream (as produced by `str::lines`). -/
noncomputable def parse (fuel : Nat) (inputLines : List String) : PResult Document :=
  parseLoop fuel (DxfReader.new inputLines) Document.new

/-- A `DxfFacade::load` outcome: a Rust panic aborts the process; a returned
`DxfError` is mapped into `IoError`. -/
inductive LoadFailure where
  | panicked (message : String)
  | ioError (e : IoError)

/-- `DxfFacade::load` minus the file-system read: parse and map errors. -/
noncomputable def facadeLoad (fuel : Nat) (inputLines : List String) :
    Except LoadFailure Document :=
  match parse fuel inputLines with
  | .ok doc => .ok doc
  | .error (.panicked m) => .error (.panicked m)
  | .error (.failed e) => .error (.ioError (toIoError e))

/-! ### Specification-side definitions used to state the claims -/

/-- Finite-point membership in a bounding box. -/
def Bounds2D.containsPt (b : Bounds2D) (p : Point2) : Prop :=
  b.min.x ≤ (p.x : EReal) ∧ (p.x : EReal) ≤ b.max.x ∧
    b.min.y ≤ (p.y : EReal) ∧ (p.y : EReal) ≤ b.max.y

/-- Fold a point list into a bounding box (used to restate the imperative
include chains as list folds). -/
noncomputable def foldIncludes (b : Bounds2D) (ps : List Point2) : Bounds2D :=
  ps.foldl Bounds2D.includePoint b

/-- The candidate angles `arc_bounds` evaluates: both canonical interval
endpoints plus every quadrant lift that falls inside the interval (the spec
wording of the arc bounds algorithm). -/
noncomputable def arcCandidateAngles (s e : ℝ) : List ℝ :=
  [s, e] ++ quadrantAngles.filterMap
    (fun base => if liftAbove s base ≤ e then Option.some (liftAbove s base) else Option.none)

/-- The x-coordinates achieved on the (counter-clockwise, canonicalized) arc:
`center.x + |radius|·cos t` over the canonical parameter interval. -/
noncomputable def arcXSet (arc : Arc) : Set ℝ :=
  {v | ∃ t ∈ Set.Icc (canonicalInterval arc.start_angle arc.end_angle).1
      (canonicalInterval arc.start_angle arc.end_angle).2,
    v = arc.center.x + |arc.radius| * Real.cos t}

/-- The y-coordinates achieved on the canonicalized arc. -/
noncomputable def arcYSet (arc : Arc) : Set ℝ :=
  {v | ∃ t ∈ Set.Icc (canonicalInterval arc.start_angle arc.end_angle).1
      (canonicalInterval arc.start_angle arc.end_angle).2,
    v = arc.center.y + |arc.radius| * Real.sin t}

/-- Modelled from the spec: "canonicalize the angular interval honoring a
counter-clockwise flag" — the parameter interval a hatch arc edge covers; a
clockwise edge from `sa` to `ea` traverses the same circle points as the
counter-clockwise arc from `ea` to `sa`. -/
noncomputable def hatchArcEdgeInterval (sa ea : ℝ) (ccw : Bool) : ℝ × ℝ :=
  if ccw then canonicalInterval sa ea else canonicalInterval ea sa

/-! ## Theorems

Shared lemmas about the document operations, then one theorem per claim of
the specification, with witnesses and counterexamples where applicable. -/

set_option maxHeartbeats 1000000

theorem ensureLayer_entities (doc : Document) (n : String) :
    (doc.ensureLayer n).entities = doc.entities := by
  unfold Document.ensureLayer; cases mapGet doc.layers n <;> rfl

theorem ensureLayer_blocks (doc : Document) (n : String) :
    (doc.ensureLayer n).blocks = doc.blocks := by
  unfold Document.ensureLayer; cases mapGet doc.layers n <;> rfl

theorem ensureLayer_block_handles (doc : Document) (n : String) :
    (doc.ensureLayer n).block_handles = doc.block_handles := by
  unfold Document.ensureLayer; cases mapGet doc.layers n <;> rfl

theorem ensureLayer_next_entity_id (doc : Document) (n : String) :
    (doc.ensureLayer n).next_entity_id = doc.next_entity_id := by
  unfold Document.ensureLayer; cases mapGet doc.layers n <;> rfl

theorem foldl_ensureLayer_preserve {α β : Type} (P : Document → β)
    (hP : ∀ doc n, P (doc.ensureLayer n) = P doc) (g : α → String) :
    ∀ (l : List α) (doc : Document),
      P (List.foldl (fun d a => d.ensureLayer (g a)) doc l) = P doc := by
  intro l
  induction l with
  | nil => intro doc; rfl
  | cons a t ih => intro doc; rw [List.foldl_cons, ih, hP]

theorem foldl_ensureLayer_entities {α : Type} (g : α → String) (l : List α)
    (doc : Document) :
    (List.foldl (fun d a => d.ensureLayer (g a)) doc l).entities = doc.entities :=
  foldl_ensureLayer_preserve Document.entities ensureLayer_entities g l doc

theorem foldl_ensureLayer_blocks {α : Type} (g : α → String) (l : List α)
    (doc : Document) :
    (List.foldl (fun d a => d.ensureLayer (g a)) doc l).blocks = doc.blocks :=
  foldl_ensureLayer_preserve Document.blocks ensureLayer_blocks g l doc

theorem foldl_ensureLayer_block_handles {α : Type} (g : α → String) (l : List α)
    (doc : Document) :
    (List.foldl (fun d a => d.ensureLayer (g a)) doc l).block_handles =
      doc.block_handles :=
  foldl_ensureLayer_preserve Document.block_handles ensureLayer_block_handles g l doc

theorem foldl_ensureLayer_next_entity_id {α : Type} (g : α → String) (l : List α)
    (doc : Document) :
    (List.foldl (fun d a => d.ensureLayer (g a)) doc l).next_entity_id =
      doc.next_entity_id :=
  foldl_ensureLayer_preserve Document.next_entity_id ensureLayer_next_entity_id g l doc

theorem updateMLeaderBlockNames_block_handles (doc : Document) :
    doc.updateMLeaderBlockNames.block_handles = doc.block_handles := rfl

theorem updateMLeaderBlockNames_next_entity_id (doc : Document) :
    doc.updateMLeaderBlockNames.next_entity_id = doc.next_entity_id := rfl

theorem find_filter_of_imp {α : Type} (p q : α → Bool) (l : List α)
    (himp : ∀ x, p x = true → q x = true) :
    (l.filter q).find? p = l.find? p := by
  induction l with
  | nil => rfl
  | cons a t ih =>
      by_cases hq : q a = true
      · rw [List.filter_cons_of_pos hq]
        by_cases hp : p a = true
        · rw [List.find?_cons_of_pos _ hp, List.find?_cons_of_pos _ hp]
        · rw [List.find?_cons_of_neg _ (by simpa using hp),
            List.find?_cons_of_neg _ (by simpa using hp), ih]
      · rw [List.filter_cons_of_neg (by simpa using hq)]
        have hp : ¬ p a = true := fun hpa => hq (himp a hpa)
        rw [ih, List.find?_cons_of_neg _ (by simpa using hp)]

theorem mapGet_mapInsert_self {α : Type} (k : String) (v : α) (m : List (String × α)) :
    mapGet (mapInsert k v m) k = Option.some v := by
  unfold mapGet mapInsert
  rw [List.find?_cons_of_pos _ (by simp)]
  rfl

theorem mapGet_mapInsert_other {α : Type} (k k2 : String) (v : α) (m : List (String × α))
    (hne : k2 ≠ k) : mapGet (mapInsert k2 v m) k = mapGet m k := by
  unfold mapGet mapInsert
  rw [List.find?_cons_of_neg _ (by simpa using hne)]
  rw [find_filter_of_imp]
  intro x hx
  simp only [decide_eq_true_eq] at hx ⊢
  rw [hx]
  exact Ne.symm hne

theorem resolve_hit (handles : List (String × String)) (blk : MLeaderBlockContent)
    (h nm : String) (hn : blk.block_name = Option.none)
    (hh : blk.block_handle = Option.some h) (hget : mapGet handles h = Option.some nm) :
    Document.resolveBlockContentNameFromHandles handles blk =
      { blk with block_name := Option.some nm } := by
  obtain ⟨bh, bn, loc, sc, rot, ct⟩ := blk
  simp only at hn hh
  subst hn hh
  simp [Document.resolveBlockContentNameFromHandles, hget]

theorem resolve_miss (handles : List (String × String)) (blk : MLeaderBlockContent)
    (h : String) (hn : blk.block_name = Option.none)
    (hh : blk.block_handle = Option.some h) (hget : mapGet handles h = Option.none) :
    Document.resolveBlockContentNameFromHandles handles blk = blk := by
  obtain ⟨bh, bn, loc, sc, rot, ct⟩ := blk
  simp only at hn hh
  subst hn hh
  simp [Document.resolveBlockContentNameFromHandles, hget]

theorem updateMLeaderBlockNames_mem (doc : Document) (id : Nat) (m : MLeader)
    (blk blk2 : MLeaderBlockContent) (hmem : (id, Entity.mleader m) ∈ doc.entities)
    (hc : m.content = MLeaderContent.block blk)
    (hres : Document.resolveBlockContentNameFromHandles doc.block_handles blk = blk2) :
    (id, Entity.mleader { m with content := MLeaderContent.block blk2 }) ∈
      doc.updateMLeaderBlockNames.entities := by
  unfold Document.updateMLeaderBlockNames
  refine List.mem_map.mpr ⟨(id, Entity.mleader m), hmem, ?_⟩
  simp only [hc, hres]

/-- The handle table after registering a definition under handle `h` maps `h`
to the definition's name, whatever the optional record handle was. -/
theorem register_handle_lookup (doc : Document) (defn : BlockDefinition)
    (h : String) (brh : Option String) :
    mapGet (doc.addBlockDefinitionWithHandle defn (Option.some h) brh).block_handles h =
      Option.some defn.name := by
  cases brh with
  | none =>
      simp [Document.addBlockDefinitionWithHandle, updateMLeaderBlockNames_block_handles,
        foldl_ensureLayer_block_handles, mapGet_mapInsert_self]
  | some rh =>
      by_cases hc : rh = h
      · subst hc
        simp [Document.addBlockDefinitionWithHandle, updateMLeaderBlockNames_block_handles,
          foldl_ensureLayer_block_handles, mapGet_mapInsert_self]
      · simp [Document.addBlockDefinitionWithHandle, updateMLeaderBlockNames_block_handles,
          foldl_ensureLayer_block_handles,
          mapGet_mapInsert_other h rh _ _ hc, mapGet_mapInsert_self]

/-- A registration never rewrites a stored BlockReference entry. -/
theorem register_preserves_blockReference_last (d : Document) (defn2 : BlockDefinition)
    (bh brh : Option String) (id : Nat) (b : BlockReference)
    (hlast : d.entities.getLast? = Option.some (id, Entity.blockReference b)) :
    (d.addBlockDefinitionWithHandle defn2 bh brh).entities.getLast? =
      Option.some (id, Entity.blockReference b) := by
  cases bh <;> cases brh <;>
    simp [Document.addBlockDefinitionWithHandle, Document.updateMLeaderBlockNames,
      foldl_ensureLayer_entities, List.getLast?_map, hlast]

/-- C1: a MULTILEADER whose block content references a handle resolves to the
block's name no matter whether the MLEADER is stored before or after the
BLOCK/BLOCK_RECORD registration (both insertion orders end in the identically
resolved entity), and registering a block definition under a handle backfills
every already-stored MLeader block-content entry that lacks a resolved name
but carries that handle. -/
theorem C1_mleader_block_name_backfill (h layer : String) (lines : List LeaderLine)
    (loc : Point2) (bsc : Vector2) (brot : ℝ) (ct : Option Int)
    (defn : BlockDefinition) (brh : Option String)
    (th msc dl lg : Option ℝ) (sn : Option String) (dg : Bool) :
    ((Document.new.addMLeader lines layer sn
        (.block ⟨Option.some h, Option.none, loc, bsc, brot, ct⟩) th msc dg dl
        lg).2.addBlockDefinitionWithHandle defn (Option.some h) brh).entities =
      [(0, .mleader ⟨layer, sn, lines,
        .block ⟨Option.some h, Option.some defn.name, loc, bsc, brot, ct⟩, th, msc, dg, dl,
        lg⟩)] ∧
    ((Document.new.addBlockDefinitionWithHandle defn (Option.some h) brh).addMLeader lines
        layer sn (.block ⟨Option.some h, Option.none, loc, bsc, brot, ct⟩) th msc dg dl
        lg).2.entities =
      [(0, .mleader ⟨layer, sn, lines,
        .block ⟨Option.some h, Option.some defn.name, loc, bsc, brot, ct⟩, th, msc, dg, dl,
        lg⟩)] ∧
    (∀ (doc : Document) (id : Nat) (m : MLeader) (blk : MLeaderBlockContent),
      (id, Entity.mleader m) ∈ doc.entities → m.content = .block blk →
      blk.block_name = Option.none → blk.block_handle = Option.some h →
      (id, Entity.mleader { m with
          content := MLeaderContent.block { blk with block_name := Option.some defn.name } }) ∈
        (doc.addBlockDefinitionWithHandle defn (Option.some h) brh).entities) := by
  refine ⟨?_, ?_, ?_⟩
  · cases brh with
    | none =>
        simp [Document.addMLeader, Document.addBlockDefinitionWithHandle,
          Document.updateMLeaderBlockNames, Document.resolveBlockContentNameFromHandles,
          Document.pushEntity, Document.nextId, Document.new, Document.default,
          foldl_ensureLayer_entities, foldl_ensureLayer_block_handles,
          foldl_ensureLayer_next_entity_id, ensureLayer_entities, ensureLayer_block_handles,
          ensureLayer_next_entity_id, mapGet, mapInsert]
    | some rh =>
        by_cases hc : rh = h
        · subst hc
          simp [Document.addMLeader, Document.addBlockDefinitionWithHandle,
            Document.updateMLeaderBlockNames, Document.resolveBlockContentNameFromHandles,
            Document.pushEntity, Document.nextId, Document.new, Document.default,
            foldl_ensureLayer_entities, foldl_ensureLayer_block_handles,
            foldl_ensureLayer_next_entity_id, ensureLayer_entities,
            ensureLayer_block_handles, ensureLayer_next_entity_id, mapGet, mapInsert]
        · simp [Document.addMLeader, Document.addBlockDefinitionWithHandle,
            Document.updateMLeaderBlockNames, Document.resolveBlockContentNameFromHandles,
            Document.pushEntity, Document.nextId, Document.new, Document.default,
            foldl_ensureLayer_entities, foldl_ensureLayer_block_handles,
            foldl_ensureLayer_next_entity_id, ensureLayer_entities,
            ensureLayer_block_handles, ensureLayer_next_entity_id, mapGet, mapInsert,
            hc, Ne.symm hc]
  · have hget := register_handle_lookup Document.new defn h brh
    have hres := resolve_hit
      ((Document.new.addBlockDefinitionWithHandle defn (Option.some h) brh).block_handles)
      ⟨Option.some h, Option.none, loc, bsc, brot, ct⟩ h defn.name rfl rfl hget
    have hnil : (Document.new.addBlockDefinitionWithHandle defn
        (Option.some h) brh).entities = [] := by
      cases brh <;>
        simp [Document.addBlockDefinitionWithHandle, Document.updateMLeaderBlockNames,
          foldl_ensureLayer_entities, ensureLayer_entities, Document.new, Document.default]
    have hnext : (Document.new.addBlockDefinitionWithHandle defn
        (Option.some h) brh).next_entity_id = 0 := by
      cases brh <;>
        simp [Document.addBlockDefinitionWithHandle, updateMLeaderBlockNames_next_entity_id,
          foldl_ensureLayer_next_entity_id, ensureLayer_next_entity_id, Document.new,
          Document.default]
    simp only [Document.addMLeader, Document.pushEntity, Document.nextId,
      ensureLayer_block_handles, ensureLayer_entities, ensureLayer_next_entity_id]
    rw [hres, hnil, hnext]
    simp
  · intro doc id m blk hmem hcon hn hh
    have hget := register_handle_lookup doc defn h brh
    have hent : (doc.addBlockDefinitionWithHandle defn (Option.some h) brh).entities =
        ({ doc with block_handles :=
            (doc.addBlockDefinitionWithHandle defn (Option.some h) brh).block_handles } :
          Document).updateMLeaderBlockNames.entities := by
      cases brh <;>
        simp [Document.addBlockDefinitionWithHandle, Document.updateMLeaderBlockNames,
          foldl_ensureLayer_entities, foldl_ensureLayer_block_handles,
          updateMLeaderBlockNames_block_handles]
    rw [hent]
    exact updateMLeaderBlockNames_mem _ id m blk _ hmem hcon
      (resolve_hit _ _ h defn.name hn hh hget)

/-- C1 witness: the concrete "42" to "WIDGET" scenario of the specification,
in both orders, plus the backfill conjunct applied to a document that already
stores an unresolved MLeader. -/
theorem C1_mleader_block_name_backfill_witness :
    (((Document.new.addMLeader [] "0" Option.none
        (.block ⟨Option.some "42", Option.none, ⟨0, 0⟩, ⟨1, 1⟩, 0, Option.none⟩)
        Option.none Option.none false Option.none
        Option.none).2.addBlockDefinitionWithHandle
        ⟨"WIDGET", ⟨0, 0⟩, [], []⟩ (Option.some "42") Option.none).entities =
      [(0, .mleader ⟨"0", Option.none, [],
        .block ⟨Option.some "42", Option.some "WIDGET", ⟨0, 0⟩, ⟨1, 1⟩, 0, Option.none⟩,
        Option.none, Option.none, false, Option.none, Option.none⟩)]) ∧
    (((Document.new.addBlockDefinitionWithHandle ⟨"WIDGET", ⟨0, 0⟩, [], []⟩
        (Option.some "42") Option.none).addMLeader [] "0" Option.none
        (.block ⟨Option.some "42", Option.none, ⟨0, 0⟩, ⟨1, 1⟩, 0, Option.none⟩)
        Option.none Option.none false Option.none Option.none).2.entities =
      [(0, .mleader ⟨"0", Option.none, [],
        .block ⟨Option.some "42", Option.some "WIDGET", ⟨0, 0⟩, ⟨1, 1⟩, 0, Option.none⟩,
        Option.none, Option.none, false, Option.none, Option.none⟩)]) ∧
    ((0, Entity.mleader ⟨"0", Option.none, [],
        .block ⟨Option.some "42", Option.some "WIDGET", ⟨0, 0⟩, ⟨1, 1⟩, 0, Option.none⟩,
        Option.none, Option.none, false, Option.none, Option.none⟩) ∈
      ((Document.new.addMLeader [] "0" Option.none
        (.block ⟨Option.some "42", Option.none, ⟨0, 0⟩, ⟨1, 1⟩, 0, Option.none⟩)
        Option.none Option.none false Option.none
        Option.none).2.addBlockDefinitionWithHandle
        ⟨"WIDGET", ⟨0, 0⟩, [], []⟩ (Option.some "42") Option.none).entities) := by
  have h := C1_mleader_block_name_backfill "42" "0" [] ⟨0, 0⟩ ⟨1, 1⟩ 0 Option.none
    ⟨"WIDGET", ⟨0, 0⟩, [], []⟩ Option.none Option.none Option.none Option.none Option.none
    Option.none false
  refine ⟨h.1, h.2.1, ?_⟩
  have h3 := h.2.2
    (Document.new.addMLeader [] "0" Option.none
      (.block ⟨Option.some "42", Option.none, ⟨0, 0⟩, ⟨1, 1⟩, 0, Option.none⟩)
      Option.none Option.none false Option.none Option.none).2 0
    ⟨"0", Option.none, [],
      .block ⟨Option.some "42", Option.none, ⟨0, 0⟩, ⟨1, 1⟩, 0, Option.none⟩,
      Option.none, Option.none, false, Option.none, Option.none⟩
    ⟨Option.some "42", Option.none, ⟨0, 0⟩, ⟨1, 1⟩, 0, Option.none⟩
    (by
      have he : (Document.new.addMLeader [] "0" Option.none
          (.block ⟨Option.some "42", Option.none, ⟨0, 0⟩, ⟨1, 1⟩, 0, Option.none⟩)
          Option.none Option.none false Option.none Option.none).2.entities =
          [(0, Entity.mleader ⟨"0", Option.none, [],
            .block ⟨Option.some "42", Option.none, ⟨0, 0⟩, ⟨1, 1⟩, 0, Option.none⟩,
            Option.none, Option.none, false, Option.none, Option.none⟩)] := rfl
      rw [he]
      exact List.mem_singleton.mpr rfl) rfl rfl rfl
  exact h3


/-- C2: adding a BlockReference with an empty explicit attribute list against
an already-registered block synthesizes exactly one Attribute per
AttributeDefinition (field-for-field verbatim copy, with the default text as
the attribute's value text); against an unregistered block the stored list is
empty, and a later registration never retroactively materializes it. -/
theorem C2_attribute_materialization (doc : Document) (name layer : String) (ins : Point2)
    (sc : Vector2) (rot : ℝ) (defn : BlockDefinition) :
    (∀ d : AttributeDefinition,
      (Document.attributeOfDefinition d).tag = d.tag ∧
      (Document.attributeOfDefinition d).text = d.default_text ∧
      (Document.attributeOfDefinition d).insert = d.insert ∧
      (Document.attributeOfDefinition d).height = d.height ∧
      (Document.attributeOfDefinition d).rotation = d.rotation ∧
      (Document.attributeOfDefinition d).width_factor = d.width_factor ∧
      (Document.attributeOfDefinition d).oblique = d.oblique ∧
      (Document.attributeOfDefinition d).style = d.style ∧
      (Document.attributeOfDefinition d).prompt = d.prompt ∧
      (Document.attributeOfDefinition d).alignment = d.alignment ∧
      (Document.attributeOfDefinition d).horizontal_align = d.horizontal_align ∧
      (Document.attributeOfDefinition d).vertical_align = d.vertical_align ∧
      (Document.attributeOfDefinition d).line_spacing_factor = d.line_spacing_factor ∧
      (Document.attributeOfDefinition d).line_spacing_style = d.line_spacing_style ∧
      (Document.attributeOfDefinition d).is_invisible = d.is_invisible ∧
      (Document.attributeOfDefinition d).is_constant = d.is_constant ∧
      (Document.attributeOfDefinition d).is_verify = d.is_verify ∧
      (Document.attributeOfDefinition d).is_preset = d.is_preset ∧
      (Document.attributeOfDefinition d).lock_position = d.lock_position ∧
      (Document.attributeOfDefinition d).layer = d.layer) ∧
    (mapGet doc.blocks name = Option.some defn →
      (doc.addBlockReference name ins sc rot [] layer).2.entities.getLast? =
        Option.some ((doc.addBlockReference name ins sc rot [] layer).1,
          .blockReference ⟨name, ins, sc, rot,
            defn.attributes.map Document.attributeOfDefinition, layer⟩) ∧
      (defn.attributes.map Document.attributeOfDefinition).length =
        defn.attributes.length) ∧
    (mapGet doc.blocks name = Option.none →
      ∀ (defn2 : BlockDefinition) (bh brh : Option String),
        ((doc.addBlockReference name ins sc rot [] layer).2.addBlockDefinitionWithHandle
            defn2 bh brh).entities.getLast? =
          Option.some ((doc.addBlockReference name ins sc rot [] layer).1,
            .blockReference ⟨name, ins, sc, rot, [], layer⟩)) := by
  refine ⟨fun d => ⟨rfl, rfl, rfl, rfl, rfl, rfl, rfl, rfl, rfl, rfl, rfl, rfl, rfl, rfl,
    rfl, rfl, rfl, rfl, rfl, rfl⟩, ?_, ?_⟩
  · intro hreg
    refine ⟨?_, List.length_map _ _⟩
    simp [Document.addBlockReference, Document.pushEntity, Document.nextId, Document.block,
      ensureLayer_blocks, ensureLayer_entities, ensureLayer_next_entity_id,
      foldl_ensureLayer_entities, foldl_ensureLayer_next_entity_id, hreg,
      List.getLast?_concat]
  · intro hnone defn2 bh brh
    refine register_preserves_blockReference_last _ _ _ _ _ _ ?_
    simp [Document.addBlockReference, Document.pushEntity, Document.nextId, Document.block,
      ensureLayer_blocks, ensureLayer_entities, ensureLayer_next_entity_id,
      foldl_ensureLayer_entities, foldl_ensureLayer_next_entity_id, hnone,
      List.getLast?_concat]

/-- C2 witness: a block "WIDGET" with one ATTDEF (tag "ID", default "100")
yields a synthesized attribute with tag "ID", text "100"; the unregistered
case stays empty even after the block is registered later. -/
theorem C2_attribute_materialization_witness :
    (mapGet (Document.new.addBlockDefinition
        ⟨"WIDGET", ⟨0, 0⟩, [],
          [⟨"ID", Option.none, "100", ⟨0, 0⟩, 1, 0, 1, 0, Option.none, Option.none, 0, 0,
            1, 1, false, false, false, false, false, "0"⟩]⟩).blocks "WIDGET" =
      Option.some
        ⟨"WIDGET", ⟨0, 0⟩, [],
          [⟨"ID", Option.none, "100", ⟨0, 0⟩, 1, 0, 1, 0, Option.none, Option.none, 0, 0,
            1, 1, false, false, false, false, false, "0"⟩]⟩) ∧
    (((Document.new.addBlockDefinition
        ⟨"WIDGET", ⟨0, 0⟩, [],
          [⟨"ID", Option.none, "100", ⟨0, 0⟩, 1, 0, 1, 0, Option.none, Option.none, 0, 0,
            1, 1, false, false, false, false, false, "0"⟩]⟩).addBlockReference "WIDGET"
        ⟨0, 0⟩ ⟨1, 1⟩ 0 [] "0").2.entities.getLast? =
      Option.some (((Document.new.addBlockDefinition
        ⟨"WIDGET", ⟨0, 0⟩, [],
          [⟨"ID", Option.none, "100", ⟨0, 0⟩, 1, 0, 1, 0, Option.none, Option.none, 0, 0,
            1, 1, false, false, false, false, false, "0"⟩]⟩).addBlockReference "WIDGET"
        ⟨0, 0⟩ ⟨1, 1⟩ 0 [] "0").1,
        .blockReference ⟨"WIDGET", ⟨0, 0⟩, ⟨1, 1⟩, 0,
          [⟨"ID", "100", ⟨0, 0⟩, 1, 0, 1, 0, Option.none, Option.none, Option.none, 0, 0,
            1, 1, false, false, false, false, false, "0"⟩], "0"⟩)) ∧
    (mapGet Document.new.blocks "WIDGET" = Option.none) ∧
    (((Document.new.addBlockReference "WIDGET" ⟨0, 0⟩ ⟨1, 1⟩ 0
        [] "0").2.addBlockDefinitionWithHandle ⟨"WIDGET", ⟨0, 0⟩, [], []⟩ Option.none
        Option.none).entities.getLast? =
      Option.some ((Document.new.addBlockReference "WIDGET" ⟨0, 0⟩ ⟨1, 1⟩ 0 [] "0").1,
        .blockReference ⟨"WIDGET", ⟨0, 0⟩, ⟨1, 1⟩, 0, [], "0"⟩)) := by
  refine ⟨rfl, ?_, rfl, ?_⟩
  · exact ((C2_attribute_materialization (Document.new.addBlockDefinition
      ⟨"WIDGET", ⟨0, 0⟩, [],
        [⟨"ID", Option.none, "100", ⟨0, 0⟩, 1, 0, 1, 0, Option.none, Option.none, 0, 0,
          1, 1, false, false, false, false, false, "0"⟩]⟩) "WIDGET" "0" ⟨0, 0⟩ ⟨1, 1⟩ 0
      ⟨"WIDGET", ⟨0, 0⟩, [],
        [⟨"ID", Option.none, "100", ⟨0, 0⟩, 1, 0, 1, 0, Option.none, Option.none, 0, 0,
          1, 1, false, false, false, false, false, "0"⟩]⟩).2.1 rfl).1
  · exact (C2_attribute_materialization Document.new "WIDGET" "0" ⟨0, 0⟩ ⟨1, 1⟩ 0
      ⟨"WIDGET", ⟨0, 0⟩, [], []⟩).2.2 rfl ⟨"WIDGET", ⟨0, 0⟩, [], []⟩ Option.none Option.none

/-- C9 amended: `put_back` on a drained reader restores exactly one pair — the
next `next_pair` returns that pair and the original reader state — while a
second `put_back` without an intervening read hits the occupied slot and is the
modeled `panic!` (loud failure, but a panic, contrary to the claim's
"not panicking" wording). -/
theorem C9_put_back_single_slot (r : DxfReader) (pair : Int × String)
    (h : r.buffer = Option.none) :
    ∃ r2, r.putBack pair = Option.some r2 ∧
      r2.nextPair = .ok (Option.some pair, r) ∧
      ∀ pair2, r2.putBack pair2 = Option.none ∧
        r2.putBackP pair2 = .error (.panicked "内部错误：尝试多次回退 DXF pair") := by
  obtain ⟨ls, buf, n⟩ := r
  subst h
  refine ⟨⟨ls, Option.some pair, n⟩, rfl, rfl, fun pair2 => ⟨rfl, rfl⟩⟩

theorem C9_put_back_single_slot_witness :
    (DxfReader.new ["0", "EOF"]).buffer = Option.none ∧
      ∃ r2, (DxfReader.new ["0", "EOF"]).putBack (0, "EOF") = Option.some r2 ∧
        r2.nextPair = .ok (Option.some ((0 : Int), "EOF"), DxfReader.new ["0", "EOF"]) ∧
        ∀ pair2, r2.putBack pair2 = Option.none ∧
          r2.putBackP pair2 = .error (.panicked "内部错误：尝试多次回退 DXF pair") :=
  ⟨rfl, C9_put_back_single_slot (DxfReader.new ["0", "EOF"]) (0, "EOF") rfl⟩

/-- C9 counterexample: the second `put_back` without an intervening read is the
modeled panic, refuting "is not undefined or panicking behavior". -/
theorem C9_put_back_double_put_back_panics :
    ∃ r2 : DxfReader, (DxfReader.new ["0", "SECTION"]).putBack (0, "EOF") = Option.some r2 ∧
      r2.putBackP (1, "X") = .error (.panicked "内部错误：尝试多次回退 DXF pair") :=
  ⟨⟨["0", "SECTION"], Option.some (0, "EOF"), 0⟩, rfl, rfl⟩

/-- C4: the bulge-to-arc reconstruction for the edge (0,0) to (10,0) with
bulge 1.0 does produce included angle 4*atan(1) = pi and radius 5 as claimed,
but its center is (5,5), not the claimed (5,0) (the code adds the sagitta to
the chord midpoint instead of the center-to-midpoint distance), so the center
misses the claim by 5 and the reconstructed circle does not pass through the
segment endpoints. -/
theorem C4_bulge_arc_center_bug :
    ∃ arc : Arc, bulgeArcOf ⟨0, 0⟩ ⟨10, 0⟩ 1 = Option.some arc ∧
      arc.radius = 5 ∧
      arc.end_angle - arc.start_angle = 4 * Real.arctan 1 ∧
      4 * Real.arctan 1 = Real.pi ∧
      arc.center = ⟨5, 5⟩ ∧
      ¬ |arc.center.y - 0| < oneE9 ∧
      (0 - arc.center.x) ^ 2 + (0 - arc.center.y) ^ 2 ≠ arc.radius ^ 2 := by
  have harct : Real.arctan 1 = Real.pi / 4 := Real.arctan_one
  have hpi3 : (3 : ℝ) < Real.pi := Real.pi_gt_three
  have hpi4 : Real.pi < 4 := by linarith [Real.pi_lt_d2]
  have hlen : Vector2.length ⟨10 - 0, 0 - 0⟩ = 10 := by
    simp only [Vector2.length]
    rw [show ((10 : ℝ) - 0) * (10 - 0) + (0 - 0) * (0 - 0) = 10 ^ 2 by norm_num]
    exact Real.sqrt_sq (by norm_num)
  have hplen : Vector2.length ⟨-(0 - 0), 10 - 0⟩ = 10 := by
    simp only [Vector2.length]
    rw [show (-((0 : ℝ) - 0)) * (-(0 - 0)) + (10 - 0) * (10 - 0) = 10 ^ 2 by norm_num]
    exact Real.sqrt_sq (by norm_num)
  have heps : f64Epsilon < 1 := by
    simp only [f64Epsilon]
    rw [zpow_neg, show ((52 : ℤ) : ℤ) = ((52 : ℕ) : ℤ) by norm_num, zpow_natCast]
    rw [inv_lt_one_iff₀]
    right
    norm_num
  have hsin : Real.sin (4 * Real.arctan 1 / 2) = 1 := by
    rw [harct]
    rw [show 4 * (Real.pi / 4) / 2 = Real.pi / 2 by ring]
    exact Real.sin_pi_div_two
  refine ⟨⟨⟨5, 5⟩, |(10 : ℝ) / (2 * 1)|, atan2 (0 - 5) (0 - 5),
      atan2 (0 - 5) (0 - 5) + 4 * Real.arctan 1, ""⟩, ?_, ?_, by ring, by rw [harct]; ring,
      rfl, ?_, ?_⟩
  · rw [bulgeArcOf]
    rw [if_neg (by rw [oneE9]; norm_num)]
    simp only [hlen]
    rw [if_neg (by nlinarith [heps])]
    rw [if_neg (by rw [harct, oneE9, show (4 : ℝ) * (Real.pi / 4) = Real.pi by ring, abs_of_pos (by linarith : (0 : ℝ) < Real.pi)]; linarith)]
    rw [hsin]
    rw [if_neg (by rw [oneE9]; norm_num)]
    simp only [Vector2.lengthSquared]
    rw [if_neg (by nlinarith [heps])]
    simp only [hplen]
    norm_num
  · norm_num
  · simp only [oneE9]
    norm_num
  · rw [abs_of_pos (by norm_num : (10 : ℝ) / (2 * 1) > 0)]
    norm_num

theorem ensureLayer_mapGet_mono (doc : Document) (n k : String)
    (h : (mapGet doc.layers k).isSome = true) :
    (mapGet (doc.ensureLayer k).layers k).isSome = true := by
  unfold Document.ensureLayer
  cases hg : mapGet doc.layers k with
  | some l => simp [hg]
  | none => simp [mapGet_mapInsert_self]

theorem pushEntity_layers (doc : Document) (e : Entity) :
    (doc.pushEntity e).2.layers = doc.layers := rfl

/-- C8: any input whose LINE record presents a second group-10 (start X)
value before any group-20 value fails the whole parse with the invalid-
document error naming group code 10 ("LINE 遇到重复的起点 X（组码 10）"), and
the facade maps it to InvalidDocument; no document is returned.  The first
group-10 value only needs to be a parseable float, and the error is
independent of the second value, the rest of the input, and the fuel. -/
theorem C8_duplicate_line_x_errors (a b : String) (rest : List String) (fuel : Nat) (q : ℚ)
    (hfuel : 5 ≤ fuel)
    (hq : parseDecimal? (rustTrim (trimEndCR a)) = Option.some q) :
    parse fuel (["0", "SECTION", "2", "ENTITIES", "0", "LINE", "10", a, "10", b] ++ rest) =
      .error (.failed (.invalid "LINE 遇到重复的起点 X（组码 10）")) ∧
    facadeLoad fuel
        (["0", "SECTION", "2", "ENTITIES", "0", "LINE", "10", a, "10", b] ++ rest) =
      .error (.ioError (.invalidDocument "LINE 遇到重复的起点 X（组码 10）")) := by
  obtain ⟨m, rfl⟩ : ∃ m, fuel = m + 5 := ⟨fuel - 5, by omega⟩
  have hparse : parse (m + 5)
      (["0", "SECTION", "2", "ENTITIES", "0", "LINE", "10", a, "10", b] ++ rest) =
      .error (.failed (.invalid "LINE 遇到重复的起点 X（组码 10）")) := by
    have e1 : (DxfReader.new
        (["0", "SECTION", "2", "ENTITIES", "0", "LINE", "10", a, "10", b] ++ rest)).nextPair =
        .ok (Option.some ((0 : Int), "SECTION"),
          ⟨"2" :: "ENTITIES" :: "0" :: "LINE" :: "10" :: a :: "10" :: b :: rest, Option.none, 2⟩) := by
      with_unfolding_all rfl
    have e2 : (DxfReader.nextPair
        ⟨"2" :: "ENTITIES" :: "0" :: "LINE" :: "10" :: a :: "10" :: b :: rest, Option.none, 2⟩) =
        .ok (Option.some ((2 : Int), "ENTITIES"),
          ⟨"0" :: "LINE" :: "10" :: a :: "10" :: b :: rest, Option.none, 4⟩) := by
      with_unfolding_all rfl
    have e3 : (DxfReader.nextPair
        ⟨"0" :: "LINE" :: "10" :: a :: "10" :: b :: rest, Option.none, 4⟩) =
        .ok (Option.some ((0 : Int), "LINE"),
          ⟨"10" :: a :: "10" :: b :: rest, Option.none, 6⟩) := by
      with_unfolding_all rfl
    have e4 : (DxfReader.nextPair ⟨"10" :: a :: "10" :: b :: rest, Option.none, 6⟩) =
        .ok (Option.some ((10 : Int), trimEndCR a),
          ⟨"10" :: b :: rest, Option.none, 8⟩) := by
      with_unfolding_all rfl
    have e5 : (DxfReader.nextPair ⟨"10" :: b :: rest, Option.none, 8⟩) =
        .ok (Option.some ((10 : Int), trimEndCR b), ⟨rest, Option.none, 10⟩) := by
      with_unfolding_all rfl
    have s1 : lineStep LineAcc.init 10 (trimEndCR a) =
        .ok ⟨Option.none, Option.some (q : ℝ), Option.none, Option.none, Option.none⟩ := by
      unfold lineStep
      rw [if_neg (by decide), if_pos rfl]
      unfold parseF64
      rw [hq]
      rfl
    have s2 : lineStep
        ⟨Option.none, Option.some (q : ℝ), Option.none, Option.none, Option.none⟩ 10
        (trimEndCR b) =
        .error (.failed (.invalid "LINE 遇到重复的起点 X（组码 10）")) := by
      unfold lineStep
      rw [if_neg (by decide), if_pos rfl]
      rfl
    rw [show m + 5 = (m + 4) + 1 from rfl]
    unfold parse
    rw [parseLoop]
    rw [e1]
    simp [e2]
    rw [show m + 4 = (m + 3) + 1 from rfl, parseEntitiesLoop.eq_def]
    simp only []
    rw [e3]
    simp
    rw [show m + 3 = (m + 2) + 1 from rfl]
    unfold parseEntity
    simp
    unfold parseLine
    rw [runRecord.eq_def]
    simp only []
    rw [e4]
    simp [s1]
    rw [show m + 2 = (m + 1) + 1 from rfl, runRecord.eq_def]
    simp only []
    rw [e5]
    simp [s2]
  refine ⟨hparse, ?_⟩
  unfold facadeLoad
  rw [hparse]
  rfl

/-- C8 witness: the concrete duplicate-X input. -/
theorem C8_duplicate_line_x_errors_witness :
    (5 ≤ 5) ∧
    parseDecimal? (rustTrim (trimEndCR "1.5")) = Option.some ((3 : ℚ) / 2) ∧
    (parse 5 (["0", "SECTION", "2", "ENTITIES", "0", "LINE", "10", "1.5", "10", "2"] ++
        ["0", "EOF"]) =
      .error (.failed (.invalid "LINE 遇到重复的起点 X（组码 10）")) ∧
    facadeLoad 5 (["0", "SECTION", "2", "ENTITIES", "0", "LINE", "10", "1.5", "10", "2"] ++
        ["0", "EOF"]) =
      .error (.ioError (.invalidDocument "LINE 遇到重复的起点 X（组码 10）"))) :=
  ⟨by decide, by with_unfolding_all rfl,
    C8_duplicate_line_x_errors "1.5" "2" ["0", "EOF"] 5 ((3 : ℚ) / 2) (by decide)
      (by with_unfolding_all rfl)⟩

/-- C6: the angle conversion map of the parser.  ARC start/end angles
(group 50/51), TEXT/ATTRIB/ATTDEF/DIMENSION rotation and oblique angles and
the INSERT rotation are converted from degrees to radians on ingestion, but
the HATCH arc and ellipse boundary-edge start/end angles (group 50/51) and
the MULTILEADER block rotation (group 43) are stored exactly as parsed, with
no degree-to-radian conversion. -/
theorem C6_angle_conversion_sites :
    (∀ (st : ArcAcc) (v : String) (x : ℝ), st.start_angle = Option.none →
      parseF64 v "ARC 起始角" = .ok x →
      arcStep st 50 v = .ok { st with start_angle := Option.some (degToRad x) }) ∧
    (∀ (st : ArcAcc) (v : String) (x : ℝ), st.end_angle = Option.none →
      parseF64 v "ARC 终止角" = .ok x →
      arcStep st 51 v = .ok { st with end_angle := Option.some (degToRad x) }) ∧
    (∀ (st : TextAcc) (ent : Entity), finishText st = .ok ent →
      ∃ t : Text, ent = .text t ∧ t.rotation = degToRad st.rotation_deg) ∧
    (∀ (st : AttribAcc) (a : Attribute), finishAttrib st = .ok a →
      a.rotation = degToRad st.rotation_deg ∧ a.oblique = degToRad st.oblique_deg) ∧
    (∀ (st : AttribAcc) (d : AttributeDefinition), finishAttdef st = .ok d →
      d.rotation = degToRad st.rotation_deg ∧ d.oblique = degToRad st.oblique_deg) ∧
    (∀ (st : DimensionAcc) (ent : Entity), finishDimension st = .ok ent →
      ∃ d : Dimension, ent = .dimension d ∧ d.rotation = degToRad st.rotation_deg ∧
        d.text_rotation = st.text_rotation_deg.map degToRad ∧
        d.oblique_angle = st.oblique_angle_deg.map degToRad) ∧
    (∀ (fuel : Nat) (r r2 : DxfReader) (st : InsertAcc) (ent : Entity) (r3 : DxfReader),
      runRecord insertStep "INSERT 未正确结束" fuel r InsertAcc.init = .ok (st, r2) →
      parseInsert fuel r = .ok (ent, r3) →
      ∃ b : BlockReference, ent = .blockReference b ∧
        b.rotation = degToRad st.rotation_deg) ∧
    (∀ (st : HatchAcc) (c : Option Point2) (rad ea : Option ℝ) (ccw : Bool) (v : String)
      (x : ℝ), st.edge_builder = Option.some (.arc c rad Option.none ea ccw) →
      parseF64 v "HATCH 圆弧起始角（组码 50）" = .ok x →
      hatchStep st 50 v =
        .ok { st with edge_builder := Option.some (.arc c rad (Option.some x) ea ccw) }) ∧
    (∀ (st : HatchAcc) (c : Option Point2) (rad sa : Option ℝ) (ccw : Bool) (v : String)
      (x : ℝ), st.edge_builder = Option.some (.arc c rad sa Option.none ccw) →
      parseF64 v "HATCH 圆弧终止角（组码 51）" = .ok x →
      hatchStep st 51 v =
        .ok { st with edge_builder := Option.some (.arc c rad sa (Option.some x) ccw) }) ∧
    (∀ (st : HatchAcc) (c : Option Point2) (m : Option Vector2) (ratio ea : Option ℝ)
      (ccw : Bool) (v : String) (x : ℝ),
      st.edge_builder = Option.some (.ellipse c m ratio Option.none ea ccw) →
      parseF64 v "HATCH 椭圆起始角（组码 50）" = .ok x →
      hatchStep st 50 v =
        .ok { st with
          edge_builder := Option.some (.ellipse c m ratio (Option.some x) ea ccw) }) ∧
    (∀ (st : HatchAcc) (c : Option Point2) (m : Option Vector2) (ratio sa : Option ℝ)
      (ccw : Bool) (v : String) (x : ℝ),
      st.edge_builder = Option.some (.ellipse c m ratio sa Option.none ccw) →
      parseF64 v "HATCH 椭圆终止角（组码 51）" = .ok x →
      hatchStep st 51 v =
        .ok { st with
          edge_builder := Option.some (.ellipse c m ratio sa (Option.some x) ccw) }) ∧
    (∀ (st : MLeaderAcc) (v : String) (x : ℝ),
      parseF64 v "MULTILEADER 块旋转（组码 43）" = .ok x →
      mleaderStep st 43 v = .ok { st with block_rotation := Option.some x }) := by
  refine ⟨?_, ?_, ?_, ?_, ?_, ?_, ?_, ?_, ?_, ?_, ?_, ?_⟩
  · intro st v x hn hpf
    unfold arcStep
    rw [if_neg (by decide : ¬ ((50 : Int) = 8))]
    rw [if_neg (by decide : ¬ ((50 : Int) = 10))]
    rw [if_neg (by decide : ¬ ((50 : Int) = 20))]
    rw [if_neg (by decide : ¬ ((50 : Int) = 40))]
    rw [if_pos (rfl : (50 : Int) = 50)]
    simp [hn, hpf]
  · intro st v x hn hpf
    unfold arcStep
    rw [if_neg (by decide : ¬ ((51 : Int) = 8))]
    rw [if_neg (by decide : ¬ ((51 : Int) = 10))]
    rw [if_neg (by decide : ¬ ((51 : Int) = 20))]
    rw [if_neg (by decide : ¬ ((51 : Int) = 40))]
    rw [if_neg (by decide : ¬ ((51 : Int) = 50))]
    rw [if_pos (rfl : (51 : Int) = 51)]
    simp [hn, hpf]
  · intro st ent h
    unfold finishText at h
    try simp only [] at h
    repeat' split at h
    all_goals first
      | (injection h with h; subst h; exact ⟨_, rfl, rfl⟩)
      | exact Except.noConfusion h
  · intro st a h
    unfold finishAttrib at h
    try simp only [] at h
    repeat' split at h
    all_goals first
      | (injection h with h; subst h; exact ⟨rfl, rfl⟩)
      | exact Except.noConfusion h
  · intro st d h
    unfold finishAttdef at h
    try simp only [] at h
    repeat' split at h
    all_goals first
      | (injection h with h; subst h; exact ⟨rfl, rfl⟩)
      | exact Except.noConfusion h
  · intro st ent h
    unfold finishDimension at h
    try simp only [] at h
    repeat' split at h
    all_goals first
      | (injection h with h; subst h; exact ⟨_, rfl, rfl, rfl, rfl⟩)
      | exact Except.noConfusion h
  · intro fuel r r2 st ent r3 hrr h
    unfold parseInsert at h
    rw [hrr] at h
    try simp only [] at h
    repeat' split at h
    all_goals first
      | (injection h with h; injection h with h1 h2; subst h1; exact ⟨_, rfl, rfl⟩)
      | exact Except.noConfusion h
  · intro st c rad ea ccw v x hb hpf
    unfold hatchStep
    rw [if_neg (by decide : ¬ ((50 : Int) = 8))]
    rw [if_neg (by decide : ¬ ((50 : Int) = 2))]
    rw [if_neg (by decide : ¬ ((50 : Int) = 70))]
    rw [if_neg (by decide : ¬ ((50 : Int) = 91))]
    rw [if_neg (by decide : ¬ ((50 : Int) = 92))]
    rw [if_neg (by decide : ¬ ((50 : Int) = 93))]
    rw [if_neg (by decide : ¬ ((50 : Int) = 72))]
    rw [if_neg (by decide : ¬ ((50 : Int) = 73))]
    rw [if_neg (by decide : ¬ ((50 : Int) = 74))]
    rw [if_neg (by decide : ¬ ((50 : Int) = 75))]
    rw [if_neg (by decide : ¬ ((50 : Int) = 97))]
    rw [if_neg (by decide : ¬ ((50 : Int) = 330))]
    rw [if_neg (by decide : ¬ ((50 : Int) = 10))]
    rw [if_neg (by decide : ¬ ((50 : Int) = 20))]
    rw [if_neg (by decide : ¬ ((50 : Int) = 11))]
    rw [if_neg (by decide : ¬ ((50 : Int) = 21))]
    rw [if_neg (by decide : ¬ ((50 : Int) = 40))]
    rw [if_neg (by decide : ¬ ((50 : Int) = 41))]
    rw [if_neg (by decide : ¬ ((50 : Int) = 42))]
    rw [if_pos (rfl : (50 : Int) = 50)]
    rw [hb]
    simp [hpf]
  · intro st c rad sa ccw v x hb hpf
    unfold hatchStep
    rw [if_neg (by decide : ¬ ((51 : Int) = 8))]
    rw [if_neg (by decide : ¬ ((51 : Int) = 2))]
    rw [if_neg (by decide : ¬ ((51 : Int) = 70))]
    rw [if_neg (by decide : ¬ ((51 : Int) = 91))]
    rw [if_neg (by decide : ¬ ((51 : Int) = 92))]
    rw [if_neg (by decide : ¬ ((51 : Int) = 93))]
    rw [if_neg (by decide : ¬ ((51 : Int) = 72))]
    rw [if_neg (by decide : ¬ ((51 : Int) = 73))]
    rw [if_neg (by decide : ¬ ((51 : Int) = 74))]
    rw [if_neg (by decide : ¬ ((51 : Int) = 75))]
    rw [if_neg (by decide : ¬ ((51 : Int) = 97))]
    rw [if_neg (by decide : ¬ ((51 : Int) = 330))]
    rw [if_neg (by decide : ¬ ((51 : Int) = 10))]
    rw [if_neg (by decide : ¬ ((51 : Int) = 20))]
    rw [if_neg (by decide : ¬ ((51 : Int) = 11))]
    rw [if_neg (by decide : ¬ ((51 : Int) = 21))]
    rw [if_neg (by decide : ¬ ((51 : Int) = 40))]
    rw [if_neg (by decide : ¬ ((51 : Int) = 41))]
    rw [if_neg (by decide : ¬ ((51 : Int) = 42))]
    rw [if_neg (by decide : ¬ ((51 : Int) = 50))]
    rw [if_pos (rfl : (51 : Int) = 51)]
    rw [hb]
    simp [hpf]
  · intro st c m ratio ea ccw v x hb hpf
    unfold hatchStep
    rw [if_neg (by decide : ¬ ((50 : Int) = 8))]
    rw [if_neg (by decide : ¬ ((50 : Int) = 2))]
    rw [if_neg (by decide : ¬ ((50 : Int) = 70))]
    rw [if_neg (by decide : ¬ ((50 : Int) = 91))]
    rw [if_neg (by decide : ¬ ((50 : Int) = 92))]
    rw [if_neg (by decide : ¬ ((50 : Int) = 93))]
    rw [if_neg (by decide : ¬ ((50 : Int) = 72))]
    rw [if_neg (by decide : ¬ ((50 : Int) = 73))]
    rw [if_neg (by decide : ¬ ((50 : Int) = 74))]
    rw [if_neg (by decide : ¬ ((50 : Int) = 75))]
    rw [if_neg (by decide : ¬ ((50 : Int) = 97))]
    rw [if_neg (by decide : ¬ ((50 : Int) = 330))]
    rw [if_neg (by decide : ¬ ((50 : Int) = 10))]
    rw [if_neg (by decide : ¬ ((50 : Int) = 20))]
    rw [if_neg (by decide : ¬ ((50 : Int) = 11))]
    rw [if_neg (by decide : ¬ ((50 : Int) = 21))]
    rw [if_neg (by decide : ¬ ((50 : Int) = 40))]
    rw [if_neg (by decide : ¬ ((50 : Int) = 41))]
    rw [if_neg (by decide : ¬ ((50 : Int) = 42))]
    rw [if_pos (rfl : (50 : Int) = 50)]
    rw [hb]
    simp [hpf]
  · intro st c m ratio sa ccw v x hb hpf
    unfold hatchStep
    rw [if_neg (by decide : ¬ ((51 : Int) = 8))]
    rw [if_neg (by decide : ¬ ((51 : Int) = 2))]
    rw [if_neg (by decide : ¬ ((51 : Int) = 70))]
    rw [if_neg (by decide : ¬ ((51 : Int) = 91))]
    rw [if_neg (by decide : ¬ ((51 : Int) = 92))]
    rw [if_neg (by decide : ¬ ((51 : Int) = 93))]
    rw [if_neg (by decide : ¬ ((51 : Int) = 72))]
    rw [if_neg (by decide : ¬ ((51 : Int) = 73))]
    rw [if_neg (by decide : ¬ ((51 : Int) = 74))]
    rw [if_neg (by decide : ¬ ((51 : Int) = 75))]
    rw [if_neg (by decide : ¬ ((51 : Int) = 97))]
    rw [if_neg (by decide : ¬ ((51 : Int) = 330))]
    rw [if_neg (by decide : ¬ ((51 : Int) = 10))]
    rw [if_neg (by decide : ¬ ((51 : Int) = 20))]
    rw [if_neg (by decide : ¬ ((51 : Int) = 11))]
    rw [if_neg (by decide : ¬ ((51 : Int) = 21))]
    rw [if_neg (by decide : ¬ ((51 : Int) = 40))]
    rw [if_neg (by decide : ¬ ((51 : Int) = 41))]
    rw [if_neg (by decide : ¬ ((51 : Int) = 42))]
    rw [if_neg (by decide : ¬ ((51 : Int) = 50))]
    rw [if_pos (rfl : (51 : Int) = 51)]
    rw [hb]
    simp [hpf]
  · intro st v x hpf
    unfold mleaderStep
    rw [if_neg (by decide : ¬ ((43 : Int) = 8))]
    rw [if_neg (by decide : ¬ ((43 : Int) = 3))]
    rw [if_neg (by decide : ¬ ((43 : Int) = 40))]
    rw [if_neg (by decide : ¬ ((43 : Int) = 140))]
    rw [if_neg (by decide : ¬ ((43 : Int) = 145))]
    rw [if_neg (by decide : ¬ ((43 : Int) = 10))]
    rw [if_neg (by decide : ¬ ((43 : Int) = 20))]
    rw [if_neg (by decide : ¬ ((43 : Int) = 30))]
    rw [if_neg (by decide : ¬ ((43 : Int) = 12))]
    rw [if_neg (by decide : ¬ ((43 : Int) = 22))]
    rw [if_neg (by decide : ¬ ((43 : Int) = 91))]
    rw [if_neg (by decide : ¬ ((43 : Int) = 302 ∨ (43 : Int) = 303 ∨ (43 : Int) = 304))]
    rw [if_neg (by decide : ¬ ((43 : Int) = 305 ∨ (43 : Int) = 306 ∨ (43 : Int) = 307))]
    rw [if_neg (by decide : ¬ ((43 : Int) = 15))]
    rw [if_neg (by decide : ¬ ((43 : Int) = 25))]
    rw [if_neg (by decide : ¬ ((43 : Int) = 172))]
    rw [if_neg (by decide : ¬ ((43 : Int) = 344))]
    rw [if_pos (rfl : (43 : Int) = 43)]
    simp [hpf]

/-- C6 counterexample: a HATCH arc edge start angle "90" and a MULTILEADER
block rotation "90" are stored as the raw value 90, which differs from the
radian conversion 90·(π/180) = π/2 the claim asserts for every angle
field. -/
theorem C6_hatch_mleader_angles_raw :
    hatchStep ⟨Option.none, "SOLID", false, [], Option.none,
        Option.some (.arc (Option.some ⟨0, 0⟩) (Option.some 1) Option.none Option.none
          true), GradientAcc.default⟩ 50 "90" =
      .ok ⟨Option.none, "SOLID", false, [], Option.none,
        Option.some (.arc (Option.some ⟨0, 0⟩) (Option.some 1)
          (Option.some ((90 : ℚ) : ℝ)) Option.none true), GradientAcc.default⟩ ∧
    mleaderStep MLeaderAcc.init 43 "90" =
      .ok { MLeaderAcc.init with block_rotation := Option.some ((90 : ℚ) : ℝ) } ∧
    ((90 : ℚ) : ℝ) ≠ degToRad ((90 : ℚ) : ℝ) := by
  refine ⟨by with_unfolding_all rfl, by with_unfolding_all rfl, ?_⟩
  intro heq
  rw [show (((90 : ℚ) : ℝ)) = (90 : ℝ) by norm_num] at heq
  unfold degToRad at heq
  nlinarith [Real.pi_gt_three, Real.pi_lt_d2, heq]

/-- C6 witness: the conversion conjuncts applied at concrete inputs,
including a full INSERT record whose rotation 90° is stored as 90·(π/180). -/
theorem C6_angle_conversion_sites_witness :
    (ArcAcc.init.start_angle = Option.none) ∧
    parseF64 "90" "ARC 起始角" = .ok ((90 : ℚ) : ℝ) ∧
    arcStep ArcAcc.init 50 "90" =
      .ok { ArcAcc.init with start_angle := Option.some (degToRad ((90 : ℚ) : ℝ)) } ∧
    runRecord insertStep "INSERT 未正确结束" 8
        (DxfReader.new ["2", "BLK", "10", "1", "20", "2", "50", "90", "0", "LINE"])
        InsertAcc.init =
      .ok (⟨Option.none, Option.some "BLK", Option.some ((1 : ℚ) : ℝ),
        Option.some ((2 : ℚ) : ℝ), Option.none, Option.none, ((90 : ℚ) : ℝ)⟩,
        ⟨[], Option.some (0, "LINE"), 10⟩) ∧
    parseInsert 8
        (DxfReader.new ["2", "BLK", "10", "1", "20", "2", "50", "90", "0", "LINE"]) =
      .ok (.blockReference ⟨"BLK", ⟨((1 : ℚ) : ℝ), ((2 : ℚ) : ℝ)⟩, ⟨1, 1⟩,
        degToRad ((90 : ℚ) : ℝ), [], "0"⟩, ⟨[], Option.some (0, "LINE"), 10⟩) ∧
    (∃ b : BlockReference,
      Entity.blockReference ⟨"BLK", ⟨((1 : ℚ) : ℝ), ((2 : ℚ) : ℝ)⟩, ⟨1, 1⟩,
          degToRad ((90 : ℚ) : ℝ), [], "0"⟩ = .blockReference b ∧
      b.rotation = degToRad ((90 : ℚ) : ℝ)) ∧
    mleaderStep MLeaderAcc.init 43 "45" =
      .ok { MLeaderAcc.init with block_rotation := Option.some ((45 : ℚ) : ℝ) } :=
  ⟨rfl, by with_unfolding_all rfl,
    C6_angle_conversion_sites.1 ArcAcc.init "90" ((90 : ℚ) : ℝ) rfl
      (by with_unfolding_all rfl),
    by with_unfolding_all rfl,
    by with_unfolding_all rfl,
    C6_angle_conversion_sites.2.2.2.2.2.2.1 8
      (DxfReader.new ["2", "BLK", "10", "1", "20", "2", "50", "90", "0", "LINE"])
      ⟨[], Option.some (0, "LINE"), 10⟩
      ⟨Option.none, Option.some "BLK", Option.some ((1 : ℚ) : ℝ),
        Option.some ((2 : ℚ) : ℝ), Option.none, Option.none, ((90 : ℚ) : ℝ)⟩
      (.blockReference ⟨"BLK", ⟨((1 : ℚ) : ℝ), ((2 : ℚ) : ℝ)⟩, ⟨1, 1⟩,
        degToRad ((90 : ℚ) : ℝ), [], "0"⟩)
      ⟨[], Option.some (0, "LINE"), 10⟩
      (by with_unfolding_all rfl) (by with_unfolding_all rfl),
    C6_angle_conversion_sites.2.2.2.2.2.2.2.2.2.2.2 MLeaderAcc.init "45" ((45 : ℚ) : ℝ)
      (by with_unfolding_all rfl)⟩

/-- Classification of the MLEADER content expression of `finish` in
`parse_mleader`, abstracted over the payloads. -/
theorem mleaderContentClassify (cond : Prop) [Decidable cond] (b : MLeaderBlockContent)
    (tl : List String) (txt : String) (loc : Point2) :
    ((∃ blk, (if cond then MLeaderContent.block b
        else if ¬ tl.isEmpty = true then MLeaderContent.mtext txt loc
        else MLeaderContent.none) = MLeaderContent.block blk) ↔ cond) ∧
    (¬ cond →
      (¬ tl.isEmpty = true → ∃ t l, (if cond then MLeaderContent.block b
        else if ¬ tl.isEmpty = true then MLeaderContent.mtext txt loc
        else MLeaderContent.none) = MLeaderContent.mtext t l) ∧
      (tl.isEmpty = true → (if cond then MLeaderContent.block b
        else if ¬ tl.isEmpty = true then MLeaderContent.mtext txt loc
        else MLeaderContent.none) = MLeaderContent.none)) := by
  constructor
  · by_cases hc : cond
    · simp only [if_pos hc]
      exact ⟨fun _ => hc, fun _ => ⟨b, rfl⟩⟩
    · simp only [if_neg hc]
      constructor
      · intro hex
        obtain ⟨blk, hblk⟩ := hex
        by_cases ht : tl.isEmpty = true <;> simp [ht] at hblk
      · intro hc2
        exact absurd hc2 hc
  · intro hc
    simp only [if_neg hc]
    refine ⟨fun ht => ?_, fun ht => ?_⟩
    · simp only [if_pos ht]
      exact ⟨_, _, rfl⟩
    · simp only [if_neg (not_not_intro ht)]

/-- C7: a successfully finished MULTILEADER record is classified as Block
exactly when the content type was 1 (code 172), a block handle (code 344)
appeared, or an explicit block location coordinate (codes 15/25) appeared;
a 3-axis block scale, a block rotation (code 43) or a block connection type
(code 176) alone never triggers Block, contrary to the claim.  Otherwise the
content is MText exactly when free-text fragments were collected, else
None. -/
theorem C7_mleader_content_classification (st : MLeaderAcc) (ent : Entity)
    (h : finishMLeader st = .ok ent) :
    ∃ m : MLeader, ent = .mleader m ∧
      ((∃ blk, m.content = MLeaderContent.block blk) ↔
        (st.content_type = Option.some 1 ∨ st.block_handle.isSome = true ∨
          st.block_location_x.isSome = true ∨ st.block_location_y.isSome = true)) ∧
      (¬ (st.content_type = Option.some 1 ∨ st.block_handle.isSome = true ∨
          st.block_location_x.isSome = true ∨ st.block_location_y.isSome = true) →
        (¬ st.text_lines.isEmpty = true → ∃ txt loc, m.content = .mtext txt loc) ∧
        (st.text_lines.isEmpty = true → m.content = MLeaderContent.none)) := by
  unfold finishMLeader at h
  try simp only [] at h
  split at h
  · exact Except.noConfusion h
  · split at h
    · exact Except.noConfusion h
    · split at h
      all_goals split at h
      all_goals try exact Except.noConfusion h
      all_goals (injection h with h; subst h; refine ⟨_, rfl, ?_, ?_⟩)
      all_goals first
        | exact (mleaderContentClassify _ _ _ _ _).1
        | exact (mleaderContentClassify _ _ _ _ _).2

/-- C7 counterexample: a successfully parsed MULTILEADER record that carried
a block rotation (code 43, a block-identifying field per the claim) but no
handle/location/content-type is classified None, not Block. -/
theorem C7_mleader_rotation_only_not_block :
    parseMLeader 8 (DxfReader.new ["10", "1", "20", "2", "43", "30", "0", "SEQ"]) =
      .ok (.mleader ⟨"0", Option.none, [⟨[⟨((1 : ℚ) : ℝ), ((2 : ℚ) : ℝ)⟩]⟩],
        MLeaderContent.none, Option.none, Option.none, false, Option.none, Option.none⟩,
        ⟨[], Option.some (0, "SEQ"), 8⟩) := by
  with_unfolding_all rfl

/-- C7 witness: the classification theorem applied to the accumulator of a
rotation-only record. -/
theorem C7_mleader_content_classification_witness :
    finishMLeader { MLeaderAcc.init with
        current_line := [⟨((1 : ℚ) : ℝ), ((2 : ℚ) : ℝ)⟩],
        block_rotation := Option.some ((30 : ℚ) : ℝ) } =
      .ok (.mleader ⟨"0", Option.none, [⟨[⟨((1 : ℚ) : ℝ), ((2 : ℚ) : ℝ)⟩]⟩],
        MLeaderContent.none, Option.none, Option.none, false, Option.none,
        Option.none⟩) ∧
    (∃ m : MLeader,
      (Entity.mleader ⟨"0", Option.none, [⟨[⟨((1 : ℚ) : ℝ), ((2 : ℚ) : ℝ)⟩]⟩],
        MLeaderContent.none, Option.none, Option.none, false, Option.none,
        Option.none⟩) = .mleader m ∧
      ((∃ blk, m.content = MLeaderContent.block blk) ↔
        (({ MLeaderAcc.init with
            current_line := [⟨((1 : ℚ) : ℝ), ((2 : ℚ) : ℝ)⟩],
            block_rotation := Option.some ((30 : ℚ) : ℝ) } : MLeaderAcc).content_type =
              Option.some 1 ∨
          ({ MLeaderAcc.init with
            current_line := [⟨((1 : ℚ) : ℝ), ((2 : ℚ) : ℝ)⟩],
            block_rotation := Option.some ((30 : ℚ) : ℝ) } : MLeaderAcc).block_handle.isSome =
              true ∨
          ({ MLeaderAcc.init with
            current_line := [⟨((1 : ℚ) : ℝ), ((2 : ℚ) : ℝ)⟩],
            block_rotation := Option.some ((30 : ℚ) : ℝ) } : MLeaderAcc).block_location_x.isSome =
              true ∨
          ({ MLeaderAcc.init with
            current_line := [⟨((1 : ℚ) : ℝ), ((2 : ℚ) : ℝ)⟩],
            block_rotation := Option.some ((30 : ℚ) : ℝ) } : MLeaderAcc).block_location_y.isSome =
              true)) ∧
      (¬ (({ MLeaderAcc.init with
            current_line := [⟨((1 : ℚ) : ℝ), ((2 : ℚ) : ℝ)⟩],
            block_rotation := Option.some ((30 : ℚ) : ℝ) } : MLeaderAcc).content_type =
              Option.some 1 ∨
          ({ MLeaderAcc.init with
            current_line := [⟨((1 : ℚ) : ℝ), ((2 : ℚ) : ℝ)⟩],
            block_rotation := Option.some ((30 : ℚ) : ℝ) } : MLeaderAcc).block_handle.isSome =
              true ∨
          ({ MLeaderAcc.init with
            current_line := [⟨((1 : ℚ) : ℝ), ((2 : ℚ) : ℝ)⟩],
            block_rotation := Option.some ((30 : ℚ) : ℝ) } : MLeaderAcc).block_location_x.isSome =
              true ∨
          ({ MLeaderAcc.init with
            current_line := [⟨((1 : ℚ) : ℝ), ((2 : ℚ) : ℝ)⟩],
            block_rotation := Option.some ((30 : ℚ) : ℝ) } : MLeaderAcc).block_location_y.isSome =
              true) →
        (¬ ({ MLeaderAcc.init with
            current_line := [⟨((1 : ℚ) : ℝ), ((2 : ℚ) : ℝ)⟩],
            block_rotation := Option.some ((30 : ℚ) : ℝ) } : MLeaderAcc).text_lines.isEmpty =
              true → ∃ txt loc, m.content = .mtext txt loc) ∧
        (({ MLeaderAcc.init with
            current_line := [⟨((1 : ℚ) : ℝ), ((2 : ℚ) : ℝ)⟩],
            block_rotation := Option.some ((30 : ℚ) : ℝ) } : MLeaderAcc).text_lines.isEmpty =
              true → m.content = MLeaderContent.none))) :=
  ⟨by with_unfolding_all rfl,
    C7_mleader_content_classification _ _ (by with_unfolding_all rfl)⟩

theorem ereal_coe_min (a b : ℝ) :
    Min.min (a : EReal) (b : EReal) = ((Min.min a b : ℝ) : EReal) := by
  rcases le_total a b with h | h
  · rw [min_eq_left (EReal.coe_le_coe_iff.mpr h), min_eq_left h]
  · rw [min_eq_right (EReal.coe_le_coe_iff.mpr h), min_eq_right h]

theorem ereal_coe_max (a b : ℝ) :
    Max.max (a : EReal) (b : EReal) = ((Max.max a b : ℝ) : EReal) := by
  rcases le_total a b with h | h
  · rw [max_eq_right (EReal.coe_le_coe_iff.mpr h), max_eq_right h]
  · rw [max_eq_left (EReal.coe_le_coe_iff.mpr h), max_eq_left h]

theorem empty_isEmpty : Bounds2D.empty.isEmpty :=
  Or.inl bot_lt_top

theorem coe_box_not_isEmpty (a b c d : ℝ) (h1 : a ≤ c) (h2 : b ≤ d) :
    ¬ (Bounds2D.mk ⟨(a : EReal), (b : EReal)⟩ ⟨(c : EReal), (d : EReal)⟩).isEmpty := by
  rw [Bounds2D.isEmpty]
  push_neg
  exact ⟨EReal.coe_le_coe_iff.mpr h1, EReal.coe_le_coe_iff.mpr h2⟩

theorem includePoint_empty (p : Point2) :
    Bounds2D.empty.includePoint p =
      ⟨⟨(p.x : EReal), (p.y : EReal)⟩, ⟨(p.x : EReal), (p.y : EReal)⟩⟩ := by
  delta Bounds2D.includePoint
  rw [if_pos empty_isEmpty]
  rfl

theorem includePoint_coe (a b c d x y : ℝ) (h1 : a ≤ c) (h2 : b ≤ d) :
    Bounds2D.includePoint ⟨⟨(a : EReal), (b : EReal)⟩, ⟨(c : EReal), (d : EReal)⟩⟩
        ⟨x, y⟩ =
      ⟨⟨((Min.min a x : ℝ) : EReal), ((Min.min b y : ℝ) : EReal)⟩,
        ⟨((Max.max c x : ℝ) : EReal), ((Max.max d y : ℝ) : EReal)⟩⟩ := by
  delta Bounds2D.includePoint
  rw [if_neg (coe_box_not_isEmpty a b c d h1 h2)]
  simp only [ereal_coe_min, ereal_coe_max]

theorem includeBounds_empty_left (a b c d : ℝ) (h1 : a ≤ c) (h2 : b ≤ d) :
    Bounds2D.empty.includeBounds
        ⟨⟨(a : EReal), (b : EReal)⟩, ⟨(c : EReal), (d : EReal)⟩⟩ =
      ⟨⟨(a : EReal), (b : EReal)⟩, ⟨(c : EReal), (d : EReal)⟩⟩ := by
  rw [Bounds2D.includeBounds, if_neg (coe_box_not_isEmpty a b c d h1 h2)]
  simp only []
  rw [if_pos empty_isEmpty]
  rw [if_neg (coe_box_not_isEmpty a b a b le_rfl le_rfl)]
  simp only [ereal_coe_min, ereal_coe_max]
  rw [min_eq_left h1, min_eq_left h2, max_eq_right h1, max_eq_right h2]

theorem includeBounds_coe (a b c d a2 b2 c2 d2 : ℝ) (h1 : a ≤ c) (h2 : b ≤ d)
    (h3 : a2 ≤ c2) (h4 : b2 ≤ d2) :
    Bounds2D.includeBounds
        ⟨⟨(a : EReal), (b : EReal)⟩, ⟨(c : EReal), (d : EReal)⟩⟩
        ⟨⟨(a2 : EReal), (b2 : EReal)⟩, ⟨(c2 : EReal), (d2 : EReal)⟩⟩ =
      ⟨⟨((Min.min a a2 : ℝ) : EReal), ((Min.min b b2 : ℝ) : EReal)⟩,
        ⟨((Max.max c c2 : ℝ) : EReal), ((Max.max d d2 : ℝ) : EReal)⟩⟩ := by
  rw [Bounds2D.includeBounds, if_neg (coe_box_not_isEmpty a2 b2 c2 d2 h3 h4)]
  simp only []
  rw [if_neg (coe_box_not_isEmpty a b c d h1 h2)]
  simp only [ereal_coe_min, ereal_coe_max]
  rw [if_neg (coe_box_not_isEmpty _ _ _ _
    (le_trans (min_le_right a a2) (le_max_right c a2))
    (le_trans (min_le_right b b2) (le_max_right d b2)))]
  try simp only [ereal_coe_min, ereal_coe_max]
  rw [min_eq_left (le_trans (min_le_right a a2) h3),
    min_eq_left (le_trans (min_le_right b b2) h4),
    show Max.max (Max.max c a2) c2 = Max.max c c2 by
      rw [max_assoc, max_eq_right h3],
    show Max.max (Max.max d b2) d2 = Max.max d d2 by
      rw [max_assoc, max_eq_right h4]]


theorem lineEntity_bounds_eval :
    Entity.bounds (.line ⟨⟨((0 : ℚ) : ℝ), ((0 : ℚ) : ℝ)⟩,
        ⟨((10 : ℚ) : ℝ), ((0 : ℚ) : ℝ)⟩, "0"⟩) =
      Option.some ⟨⟨((0 : ℝ) : EReal), ((0 : ℝ) : EReal)⟩,
        ⟨((10 : ℝ) : EReal), ((0 : ℝ) : EReal)⟩⟩ := by
  unfold Entity.bounds
  simp only []
  rw [includePoint_empty]
  rw [includePoint_coe _ _ _ _ _ _ le_rfl le_rfl]
  rw [if_neg (coe_box_not_isEmpty _ _ _ _ (by push_cast; norm_num [min_le_iff, le_max_iff])
    (by push_cast; norm_num [min_le_iff, le_max_iff]))]
  simp only [Option.some.injEq, Bounds2D.mk.injEq, BPoint.mk.injEq, EReal.coe_eq_coe_iff]
  norm_num [min_def, max_def]

theorem circleEntity_bounds_eval :
    Entity.bounds (.circle ⟨⟨((5 : ℚ) : ℝ), ((5 : ℚ) : ℝ)⟩, ((2 : ℚ) : ℝ), "ANNOT"⟩) =
      Option.some ⟨⟨((3 : ℝ) : EReal), ((3 : ℝ) : EReal)⟩,
        ⟨((7 : ℝ) : EReal), ((7 : ℝ) : EReal)⟩⟩ := by
  unfold Entity.bounds
  simp only []
  rw [includePoint_empty]
  rw [includePoint_coe _ _ _ _ _ _ le_rfl le_rfl]
  rw [if_neg (coe_box_not_isEmpty _ _ _ _
    (by rw [abs_of_nonneg (by positivity)]; push_cast; norm_num [min_le_iff, le_max_iff])
    (by rw [abs_of_nonneg (by positivity)]; push_cast; norm_num [min_le_iff, le_max_iff]))]
  simp only [Option.some.injEq, Bounds2D.mk.injEq, BPoint.mk.injEq, EReal.coe_eq_coe_iff]
  rw [abs_of_nonneg (by positivity : (0 : ℝ) ≤ ((2 : ℚ) : ℝ))]
  norm_num [min_def, max_def]


theorem sampleDoc_parse :
    parse 64 ["0", "SECTION", "2", "ENTITIES",
      "0", "LINE", "8", "0", "10", "0", "20", "0", "11", "10", "21", "0",
      "0", "CIRCLE", "8", "ANNOT", "10", "5", "20", "5", "40", "2",
      "0", "ENDSEC", "0", "EOF"] =
      .ok (⟨[("ANNOT", ⟨"ANNOT", true⟩), ("0", ⟨"0", true⟩)],
      [(0, .line ⟨⟨((0 : ℚ) : ℝ), ((0 : ℚ) : ℝ)⟩, ⟨((10 : ℚ) : ℝ), ((0 : ℚ) : ℝ)⟩, "0"⟩),
        (1, .circle ⟨⟨((5 : ℚ) : ℝ), ((5 : ℚ) : ℝ)⟩, ((2 : ℚ) : ℝ), "ANNOT"⟩)], 2,
      [], [], [], [], Option.none, Option.none⟩ : Document) := by
  with_unfolding_all rfl

theorem sampleDoc_bounds :
    Document.bounds (⟨[("ANNOT", ⟨"ANNOT", true⟩), ("0", ⟨"0", true⟩)],
      [(0, .line ⟨⟨((0 : ℚ) : ℝ), ((0 : ℚ) : ℝ)⟩, ⟨((10 : ℚ) : ℝ), ((0 : ℚ) : ℝ)⟩, "0"⟩),
        (1, .circle ⟨⟨((5 : ℚ) : ℝ), ((5 : ℚ) : ℝ)⟩, ((2 : ℚ) : ℝ), "ANNOT"⟩)], 2,
      [], [], [], [], Option.none, Option.none⟩ : Document) =
      Option.some ⟨⟨((0 : ℝ) : EReal), ((0 : ℝ) : EReal)⟩,
        ⟨((10 : ℝ) : EReal), ((7 : ℝ) : EReal)⟩⟩ := by
  unfold Document.bounds
  simp only [List.foldl_cons, List.foldl_nil]
  rw [lineEntity_bounds_eval, circleEntity_bounds_eval]
  simp only []
  rw [includeBounds_empty_left _ _ _ _ (by norm_num) (by norm_num)]
  rw [includeBounds_coe _ _ _ _ _ _ _ _ (by norm_num) (by norm_num) (by norm_num)
    (by norm_num)]
  simp only [if_true]
  simp only [Option.some.injEq, Bounds2D.mk.injEq, BPoint.mk.injEq, EReal.coe_eq_coe_iff]
  norm_num [min_def, max_def]

/-- C3: the end-to-end LINE plus CIRCLE scenario yields 2 layers and
2 entities as claimed, but the bounds are min (0,0), max (10,7) — the LINE
reaches x = 10, so the claimed max (7,7) is wrong in its x component. -/
theorem C3_line_circle_scenario :
    parse 64 ["0", "SECTION", "2", "ENTITIES",
      "0", "LINE", "8", "0", "10", "0", "20", "0", "11", "10", "21", "0",
      "0", "CIRCLE", "8", "ANNOT", "10", "5", "20", "5", "40", "2",
      "0", "ENDSEC", "0", "EOF"] =
      .ok (⟨[("ANNOT", ⟨"ANNOT", true⟩), ("0", ⟨"0", true⟩)],
      [(0, .line ⟨⟨((0 : ℚ) : ℝ), ((0 : ℚ) : ℝ)⟩, ⟨((10 : ℚ) : ℝ), ((0 : ℚ) : ℝ)⟩, "0"⟩),
        (1, .circle ⟨⟨((5 : ℚ) : ℝ), ((5 : ℚ) : ℝ)⟩, ((2 : ℚ) : ℝ), "ANNOT"⟩)], 2,
      [], [], [], [], Option.none, Option.none⟩ : Document) ∧
    (⟨[("ANNOT", ⟨"ANNOT", true⟩), ("0", ⟨"0", true⟩)],
      [(0, .line ⟨⟨((0 : ℚ) : ℝ), ((0 : ℚ) : ℝ)⟩, ⟨((10 : ℚ) : ℝ), ((0 : ℚ) : ℝ)⟩, "0"⟩),
        (1, .circle ⟨⟨((5 : ℚ) : ℝ), ((5 : ℚ) : ℝ)⟩, ((2 : ℚ) : ℝ), "ANNOT"⟩)], 2,
      [], [], [], [], Option.none, Option.none⟩ : Document).layers.length = 2 ∧
    (⟨[("ANNOT", ⟨"ANNOT", true⟩), ("0", ⟨"0", true⟩)],
      [(0, .line ⟨⟨((0 : ℚ) : ℝ), ((0 : ℚ) : ℝ)⟩, ⟨((10 : ℚ) : ℝ), ((0 : ℚ) : ℝ)⟩, "0"⟩),
        (1, .circle ⟨⟨((5 : ℚ) : ℝ), ((5 : ℚ) : ℝ)⟩, ((2 : ℚ) : ℝ), "ANNOT"⟩)], 2,
      [], [], [], [], Option.none, Option.none⟩ : Document).entities.length = 2 ∧
    Document.bounds (⟨[("ANNOT", ⟨"ANNOT", true⟩), ("0", ⟨"0", true⟩)],
      [(0, .line ⟨⟨((0 : ℚ) : ℝ), ((0 : ℚ) : ℝ)⟩, ⟨((10 : ℚ) : ℝ), ((0 : ℚ) : ℝ)⟩, "0"⟩),
        (1, .circle ⟨⟨((5 : ℚ) : ℝ), ((5 : ℚ) : ℝ)⟩, ((2 : ℚ) : ℝ), "ANNOT"⟩)], 2,
      [], [], [], [], Option.none, Option.none⟩ : Document) =
      Option.some ⟨⟨((0 : ℝ) : EReal), ((0 : ℝ) : EReal)⟩,
        ⟨((10 : ℝ) : EReal), ((7 : ℝ) : EReal)⟩⟩ :=
  ⟨sampleDoc_parse, rfl, rfl, sampleDoc_bounds⟩

/-- C3 counterexample: the bounds of the parsed scenario document are not the
claimed box with max (7,7). -/
theorem C3_bounds_max_not_7_7 :
    parse 64 ["0", "SECTION", "2", "ENTITIES",
      "0", "LINE", "8", "0", "10", "0", "20", "0", "11", "10", "21", "0",
      "0", "CIRCLE", "8", "ANNOT", "10", "5", "20", "5", "40", "2",
      "0", "ENDSEC", "0", "EOF"] =
      .ok (⟨[("ANNOT", ⟨"ANNOT", true⟩), ("0", ⟨"0", true⟩)],
      [(0, .line ⟨⟨((0 : ℚ) : ℝ), ((0 : ℚ) : ℝ)⟩, ⟨((10 : ℚ) : ℝ), ((0 : ℚ) : ℝ)⟩, "0"⟩),
        (1, .circle ⟨⟨((5 : ℚ) : ℝ), ((5 : ℚ) : ℝ)⟩, ((2 : ℚ) : ℝ), "ANNOT"⟩)], 2,
      [], [], [], [], Option.none, Option.none⟩ : Document) ∧
    Document.bounds (⟨[("ANNOT", ⟨"ANNOT", true⟩), ("0", ⟨"0", true⟩)],
      [(0, .line ⟨⟨((0 : ℚ) : ℝ), ((0 : ℚ) : ℝ)⟩, ⟨((10 : ℚ) : ℝ), ((0 : ℚ) : ℝ)⟩, "0"⟩),
        (1, .circle ⟨⟨((5 : ℚ) : ℝ), ((5 : ℚ) : ℝ)⟩, ((2 : ℚ) : ℝ), "ANNOT"⟩)], 2,
      [], [], [], [], Option.none, Option.none⟩ : Document) ≠
      Option.some ⟨⟨((0 : ℝ) : EReal), ((0 : ℝ) : EReal)⟩,
        ⟨((7 : ℝ) : EReal), ((7 : ℝ) : EReal)⟩⟩ := by
  refine ⟨sampleDoc_parse, ?_⟩
  rw [sampleDoc_bounds]
  intro h
  have h2 := (Bounds2D.mk.injEq _ _ _ _).mp (Option.some.inj h)
  have h3 := (BPoint.mk.injEq _ _ _ _).mp h2.2
  have h4 : (10 : ℝ) = 7 := EReal.coe_eq_coe_iff.mp h3.1
  norm_num at h4

/-! ### C5: arc/ellipse bounds analysis -/

set_option maxHeartbeats 1000000


theorem tau_pos : (0 : ℝ) < tau := by
  unfold tau
  linarith [Real.pi_pos]

theorem oneE9_pos : (0 : ℝ) < oneE9 := by
  unfold oneE9
  norm_num

/-- `normalize_angle` lands in `[0, 2π)`. -/
theorem normalizeAngle_mem (a : ℝ) :
    0 ≤ normalizeAngle a ∧ normalizeAngle a < tau := by
  have ht := tau_pos
  unfold normalizeAngle rustRem rustTrunc
  simp only []
  by_cases hx : 0 ≤ a / tau
  · rw [if_pos hx]
    have h1 : ((⌊a / tau⌋ : ℤ) : ℝ) ≤ a / tau := Int.floor_le _
    have h2 : a / tau < ((⌊a / tau⌋ : ℤ) : ℝ) + 1 := Int.lt_floor_add_one _
    have h3 : tau * ((⌊a / tau⌋ : ℤ) : ℝ) ≤ a := by
      have := mul_le_mul_of_nonneg_left h1 (le_of_lt ht)
      rwa [mul_div_cancel₀ a (ne_of_gt ht)] at this
    have h4 : a < tau * ((⌊a / tau⌋ : ℤ) : ℝ) + tau := by
      have := mul_lt_mul_of_pos_left h2 ht
      rw [mul_div_cancel₀ a (ne_of_gt ht)] at this
      linarith [this]
    rw [if_neg (by push_neg; linarith)]
    constructor <;> linarith
  · rw [if_neg hx]
    have h1 : a / tau ≤ ((⌈a / tau⌉ : ℤ) : ℝ) := Int.le_ceil _
    have h2 : ((⌈a / tau⌉ : ℤ) : ℝ) < a / tau + 1 := Int.ceil_lt_add_one _
    have h3 : a ≤ tau * ((⌈a / tau⌉ : ℤ) : ℝ) := by
      have := mul_le_mul_of_nonneg_left h1 (le_of_lt ht)
      rwa [mul_div_cancel₀ a (ne_of_gt ht)] at this
    have h4 : tau * ((⌈a / tau⌉ : ℤ) : ℝ) < a + tau := by
      have := mul_lt_mul_of_pos_left h2 ht
      rw [mul_add, mul_div_cancel₀ a (ne_of_gt ht), mul_one] at this
      exact this
    by_cases hr : a - tau * ((⌈a / tau⌉ : ℤ) : ℝ) < 0
    · rw [if_pos hr]
      constructor <;> linarith
    · rw [if_neg hr]
      constructor <;> linarith

/-- The canonical interval starts in `[0, 2π)` and has a positive span of at
most one full turn. -/
theorem canonicalInterval_props (a b : ℝ) :
    0 ≤ (canonicalInterval a b).1 ∧ (canonicalInterval a b).1 < tau ∧
      (canonicalInterval a b).1 < (canonicalInterval a b).2 ∧
      (canonicalInterval a b).2 ≤ (canonicalInterval a b).1 + tau := by
  obtain ⟨hs0, hst⟩ := normalizeAngle_mem a
  obtain ⟨he0, het⟩ := normalizeAngle_mem b
  have ht := tau_pos
  have h9 := oneE9_pos
  unfold canonicalInterval
  simp only []
  split_ifs with h1 h2
  · refine ⟨hs0, hst, ?_, ?_⟩ <;> simp only [] <;> linarith
  · refine ⟨hs0, hst, ?_, ?_⟩ <;> simp only [] <;> linarith
  · push_neg at h1 h2
    have hgap : oneE9 ≤ |normalizeAngle b - normalizeAngle a| := h1
    rw [abs_of_nonneg (by linarith)] at hgap
    refine ⟨hs0, hst, ?_, ?_⟩ <;> simp only [] <;> linarith

/-- Closed form of the quadrant-candidate lift `while candidate < start`. -/
theorem liftAbove_eval (s base : ℝ) (hs0 : 0 ≤ s) (hst : s < tau)
    (hb0 : 0 ≤ base) (hbt : base < tau) :
    liftAbove s base = if base < s then base + tau else base := by
  have ht := tau_pos
  unfold liftAbove
  by_cases hb : base < s
  · rw [if_pos hb]
    have h1 : ⌈(s - base) / tau⌉ = 1 := by
      rw [Int.ceil_eq_iff]
      constructor
      · push_cast
        have : (0 : ℝ) < (s - base) / tau := div_pos (by linarith) ht
        linarith
      · push_cast
        rw [div_le_one ht]
        linarith
    rw [h1]
    norm_num
  · rw [if_neg hb]
    have h1 : ⌈(s - base) / tau⌉ ≤ 0 := by
      rw [Int.ceil_le]
      push_cast
      exact div_nonpos_of_nonpos_of_nonneg (by linarith) (le_of_lt ht)
    rw [max_eq_left h1]
    norm_num

/-- Every quadrant lift is at or above the interval start. -/
theorem liftAbove_ge (s base : ℝ) (hs0 : 0 ≤ s) (hst : s < tau)
    (hb0 : 0 ≤ base) (hbt : base < tau) : s ≤ liftAbove s base := by
  rw [liftAbove_eval s base hs0 hst hb0 hbt]
  split_ifs with h
  · linarith [tau_pos]
  · linarith [not_lt.mp h]

theorem quadrant_base_bounds (base : ℝ) (hb : base ∈ quadrantAngles) :
    0 ≤ base ∧ base < tau := by
  have hp := Real.pi_pos
  have ht : tau = 2 * Real.pi := rfl
  simp only [quadrantAngles, List.mem_cons, List.not_mem_nil, or_false] at hb
  rcases hb with h | h | h | h <;> subst h <;> constructor <;> linarith

/-- Left-fold minimum is below its seed. -/
theorem foldl_min_le_init {α : Type} [LinearOrder α] (xs : List α) :
    ∀ a : α, xs.foldl Min.min a ≤ a := by
  induction xs with
  | nil => intro a; exact le_rfl
  | cons x t ih => intro a; exact le_trans (ih (Min.min a x)) (min_le_left a x)

/-- Left-fold minimum is below every list element. -/
theorem foldl_min_le_mem {α : Type} [LinearOrder α] (xs : List α) :
    ∀ (a x : α), x ∈ xs → xs.foldl Min.min a ≤ x := by
  induction xs with
  | nil => intro a x hx; exact absurd hx (List.not_mem_nil x)
  | cons y t ih =>
      intro a x hx
      rcases List.mem_cons.mp hx with h | h
      · subst h
        exact le_trans (foldl_min_le_init t (Min.min a x)) (min_le_right a x)
      · exact ih (Min.min a y) x h

/-- Left-fold minimum is the seed or one of the list elements. -/
theorem foldl_min_mem {α : Type} [LinearOrder α] (xs : List α) :
    ∀ a : α, xs.foldl Min.min a = a ∨ xs.foldl Min.min a ∈ xs := by
  induction xs with
  | nil => intro a; exact Or.inl rfl
  | cons y t ih =>
      intro a
      rcases ih (Min.min a y) with heq | hmem
      · rcases min_cases a y with ⟨hm, _⟩ | ⟨hm, _⟩
        · exact Or.inl (heq.trans hm)
        · exact Or.inr (List.mem_cons.mpr (Or.inl (heq.trans hm)))
      · exact Or.inr (List.mem_cons.mpr (Or.inr hmem))

theorem foldl_le_max_init {α : Type} [LinearOrder α] (xs : List α) :
    ∀ a : α, a ≤ xs.foldl Max.max a := by
  induction xs with
  | nil => intro a; exact le_rfl
  | cons x t ih => intro a; exact le_trans (le_max_left a x) (ih (Max.max a x))

theorem foldl_le_max_mem {α : Type} [LinearOrder α] (xs : List α) :
    ∀ (a x : α), x ∈ xs → x ≤ xs.foldl Max.max a := by
  induction xs with
  | nil => intro a x hx; exact absurd hx (List.not_mem_nil x)
  | cons y t ih =>
      intro a x hx
      rcases List.mem_cons.mp hx with h | h
      · subst h
        exact le_trans (le_max_right a x) (foldl_le_max_init t (Max.max a x))
      · exact ih (Max.max a y) x h

theorem foldl_max_mem {α : Type} [LinearOrder α] (xs : List α) :
    ∀ a : α, xs.foldl Max.max a = a ∨ xs.foldl Max.max a ∈ xs := by
  induction xs with
  | nil => intro a; exact Or.inl rfl
  | cons y t ih =>
      intro a
      rcases ih (Max.max a y) with heq | hmem
      · rcases max_cases a y with ⟨hm, _⟩ | ⟨hm, _⟩
        · exact Or.inl (heq.trans hm)
        · exact Or.inr (List.mem_cons.mpr (Or.inl (heq.trans hm)))
      · exact Or.inr (List.mem_cons.mpr (Or.inr hmem))

/-- Folding points into a finite box keeps coordinates finite and computes
componentwise fold minima/maxima. -/
theorem foldIncludes_coe (ps : List Point2) :
    ∀ (a b c d : ℝ), a ≤ c → b ≤ d →
    foldIncludes ⟨⟨(a : EReal), (b : EReal)⟩, ⟨(c : EReal), (d : EReal)⟩⟩ ps =
      ⟨⟨(((ps.map Point2.x).foldl Min.min a : ℝ) : EReal),
          (((ps.map Point2.y).foldl Min.min b : ℝ) : EReal)⟩,
        ⟨(((ps.map Point2.x).foldl Max.max c : ℝ) : EReal),
          (((ps.map Point2.y).foldl Max.max d : ℝ) : EReal)⟩⟩ := by
  induction ps with
  | nil => intro a b c d h1 h2; rfl
  | cons p t ih =>
      intro a b c d h1 h2
      obtain ⟨px, py⟩ := p
      have hstep : foldIncludes
          (⟨⟨(a : EReal), (b : EReal)⟩, ⟨(c : EReal), (d : EReal)⟩⟩ : Bounds2D)
          (⟨px, py⟩ :: t) =
          foldIncludes (Bounds2D.includePoint
            ⟨⟨(a : EReal), (b : EReal)⟩, ⟨(c : EReal), (d : EReal)⟩⟩ ⟨px, py⟩) t := rfl
      rw [hstep, includePoint_coe a b c d px py h1 h2]
      rw [ih (Min.min a px) (Min.min b py) (Max.max c px) (Max.max d py)
        (le_trans (min_le_left a px) (le_trans h1 (le_max_left c px)))
        (le_trans (min_le_left b py) (le_trans h2 (le_max_left d py)))]
      simp only [List.map_cons, List.foldl_cons]

/-- Folding a nonempty point list into the empty box. -/
theorem foldIncludes_empty_cons (p : Point2) (ps : List Point2) :
    foldIncludes Bounds2D.empty (p :: ps) =
      ⟨⟨(((ps.map Point2.x).foldl Min.min p.x : ℝ) : EReal),
          (((ps.map Point2.y).foldl Min.min p.y : ℝ) : EReal)⟩,
        ⟨(((ps.map Point2.x).foldl Max.max p.x : ℝ) : EReal),
          (((ps.map Point2.y).foldl Max.max p.y : ℝ) : EReal)⟩⟩ := by
  obtain ⟨px, py⟩ := p
  have hstep : foldIncludes Bounds2D.empty (Point2.mk px py :: ps) =
      foldIncludes (Bounds2D.empty.includePoint ⟨px, py⟩) ps := rfl
  rw [hstep, includePoint_empty ⟨px, py⟩]
  exact foldIncludes_coe ps px py px py le_rfl le_rfl

/-- `arc_bounds` on a non-degenerate arc is the fold of the candidate points
(interval endpoints plus in-range quadrant lifts). -/
theorem arcBounds_eq_fold (arc : Arc) (b : Bounds2D) (s e : ℝ)
    (hci : canonicalInterval arc.start_angle arc.end_angle = (s, e))
    (h : f64Epsilon < |arc.radius|) :
    arcBounds arc b = foldIncludes b
      ((arcCandidateAngles s e).map (arcPoint arc.center |arc.radius|)) := by
  unfold arcBounds
  rw [if_neg (not_le.mpr h)]
  simp only []
  rw [hci]
  simp only [arcCandidateAngles, quadrantAngles, foldIncludes]
  by_cases h0 : liftAbove s 0 ≤ e <;>
    by_cases h1 : liftAbove s (Real.pi / 2) ≤ e <;>
    by_cases h2 : liftAbove s Real.pi ≤ e <;>
    by_cases h3 : liftAbove s (Real.pi / 2 * 3) ≤ e <;>
    simp [h0, h1, h2, h3, List.filterMap_cons]


theorem sin_eq_cos_a (x : ℝ) : Real.sin x = Real.cos (Real.pi / 2 - x) :=
  (Real.cos_pi_div_two_sub x).symm

theorem sin_eq_cos_b (x : ℝ) : Real.sin x = Real.cos (x - Real.pi / 2) := by
  rw [show x - Real.pi / 2 = -(Real.pi / 2 - x) by ring, Real.cos_neg,
    Real.cos_pi_div_two_sub]

theorem sin_eq_cos_c (x : ℝ) : Real.sin x = Real.cos (5 * Real.pi / 2 - x) := by
  rw [show 5 * Real.pi / 2 - x = Real.pi / 2 - x + 2 * Real.pi by ring,
    Real.cos_add_two_pi, Real.cos_pi_div_two_sub]

theorem sin_eq_cos_d (x : ℝ) : Real.sin x = Real.cos (x - 5 * Real.pi / 2) := by
  rw [show x - 5 * Real.pi / 2 = x - Real.pi / 2 - 2 * Real.pi by ring,
    Real.cos_sub_two_pi]
  exact sin_eq_cos_b x

theorem cos_liftAbove_zero (s : ℝ) (hs0 : 0 ≤ s) (hst : s < tau) :
    Real.cos (liftAbove s 0) = 1 := by
  rw [liftAbove_eval s 0 hs0 hst le_rfl tau_pos]
  split_ifs with h
  · rw [zero_add, show tau = 2 * Real.pi from rfl, Real.cos_two_pi]
  · exact Real.cos_zero

theorem cos_liftAbove_pi (s : ℝ) (hs0 : 0 ≤ s) (hst : s < tau) :
    Real.cos (liftAbove s Real.pi) = -1 := by
  have hp := Real.pi_pos
  have ht : tau = 2 * Real.pi := rfl
  rw [liftAbove_eval s Real.pi hs0 hst (le_of_lt hp) (by rw [ht]; linarith)]
  split_ifs with h
  · rw [ht, Real.cos_add_two_pi, Real.cos_pi]
  · exact Real.cos_pi

theorem sin_liftAbove_half_pi (s : ℝ) (hs0 : 0 ≤ s) (hst : s < tau) :
    Real.sin (liftAbove s (Real.pi / 2)) = 1 := by
  have hp := Real.pi_pos
  have ht : tau = 2 * Real.pi := rfl
  rw [liftAbove_eval s (Real.pi / 2) hs0 hst (by linarith) (by rw [ht]; linarith)]
  split_ifs with h
  · rw [ht, Real.sin_add_two_pi, Real.sin_pi_div_two]
  · exact Real.sin_pi_div_two

theorem sin_liftAbove_three_half_pi (s : ℝ) (hs0 : 0 ≤ s) (hst : s < tau) :
    Real.sin (liftAbove s (Real.pi / 2 * 3)) = -1 := by
  have hp := Real.pi_pos
  have ht : tau = 2 * Real.pi := rfl
  have hval : Real.sin (Real.pi / 2 * 3) = -1 := by
    rw [sin_eq_cos_b, show Real.pi / 2 * 3 - Real.pi / 2 = Real.pi by ring,
      Real.cos_pi]
  rw [liftAbove_eval s (Real.pi / 2 * 3) hs0 hst (by linarith) (by rw [ht]; linarith)]
  split_ifs with h
  · rw [ht, Real.sin_add_two_pi, hval]
  · exact hval

/-- If the lifted `0`/`2π` crossing is outside the interval, cosine on the
interval is bounded by its endpoint values. -/
theorem cos_le_endpoints (s e t : ℝ) (hs0 : 0 ≤ s) (hst : s < tau) (hse : s < e)
    (het : e ≤ s + tau) (ht : t ∈ Set.Icc s e) (hq : ¬ liftAbove s 0 ≤ e) :
    Real.cos t ≤ Max.max (Real.cos s) (Real.cos e) := by
  have hp := Real.pi_pos
  have htau : tau = 2 * Real.pi := rfl
  obtain ⟨hts, hte⟩ := ht
  rw [liftAbove_eval s 0 hs0 hst le_rfl tau_pos] at hq
  by_cases hsp : (0 : ℝ) < s
  · rw [if_pos hsp] at hq
    push_neg at hq
    rw [zero_add] at hq
    rcases le_total t Real.pi with htp | htp
    · exact le_max_of_le_left
        (Real.cos_le_cos_of_nonneg_of_le_pi hs0 htp hts)
    · have h3 : Real.cos (2 * Real.pi - t) ≤ Real.cos (2 * Real.pi - e) :=
        Real.cos_le_cos_of_nonneg_of_le_pi (by rw [htau] at hq; linarith)
          (by linarith) (by linarith)
      rw [Real.cos_two_pi_sub, Real.cos_two_pi_sub] at h3
      exact le_max_of_le_right h3
  · rw [if_neg hsp] at hq
    push_neg at hsp
    exact absurd (by linarith : (0 : ℝ) ≤ e) hq

/-- If the lifted `π` crossing is outside the interval, cosine on the interval
is bounded below by its endpoint values. -/
theorem cos_ge_endpoints (s e t : ℝ) (hs0 : 0 ≤ s) (hst : s < tau) (hse : s < e)
    (het : e ≤ s + tau) (ht : t ∈ Set.Icc s e) (hq : ¬ liftAbove s Real.pi ≤ e) :
    Min.min (Real.cos s) (Real.cos e) ≤ Real.cos t := by
  have hp := Real.pi_pos
  have htau : tau = 2 * Real.pi := rfl
  obtain ⟨hts, hte⟩ := ht
  rw [liftAbove_eval s Real.pi hs0 hst (le_of_lt hp) (by rw [htau]; linarith)] at hq
  by_cases hsp : Real.pi < s
  · rw [if_pos hsp] at hq
    push_neg at hq
    rw [htau] at hq
    rcases le_total t (2 * Real.pi) with htp | htp
    · have h3 : Real.cos (2 * Real.pi - s) ≤ Real.cos (2 * Real.pi - t) :=
        Real.cos_le_cos_of_nonneg_of_le_pi (by linarith) (by linarith) (by linarith)
      rw [Real.cos_two_pi_sub, Real.cos_two_pi_sub] at h3
      exact le_trans (min_le_left _ _) h3
    · have h3 : Real.cos (e - 2 * Real.pi) ≤ Real.cos (t - 2 * Real.pi) :=
        Real.cos_le_cos_of_nonneg_of_le_pi (by linarith) (by linarith) (by linarith)
      rw [Real.cos_sub_two_pi, Real.cos_sub_two_pi] at h3
      exact le_trans (min_le_right _ _) h3
  · rw [if_neg hsp] at hq
    push_neg at hq hsp
    have h3 : Real.cos e ≤ Real.cos t :=
      Real.cos_le_cos_of_nonneg_of_le_pi (by linarith) (by linarith) hte
    exact le_trans (min_le_right _ _) h3

/-- If the lifted `π/2` crossing is outside the interval, sine on the interval
is bounded by its endpoint values. -/
theorem sin_le_endpoints (s e t : ℝ) (hs0 : 0 ≤ s) (hst : s < tau) (hse : s < e)
    (het : e ≤ s + tau) (ht : t ∈ Set.Icc s e)
    (hq : ¬ liftAbove s (Real.pi / 2) ≤ e) :
    Real.sin t ≤ Max.max (Real.sin s) (Real.sin e) := by
  have hp := Real.pi_pos
  have htau : tau = 2 * Real.pi := rfl
  obtain ⟨hts, hte⟩ := ht
  rw [liftAbove_eval s (Real.pi / 2) hs0 hst (by linarith) (by rw [htau]; linarith)] at hq
  by_cases hsp : Real.pi / 2 < s
  · rw [if_pos hsp] at hq
    push_neg at hq
    rw [htau] at hq
    rcases le_total t (Real.pi / 2 * 3) with htp | htp
    · have h3 : Real.cos (t - Real.pi / 2) ≤ Real.cos (s - Real.pi / 2) :=
        Real.cos_le_cos_of_nonneg_of_le_pi (by linarith) (by linarith) (by linarith)
      rw [← sin_eq_cos_b, ← sin_eq_cos_b] at h3
      exact le_max_of_le_left h3
    · have h3 : Real.cos (5 * Real.pi / 2 - t) ≤ Real.cos (5 * Real.pi / 2 - e) :=
        Real.cos_le_cos_of_nonneg_of_le_pi (by linarith) (by linarith) (by linarith)
      rw [← sin_eq_cos_c, ← sin_eq_cos_c] at h3
      exact le_max_of_le_right h3
  · rw [if_neg hsp] at hq
    push_neg at hq hsp
    have h3 : Real.cos (Real.pi / 2 - t) ≤ Real.cos (Real.pi / 2 - e) :=
      Real.cos_le_cos_of_nonneg_of_le_pi (by linarith) (by linarith) (by linarith)
    rw [← sin_eq_cos_a, ← sin_eq_cos_a] at h3
    exact le_max_of_le_right h3

/-- If the lifted `3π/2` crossing is outside the interval, sine on the
interval is bounded below by its endpoint values. -/
theorem sin_ge_endpoints (s e t : ℝ) (hs0 : 0 ≤ s) (hst : s < tau) (hse : s < e)
    (het : e ≤ s + tau) (ht : t ∈ Set.Icc s e)
    (hq : ¬ liftAbove s (Real.pi / 2 * 3) ≤ e) :
    Min.min (Real.sin s) (Real.sin e) ≤ Real.sin t := by
  have hp := Real.pi_pos
  have htau : tau = 2 * Real.pi := rfl
  obtain ⟨hts, hte⟩ := ht
  rw [liftAbove_eval s (Real.pi / 2 * 3) hs0 hst (by linarith)
    (by rw [htau]; linarith)] at hq
  by_cases hsp : Real.pi / 2 * 3 < s
  · rw [if_pos hsp] at hq
    push_neg at hq
    rw [htau] at hq
    rcases le_total t (5 * Real.pi / 2) with htp | htp
    · have h3 : Real.cos (5 * Real.pi / 2 - s) ≤ Real.cos (5 * Real.pi / 2 - t) :=
        Real.cos_le_cos_of_nonneg_of_le_pi (by linarith) (by linarith) (by linarith)
      rw [← sin_eq_cos_c, ← sin_eq_cos_c] at h3
      exact le_trans (min_le_left _ _) h3
    · have h3 : Real.cos (e - 5 * Real.pi / 2) ≤ Real.cos (t - 5 * Real.pi / 2) :=
        Real.cos_le_cos_of_nonneg_of_le_pi (by linarith) (by linarith) (by linarith)
      rw [← sin_eq_cos_d, ← sin_eq_cos_d] at h3
      exact le_trans (min_le_right _ _) h3
  · rw [if_neg hsp] at hq
    push_neg at hq hsp
    rcases le_total t (Real.pi / 2) with htp | htp
    · have h3 : Real.cos (Real.pi / 2 - s) ≤ Real.cos (Real.pi / 2 - t) :=
        Real.cos_le_cos_of_nonneg_of_le_pi (by linarith) (by linarith) (by linarith)
      rw [← sin_eq_cos_a, ← sin_eq_cos_a] at h3
      exact le_trans (min_le_left _ _) h3
    · have h3 : Real.cos (e - Real.pi / 2) ≤ Real.cos (t - Real.pi / 2) :=
        Real.cos_le_cos_of_nonneg_of_le_pi (by linarith) (by linarith) (by linarith)
      rw [← sin_eq_cos_b, ← sin_eq_cos_b] at h3
      exact le_trans (min_le_right _ _) h3


/-- `arc_bounds` of a non-degenerate arc over the empty box is the exact
axis-aligned bounding box of the swept circular arc: each side of the box is
attained on the arc and bounds the whole arc. -/
theorem arcBounds_exact (arc : Arc) (h : f64Epsilon < |arc.radius|) :
    ∃ xl yl xh yh : ℝ,
      arcBounds arc Bounds2D.empty =
        ⟨⟨(xl : EReal), (yl : EReal)⟩, ⟨(xh : EReal), (yh : EReal)⟩⟩ ∧
      IsLeast (arcXSet arc) xl ∧ IsGreatest (arcXSet arc) xh ∧
      IsLeast (arcYSet arc) yl ∧ IsGreatest (arcYSet arc) yh := by
  obtain ⟨s, e, hci⟩ : ∃ s e, canonicalInterval arc.start_angle arc.end_angle = (s, e) :=
    ⟨_, _, rfl⟩
  obtain ⟨hs0, hst, hse, het⟩ := canonicalInterval_props arc.start_angle arc.end_angle
  rw [hci] at hs0 hst hse het
  simp only [] at hs0 hst hse het
  have hX : arcXSet arc =
      {v | ∃ t ∈ Set.Icc s e, v = arc.center.x + |arc.radius| * Real.cos t} := by
    unfold arcXSet
    rw [hci]
  have hY : arcYSet arc =
      {v | ∃ t ∈ Set.Icc s e, v = arc.center.y + |arc.radius| * Real.sin t} := by
    unfold arcYSet
    rw [hci]
  rw [hX, hY, arcBounds_eq_fold arc Bounds2D.empty s e hci h]
  set rest := quadrantAngles.filterMap
    (fun base => if liftAbove s base ≤ e then Option.some (liftAbove s base)
      else Option.none) with hrest
  have hcand : arcCandidateAngles s e = s :: e :: rest := rfl
  rw [hcand]
  simp only [List.map_cons]
  set P := arcPoint arc.center |arc.radius| with hP
  set ps := P e :: rest.map P with hps
  rw [foldIncludes_empty_cons (P s) ps]
  set xs := ps.map Point2.x with hxs
  set ys := ps.map Point2.y with hys
  have hPx : ∀ u : ℝ, (P u).x = arc.center.x + |arc.radius| * Real.cos u :=
    fun _ => rfl
  have hPy : ∀ u : ℝ, (P u).y = arc.center.y + |arc.radius| * Real.sin u :=
    fun _ => rfl
  have hRnn : (0 : ℝ) ≤ |arc.radius| := abs_nonneg _
  have hrest_Icc : ∀ t ∈ rest, t ∈ Set.Icc s e := by
    intro t htr
    rw [hrest] at htr
    obtain ⟨base, hb, hsome⟩ := List.mem_filterMap.mp htr
    obtain ⟨hb0, hbt⟩ := quadrant_base_bounds base hb
    by_cases hc : liftAbove s base ≤ e
    · rw [if_pos hc] at hsome
      obtain rfl := Option.some.inj hsome
      exact ⟨liftAbove_ge s base hs0 hst hb0 hbt, hc⟩
    · rw [if_neg hc] at hsome
      exact Option.noConfusion hsome
  have hmem_lift : ∀ base : ℝ, base ∈ quadrantAngles → liftAbove s base ≤ e →
      liftAbove s base ∈ rest := by
    intro base hb hc
    rw [hrest]
    exact List.mem_filterMap.mpr ⟨base, hb, by rw [if_pos hc]⟩
  have hx_lift : ∀ base : ℝ, base ∈ quadrantAngles → liftAbove s base ≤ e →
      (P (liftAbove s base)).x ∈ xs := by
    intro base hb hc
    rw [hxs, hps]
    exact List.mem_map_of_mem Point2.x
      (List.mem_cons_of_mem _ (List.mem_map_of_mem _ (hmem_lift base hb hc)))
  have hy_lift : ∀ base : ℝ, base ∈ quadrantAngles → liftAbove s base ≤ e →
      (P (liftAbove s base)).y ∈ ys := by
    intro base hb hc
    rw [hys, hps]
    exact List.mem_map_of_mem Point2.y
      (List.mem_cons_of_mem _ (List.mem_map_of_mem _ (hmem_lift base hb hc)))
  have hxe_mem : (P e).x ∈ xs := by
    rw [hxs, hps]
    exact List.mem_map_of_mem Point2.x (List.mem_cons_self _ _)
  have hye_mem : (P e).y ∈ ys := by
    rw [hys, hps]
    exact List.mem_map_of_mem Point2.y (List.mem_cons_self _ _)
  have hq0 : (0 : ℝ) ∈ quadrantAngles := List.mem_cons_self _ _
  have hq1 : Real.pi / 2 ∈ quadrantAngles :=
    List.mem_cons_of_mem _ (List.mem_cons_self _ _)
  have hq2 : Real.pi ∈ quadrantAngles :=
    List.mem_cons_of_mem _ (List.mem_cons_of_mem _ (List.mem_cons_self _ _))
  have hq3 : Real.pi / 2 * 3 ∈ quadrantAngles :=
    List.mem_cons_of_mem _
      (List.mem_cons_of_mem _ (List.mem_cons_of_mem _ (List.mem_cons_self _ _)))
  have hx_mem_set : ∀ v, v = (P s).x ∨ v ∈ xs →
      v ∈ {v | ∃ t ∈ Set.Icc s e, v = arc.center.x + |arc.radius| * Real.cos t} := by
    intro v hv
    rcases hv with heq | hmem
    · rw [heq, hPx s]
      exact ⟨s, ⟨le_rfl, le_of_lt hse⟩, rfl⟩
    · rw [hxs] at hmem
      obtain ⟨p, hp, hpx⟩ := List.mem_map.mp hmem
      rw [hps] at hp
      rcases List.mem_cons.mp hp with hp1 | hp2
      · rw [← hpx, hp1, hPx e]
        exact ⟨e, ⟨le_of_lt hse, le_rfl⟩, rfl⟩
      · obtain ⟨t, htr, rfl⟩ := List.mem_map.mp hp2
        rw [← hpx, hPx t]
        exact ⟨t, hrest_Icc t htr, rfl⟩
  have hy_mem_set : ∀ v, v = (P s).y ∨ v ∈ ys →
      v ∈ {v | ∃ t ∈ Set.Icc s e, v = arc.center.y + |arc.radius| * Real.sin t} := by
    intro v hv
    rcases hv with heq | hmem
    · rw [heq, hPy s]
      exact ⟨s, ⟨le_rfl, le_of_lt hse⟩, rfl⟩
    · rw [hys] at hmem
      obtain ⟨p, hp, hpy⟩ := List.mem_map.mp hmem
      rw [hps] at hp
      rcases List.mem_cons.mp hp with hp1 | hp2
      · rw [← hpy, hp1, hPy e]
        exact ⟨e, ⟨le_of_lt hse, le_rfl⟩, rfl⟩
      · obtain ⟨t, htr, rfl⟩ := List.mem_map.mp hp2
        rw [← hpy, hPy t]
        exact ⟨t, hrest_Icc t htr, rfl⟩
  refine ⟨_, _, _, _, rfl, ⟨?_, ?_⟩, ⟨?_, ?_⟩, ⟨?_, ?_⟩, ⟨?_, ?_⟩⟩
  · exact hx_mem_set _ (foldl_min_mem xs (P s).x)
  · rintro v ⟨t, htIcc, rfl⟩
    by_cases hq : liftAbove s Real.pi ≤ e
    · have h1 := foldl_min_le_mem xs (P s).x _ (hx_lift Real.pi hq2 hq)
      rw [hPx (liftAbove s Real.pi), cos_liftAbove_pi s hs0 hst] at h1
      have h2 : |arc.radius| * (-1) ≤ |arc.radius| * Real.cos t :=
        mul_le_mul_of_nonneg_left (Real.neg_one_le_cos t) hRnn
      linarith
    · have hmin := cos_ge_endpoints s e t hs0 hst hse het htIcc hq
      rcases min_cases (Real.cos s) (Real.cos e) with ⟨hm, _⟩ | ⟨hm, _⟩ <;>
        rw [hm] at hmin
      · have h1 := foldl_min_le_init xs (P s).x
        have h3 : (P s).x ≤ arc.center.x + |arc.radius| * Real.cos t := by
          rw [hPx s]
          have h2 : |arc.radius| * Real.cos s ≤ |arc.radius| * Real.cos t :=
            mul_le_mul_of_nonneg_left hmin hRnn
          linarith
        exact le_trans h1 h3
      · have h1 := foldl_min_le_mem xs (P s).x _ hxe_mem
        rw [hPx e] at h1
        have h2 : |arc.radius| * Real.cos e ≤ |arc.radius| * Real.cos t :=
          mul_le_mul_of_nonneg_left hmin hRnn
        linarith
  · exact hx_mem_set _ (foldl_max_mem xs (P s).x)
  · rintro v ⟨t, htIcc, rfl⟩
    by_cases hq : liftAbove s 0 ≤ e
    · have h1 := foldl_le_max_mem xs (P s).x _ (hx_lift 0 hq0 hq)
      rw [hPx (liftAbove s 0), cos_liftAbove_zero s hs0 hst] at h1
      have h2 : |arc.radius| * Real.cos t ≤ |arc.radius| * 1 :=
        mul_le_mul_of_nonneg_left (Real.cos_le_one t) hRnn
      linarith
    · have hmax := cos_le_endpoints s e t hs0 hst hse het htIcc hq
      rcases max_cases (Real.cos s) (Real.cos e) with ⟨hm, _⟩ | ⟨hm, _⟩ <;>
        rw [hm] at hmax
      · have h1 := foldl_le_max_init xs (P s).x
        have h3 : arc.center.x + |arc.radius| * Real.cos t ≤ (P s).x := by
          rw [hPx s]
          have h2 : |arc.radius| * Real.cos t ≤ |arc.radius| * Real.cos s :=
            mul_le_mul_of_nonneg_left hmax hRnn
          linarith
        exact le_trans h3 h1
      · have h1 := foldl_le_max_mem xs (P s).x _ hxe_mem
        rw [hPx e] at h1
        have h2 : |arc.radius| * Real.cos t ≤ |arc.radius| * Real.cos e :=
          mul_le_mul_of_nonneg_left hmax hRnn
        linarith
  · exact hy_mem_set _ (foldl_min_mem ys (P s).y)
  · rintro v ⟨t, htIcc, rfl⟩
    by_cases hq : liftAbove s (Real.pi / 2 * 3) ≤ e
    · have h1 := foldl_min_le_mem ys (P s).y _ (hy_lift (Real.pi / 2 * 3) hq3 hq)
      rw [hPy (liftAbove s (Real.pi / 2 * 3)),
        sin_liftAbove_three_half_pi s hs0 hst] at h1
      have h2 : |arc.radius| * (-1) ≤ |arc.radius| * Real.sin t :=
        mul_le_mul_of_nonneg_left (Real.neg_one_le_sin t) hRnn
      linarith
    · have hmin := sin_ge_endpoints s e t hs0 hst hse het htIcc hq
      rcases min_cases (Real.sin s) (Real.sin e) with ⟨hm, _⟩ | ⟨hm, _⟩ <;>
        rw [hm] at hmin
      · have h1 := foldl_min_le_init ys (P s).y
        have h3 : (P s).y ≤ arc.center.y + |arc.radius| * Real.sin t := by
          rw [hPy s]
          have h2 : |arc.radius| * Real.sin s ≤ |arc.radius| * Real.sin t :=
            mul_le_mul_of_nonneg_left hmin hRnn
          linarith
        exact le_trans h1 h3
      · have h1 := foldl_min_le_mem ys (P s).y _ hye_mem
        rw [hPy e] at h1
        have h2 : |arc.radius| * Real.sin e ≤ |arc.radius| * Real.sin t :=
          mul_le_mul_of_nonneg_left hmin hRnn
        linarith
  · exact hy_mem_set _ (foldl_max_mem ys (P s).y)
  · rintro v ⟨t, htIcc, rfl⟩
    by_cases hq : liftAbove s (Real.pi / 2) ≤ e
    · have h1 := foldl_le_max_mem ys (P s).y _ (hy_lift (Real.pi / 2) hq1 hq)
      rw [hPy (liftAbove s (Real.pi / 2)), sin_liftAbove_half_pi s hs0 hst] at h1
      have h2 : |arc.radius| * Real.sin t ≤ |arc.radius| * 1 :=
        mul_le_mul_of_nonneg_left (Real.sin_le_one t) hRnn
      linarith
    · have hmax := sin_le_endpoints s e t hs0 hst hse het htIcc hq
      rcases max_cases (Real.sin s) (Real.sin e) with ⟨hm, _⟩ | ⟨hm, _⟩ <;>
        rw [hm] at hmax
      · have h1 := foldl_le_max_init ys (P s).y
        have h3 : arc.center.y + |arc.radius| * Real.sin t ≤ (P s).y := by
          rw [hPy s]
          have h2 : |arc.radius| * Real.sin t ≤ |arc.radius| * Real.sin s :=
            mul_le_mul_of_nonneg_left hmax hRnn
          linarith
        exact le_trans h3 h1
      · have h1 := foldl_le_max_mem ys (P s).y _ hye_mem
        rw [hPy e] at h1
        have h2 : |arc.radius| * Real.sin t ≤ |arc.radius| * Real.sin e :=
          mul_le_mul_of_nonneg_left hmax hRnn
        linarith


/-- `ellipse_bounds` on a non-degenerate ellipse is a fold of sampled curve
points (no quadrant analysis). -/
theorem ellipseBounds_is_sampling (ell : Ellipse) (b : Bounds2D)
    (h : f64Epsilon < ell.major_axis.length) :
    ellipseBounds ell b = foldIncludes b
      ((List.range (ellipseStepCount (ellipseAdjustedEnd ell.start_parameter
          ell.end_parameter - ell.start_parameter) + 1)).map
        (fun i => ellipsePointAt ell (ellipseSampleParameter ell.start_parameter
          (ellipseAdjustedEnd ell.start_parameter ell.end_parameter -
            ell.start_parameter) i
          (ellipseStepCount (ellipseAdjustedEnd ell.start_parameter
            ell.end_parameter - ell.start_parameter))))) := by
  unfold ellipseBounds
  rw [if_neg (not_le.mpr h)]
  simp only [foldIncludes, List.foldl_map]

theorem normalizeAngle_zero : normalizeAngle 0 = 0 := by
  unfold normalizeAngle rustRem rustTrunc
  norm_num

theorem normalizeAngle_half_pi : normalizeAngle (Real.pi / 2) = Real.pi / 2 := by
  have hp := Real.pi_pos
  have hq : Real.pi / 2 / tau = 1 / 4 := by
    unfold tau
    rw [div_eq_div_iff (by linarith) (by norm_num)]
    ring
  unfold normalizeAngle rustRem rustTrunc
  simp only [hq]
  rw [if_pos (show (0 : ℝ) ≤ 1 / 4 by norm_num)]
  have hf : ⌊(1 / 4 : ℝ)⌋ = 0 := by
    rw [Int.floor_eq_zero_iff, Set.mem_Ico]
    constructor <;> norm_num
  rw [hf]
  push_cast
  rw [mul_zero, sub_zero]
  rw [if_neg (not_lt.mpr (by linarith : (0 : ℝ) ≤ Real.pi / 2))]

theorem canonicalInterval_zero_half_pi :
    canonicalInterval 0 (Real.pi / 2) = (0, Real.pi / 2) := by
  have hp := Real.pi_gt_three
  unfold canonicalInterval
  rw [normalizeAngle_zero, normalizeAngle_half_pi]
  simp only []
  rw [if_neg (by
    rw [sub_zero, abs_of_nonneg (by linarith)]
    push_neg
    unfold oneE9
    linarith)]
  rw [if_neg (not_lt.mpr (by linarith))]

theorem canonicalInterval_half_pi_zero :
    canonicalInterval (Real.pi / 2) 0 = (Real.pi / 2, 0 + tau) := by
  have hp := Real.pi_gt_three
  unfold canonicalInterval
  rw [normalizeAngle_zero, normalizeAngle_half_pi]
  simp only []
  rw [if_neg (by
    rw [zero_sub, abs_neg, abs_of_nonneg (by linarith)]
    push_neg
    unfold oneE9
    linarith)]
  rw [if_pos (by linarith)]

theorem f64Epsilon_lt_one : f64Epsilon < 1 := by
  unfold f64Epsilon
  rw [show ((-52 : ℤ) = -(52 : ℕ)) from rfl, zpow_neg, zpow_natCast]
  rw [inv_lt_one_iff₀]
  right
  norm_num

theorem liftAbove_zero_base (base : ℝ) (hb0 : 0 ≤ base) (hbt : base < tau) :
    liftAbove 0 base = base := by
  rw [liftAbove_eval 0 base le_rfl tau_pos hb0 hbt,
    if_neg (not_lt.mpr hb0)]

theorem arcPoint_unit_zero : arcPoint ⟨0, 0⟩ 1 0 = ⟨1, 0⟩ := by
  unfold arcPoint Point2.translate
  simp [Real.cos_zero, Real.sin_zero]

theorem arcPoint_unit_half_pi : arcPoint ⟨0, 0⟩ 1 (Real.pi / 2) = ⟨0, 1⟩ := by
  unfold arcPoint Point2.translate
  simp [Real.cos_pi_div_two, Real.sin_pi_div_two]

theorem arcPoint_unit_pi : arcPoint ⟨0, 0⟩ 1 Real.pi = ⟨-1, 0⟩ := by
  unfold arcPoint Point2.translate
  simp [Real.cos_pi, Real.sin_pi]

/-- The computed bounds of the quarter-circle hatch arc edge, regardless of
its clockwise orientation flag. -/
theorem hatch_cw_edge_bounds_eval :
    includeHatchEdgeBounds
        (HatchEdge.arc ⟨0, 0⟩ 1 0 (Real.pi / 2) false) Bounds2D.empty =
      ⟨⟨((0 : ℝ) : EReal), ((0 : ℝ) : EReal)⟩,
        ⟨((1 : ℝ) : EReal), ((1 : ℝ) : EReal)⟩⟩ := by
  have hp := Real.pi_gt_three
  have htau : tau = 2 * Real.pi := rfl
  have habs : |(1 : ℝ)| = 1 := abs_one
  have heps : f64Epsilon < |(1 : ℝ)| := by
    rw [habs]
    exact f64Epsilon_lt_one
  have harc : includeHatchEdgeBounds
      (HatchEdge.arc ⟨0, 0⟩ 1 0 (Real.pi / 2) false) Bounds2D.empty =
      arcBounds ⟨⟨0, 0⟩, 1, 0, Real.pi / 2, ""⟩ Bounds2D.empty := rfl
  rw [harc, arcBounds_eq_fold ⟨⟨0, 0⟩, 1, 0, Real.pi / 2, ""⟩ Bounds2D.empty
    0 (Real.pi / 2) canonicalInterval_zero_half_pi heps]
  have hl0 : liftAbove 0 0 = 0 := liftAbove_zero_base 0 le_rfl tau_pos
  have hl1 : liftAbove 0 (Real.pi / 2) = Real.pi / 2 :=
    liftAbove_zero_base (Real.pi / 2) (by linarith) (by rw [htau]; linarith)
  have hl2 : liftAbove 0 Real.pi = Real.pi :=
    liftAbove_zero_base Real.pi (by linarith) (by rw [htau]; linarith)
  have hl3 : liftAbove 0 (Real.pi / 2 * 3) = Real.pi / 2 * 3 :=
    liftAbove_zero_base (Real.pi / 2 * 3) (by linarith) (by rw [htau]; linarith)
  have hcand : arcCandidateAngles 0 (Real.pi / 2) = [0, Real.pi / 2, 0, Real.pi / 2] := by
    unfold arcCandidateAngles
    simp only [quadrantAngles, List.filterMap_cons, hl0, hl1, hl2, hl3]
    rw [if_pos (by linarith : (0 : ℝ) ≤ Real.pi / 2),
      if_pos (le_refl (Real.pi / 2)),
      if_neg (not_le.mpr (by linarith : Real.pi / 2 < Real.pi)),
      if_neg (not_le.mpr (by linarith : Real.pi / 2 < Real.pi / 2 * 3))]
    rfl
  rw [hcand]
  simp only [habs, List.map_cons, List.map_nil, arcPoint_unit_zero,
    arcPoint_unit_half_pi]
  rw [foldIncludes_empty_cons]
  simp only [List.map_cons, List.map_nil, List.foldl_cons, List.foldl_nil]
  simp only [Bounds2D.mk.injEq, BPoint.mk.injEq, EReal.coe_eq_coe_iff]
  norm_num [min_def, max_def]


/-- C5: Arc entity bounds are computed exactly by the canonical-interval plus
quadrant-crossing method (each box side is attained on the arc and bounds the
whole arc); but ellipse bounds are a fold of sampled curve points, not a
quadrant analysis, and hatch arc/ellipse boundary edges are processed with
their counter-clockwise flag ignored. -/
theorem C5_arc_exact_ellipse_sampled_ccw_ignored
    (arc : Arc) (harc : f64Epsilon < |arc.radius|)
    (ell : Ellipse) (hell : f64Epsilon < ell.major_axis.length)
    (c : Point2) (maj : Vector2) (r ratio sa ea : ℝ) (b : Bounds2D) :
    (∃ xl yl xh yh : ℝ,
      arcBounds arc Bounds2D.empty =
        ⟨⟨(xl : EReal), (yl : EReal)⟩, ⟨(xh : EReal), (yh : EReal)⟩⟩ ∧
      IsLeast (arcXSet arc) xl ∧ IsGreatest (arcXSet arc) xh ∧
      IsLeast (arcYSet arc) yl ∧ IsGreatest (arcYSet arc) yh) ∧
    (∃ N : ℕ, 16 ≤ N ∧
      ellipseBounds ell b = foldIncludes b ((List.range (N + 1)).map
        (fun i => ellipsePointAt ell (ellipseSampleParameter ell.start_parameter
          (ellipseAdjustedEnd ell.start_parameter ell.end_parameter -
            ell.start_parameter) i N)))) ∧
    includeHatchEdgeBounds (.arc c r sa ea true) b =
      includeHatchEdgeBounds (.arc c r sa ea false) b ∧
    includeHatchEdgeBounds (.ellipse c maj ratio sa ea true) b =
      includeHatchEdgeBounds (.ellipse c maj ratio sa ea false) b :=
  ⟨arcBounds_exact arc harc,
    ⟨ellipseStepCount (ellipseAdjustedEnd ell.start_parameter ell.end_parameter -
        ell.start_parameter), le_max_right _ _,
      ellipseBounds_is_sampling ell b hell⟩,
    rfl, rfl⟩

/-- C5 witness: the amended theorem instantiated on a half-circle arc and an
axis-aligned half ellipse. -/
theorem C5_arc_exact_ellipse_sampled_ccw_ignored_witness :
    f64Epsilon < |(1 : ℝ)| ∧
    f64Epsilon < (Vector2.mk 1 0).length ∧
    ((∃ xl yl xh yh : ℝ,
      arcBounds ⟨⟨0, 0⟩, 1, 0, Real.pi, "0"⟩ Bounds2D.empty =
        ⟨⟨(xl : EReal), (yl : EReal)⟩, ⟨(xh : EReal), (yh : EReal)⟩⟩ ∧
      IsLeast (arcXSet ⟨⟨0, 0⟩, 1, 0, Real.pi, "0"⟩) xl ∧
      IsGreatest (arcXSet ⟨⟨0, 0⟩, 1, 0, Real.pi, "0"⟩) xh ∧
      IsLeast (arcYSet ⟨⟨0, 0⟩, 1, 0, Real.pi, "0"⟩) yl ∧
      IsGreatest (arcYSet ⟨⟨0, 0⟩, 1, 0, Real.pi, "0"⟩) yh) ∧
    (∃ N : ℕ, 16 ≤ N ∧
      ellipseBounds ⟨⟨0, 0⟩, ⟨1, 0⟩, 1 / 2, 0, Real.pi, "0"⟩ Bounds2D.empty =
        foldIncludes Bounds2D.empty ((List.range (N + 1)).map
          (fun i => ellipsePointAt ⟨⟨0, 0⟩, ⟨1, 0⟩, 1 / 2, 0, Real.pi, "0"⟩
            (ellipseSampleParameter 0 (ellipseAdjustedEnd 0 Real.pi - 0) i N)))) ∧
    includeHatchEdgeBounds (.arc ⟨0, 0⟩ 1 0 Real.pi true) Bounds2D.empty =
      includeHatchEdgeBounds (.arc ⟨0, 0⟩ 1 0 Real.pi false) Bounds2D.empty ∧
    includeHatchEdgeBounds (.ellipse ⟨0, 0⟩ ⟨1, 0⟩ (1 / 2) 0 Real.pi true)
        Bounds2D.empty =
      includeHatchEdgeBounds (.ellipse ⟨0, 0⟩ ⟨1, 0⟩ (1 / 2) 0 Real.pi false)
        Bounds2D.empty) := by
  have h1 : f64Epsilon < |(1 : ℝ)| := by
    rw [abs_one]
    exact f64Epsilon_lt_one
  have h2 : f64Epsilon < (Vector2.mk 1 0).length := by
    have hl : (Vector2.mk 1 0).length = 1 := by
      unfold Vector2.length
      norm_num
    rw [hl]
    exact f64Epsilon_lt_one
  exact ⟨h1, h2, C5_arc_exact_ellipse_sampled_ccw_ignored
    ⟨⟨0, 0⟩, 1, 0, Real.pi, "0"⟩ h1 ⟨⟨0, 0⟩, ⟨1, 0⟩, 1 / 2, 0, Real.pi, "0"⟩ h2
    ⟨0, 0⟩ ⟨1, 0⟩ 1 (1 / 2) 0 Real.pi Bounds2D.empty⟩

/-- C5 counterexample: the clockwise quarter-circle hatch arc edge from 0 to
π/2.  The code computes the box [0,1]×[0,1] (the counter-clockwise arc), but
the clockwise edge sweeps the parameter interval [π/2, 2π] and passes through
(−1, 0), which the computed box does not contain — the counter-clockwise flag
is not honored. -/
theorem C5_cw_hatch_edge_flag_not_honored :
    includeHatchEdgeBounds
        (HatchEdge.arc ⟨0, 0⟩ 1 0 (Real.pi / 2) false) Bounds2D.empty =
      ⟨⟨((0 : ℝ) : EReal), ((0 : ℝ) : EReal)⟩,
        ⟨((1 : ℝ) : EReal), ((1 : ℝ) : EReal)⟩⟩ ∧
    Real.pi ∈ Set.Icc (hatchArcEdgeInterval 0 (Real.pi / 2) false).1
      (hatchArcEdgeInterval 0 (Real.pi / 2) false).2 ∧
    arcPoint ⟨0, 0⟩ 1 Real.pi = ⟨-1, 0⟩ ∧
    ¬ (Bounds2D.mk ⟨((0 : ℝ) : EReal), ((0 : ℝ) : EReal)⟩
        ⟨((1 : ℝ) : EReal), ((1 : ℝ) : EReal)⟩).containsPt ⟨-1, 0⟩ := by
  have hp := Real.pi_gt_three
  have htau : tau = 2 * Real.pi := rfl
  refine ⟨hatch_cw_edge_bounds_eval, ?_, arcPoint_unit_pi, ?_⟩
  · have hint : hatchArcEdgeInterval 0 (Real.pi / 2) false =
        canonicalInterval (Real.pi / 2) 0 := rfl
    rw [hint, canonicalInterval_half_pi_zero]
    constructor
    · linarith
    · rw [htau]
      linarith
  · intro hcp
    unfold Bounds2D.containsPt at hcp
    obtain ⟨hc, -, -, -⟩ := hcp
    rw [EReal.coe_le_coe_iff] at hc
    have hx : (Point2.mk (-1) (0 : ℝ)).x = -1 := rfl
    rw [hx] at hc
    norm_num at hc

end Zcad
